import Mathlib

/-!
# Scene / transition / popup orchestration of `engine/window.cpp`

A shallow embedding of the `Window` class (`engine/window.hpp`, `engine/window.cpp`)
and of the `Dict` container (`engine/map.hpp`).

Modelling conventions.

* `float` values are exact rationals (`ℚ`): `0.0001f` is `1/10000`, `0.5f` is `1/2`.
  Infinities and NaN are outside the model.  Where the rounding of `float` decides
  a property (the accumulation of frame times), the functions with the suffix `F32`
  round every arithmetic result to binary32 with `f32`.
* `int` values are `Int`; no arithmetic on them can overflow in the modelled code.
* A `std::function` slot is `Option Nat`: `none` is an empty slot, `some k` is a
  callable with tag `k` (tag `0` is the no-op lambda of the member initialisers).
  Calling a callable appends an `Event` to the `trace` field of the window; what
  the callable itself does (for instance calling `navigate`) is a separate step
  of the embedding application.
* Calls into raylib are `Event.backend` entries of the trace; the values raylib
  returns (`GetScreenWidth`, `GetFrameTime`, ...) are inputs.
* Member functions take the window as first argument and return the window after
  the call.
-/

namespace IdleGame

/-! ## `Dict` (map.hpp) -/

/-- Container `Dict<std::string, V>`: the entries of `data_`, one per key.  The key
order of `std::map` is observed only by `print`, which is not modelled. -/
structure Dict (V : Type) where
  data_ : List (String × V)
deriving DecidableEq, Repr

namespace Dict

variable {V : Type}

/-- Result of `data_.find(key)`: the value stored under `key`, if there is one. -/
def find (d : Dict V) (key : String) : Option V :=
  d.data_.lookup key

/-- Member `Dict::contains`: `data_.find(key) != data_.end()`. -/
def contains (d : Dict V) (key : String) : Bool :=
  (d.find key).isSome

/-- Store `v` under `key` in the entry list: overwrite the entry of `key`, or add one. -/
def put : List (String × V) → String → V → List (String × V)
  | [], key, v => [(key, v)]
  | (k, x) :: rest, key, v =>
    if key = k then (k, v) :: rest else (k, x) :: put rest key v

/-- Member `Dict::operator[]` as a read, `data_[key]`: the stored value, or a
default-constructed value that is inserted when the key is missing.  Returns the
value and the container after the access. -/
def index [Inhabited V] (d : Dict V) (key : String) : V × Dict V :=
  match d.find key with
  | some v => (v, d)
  | none => (default, ⟨put d.data_ key default⟩)

/-- Assignment through `Dict::operator[]`, `d[key] = v`. -/
def assign [Inhabited V] (d : Dict V) (key : String) (v : V) : Dict V :=
  ⟨put (d.index key).2.data_ key v⟩

/-- Member `Dict::erase`. -/
def erase (d : Dict V) (key : String) : Dict V :=
  ⟨d.data_.filter (fun p => p.1 != key)⟩

/-- The keys present in the container. -/
def keys (d : Dict V) : List String :=
  d.data_.map Prod.fst

end Dict

/-! ## The arithmetic of `float` -/

/-- Rounding to the nearest integer, a tie going to the even neighbour. -/
def roundEven (x : ℚ) : ℤ :=
  if x - ⌊x⌋ < 1 / 2 then ⌊x⌋
  else if 1 / 2 < x - ⌊x⌋ then ⌊x⌋ + 1
  else if ⌊x⌋ % 2 = 0 then ⌊x⌋ else ⌊x⌋ + 1

/-- Exponent of the binade of `q` in IEEE 754 binary32: `⌊log₂ |q|⌋`, and `-126` in
the subnormal range. -/
def f32Exponent (q : ℚ) : ℤ :=
  max (Int.log 2 |q|) (-126)

/-- The `float` (IEEE 754 binary32, round to nearest, ties to even) that an
operation with the exact result `q` yields, for `|q|` below `2^128`: `q` rounded to
a multiple of the spacing `2^(e-23)` of its binade. -/
def f32 (q : ℚ) : ℚ :=
  (roundEven (q / 2 ^ (f32Exponent q - 23)) : ℚ) * 2 ^ (f32Exponent q - 23)

/-- The exact value `q` is a finite value of type `float`. -/
def isF32 (q : ℚ) : Prop :=
  f32 q = q ∧ |q| < 2 ^ 128

/-! ## Data model (window.hpp) -/

/-- A `std::function` slot: `none` when empty, `some k` for a callable tagged `k`. -/
abbrev Callback := Option Nat

/-- raylib `Color`. -/
structure Color where
  r : Nat
  g : Nat
  b : Nat
  a : Nat
deriving DecidableEq, Repr

/-- raylib `BLACK`. -/
def BLACK : Color := ⟨0, 0, 0, 255⟩

/-- Record `Window::Scene`. -/
structure Scene where
  onLoad : Callback := some 0
  onUnload : Callback := some 0
  onUpdate : Callback := some 0
  onDraw : Callback := some 0
deriving DecidableEq, Repr

instance : Inhabited Scene := ⟨{}⟩

/-- Record `Window::Transition`. -/
structure Transition where
  idle_color : Color := BLACK
  duration : ℚ := 1 / 2
  onEnter : Callback := some 0
  onExit : Callback := some 0
  onIdle : Callback := some 0
deriving DecidableEq, Repr

instance : Inhabited Transition := ⟨{}⟩

/-- Record `Window::Popup`. -/
structure Popup where
  onShow : Callback := some 0
  onHide : Callback := some 0
  onDraw : Callback := some 0
  onUpdate : Callback := some 0
deriving DecidableEq, Repr

instance : Inhabited Popup := ⟨{}⟩

/-- Record `Window::Options::General`. -/
structure Options.General where
  width : Int
  height : Int
  name : String
deriving DecidableEq, Repr

/-- Record `Window::Options::Scene`. -/
structure Options.Scene where
  start_scene : String
  fallback_scene : String := ""
  default_transition : String := ""
deriving DecidableEq, Repr

/-- Record `Window::Options`. -/
structure Options where
  general : Options.General
  scene : Options.Scene
deriving DecidableEq, Repr

/-- Record `Window::Window_Data`. -/
structure Window_Data where
  id : Int
  scale_width : ℚ
  scale_height : ℚ
deriving DecidableEq, Repr

/-- Enumeration `Window::WindowEvents`. -/
inductive WindowEvents where
  | Scale
  | Status
deriving DecidableEq, Repr

/-- Enumeration `Window::WindowStatus`. -/
inductive WindowStatus where
  | Close
  | Open
  | Minimize
  | Maximize
  | Focus
  | Blur
  | Fullscreen
deriving DecidableEq, Repr

/-- Record `Window::Scene_State`. -/
structure Scene_State where
  current : String := ""
  target : String := ""
  pending : String := ""
  fallback : String := ""
deriving DecidableEq, Repr

/-- Enumeration `Transition_State::State`. -/
inductive Transition_State.State where
  | Enter
  | Exit
  | Inactive
deriving DecidableEq, Repr

/-- Enumeration `Transition_State::RenderPhase`. -/
inductive Transition_State.RenderPhase where
  | None
  | Enter
  | Exit
deriving DecidableEq, Repr

/-- Record `Window::Transition_State`. -/
structure Transition_State where
  state : Transition_State.State := .Inactive
  want_change : Bool := false
  active_transition : String := ""
  time_accumulator : ℚ := 0
  active_duration : ℚ := 1 / 2
  render_phase : Transition_State.RenderPhase := .None
  render_progress : ℚ := 0
deriving DecidableEq, Repr

/-- Enumeration `Popup_State::State`. -/
inductive Popup_State.State where
  | Show
  | Active
  | Hide
  | Inactive
deriving DecidableEq, Repr

/-- Record `Window::Popup_State`. -/
structure Popup_State where
  state : Popup_State.State := .Inactive
  current : String := ""
  target : String := ""
deriving DecidableEq, Repr

/-- raylib `RenderTexture2D`, reduced to the fields the window reads: `id`,
`texture.width` and `texture.height`. -/
structure RenderTexture2D where
  id : Nat := 0
  width : Int := 0
  height : Int := 0
deriving DecidableEq, Repr

/-- Calls into raylib that change what is on screen or which resources exist. -/
inductive BackendCall where
  | SetConfigFlags
  | SetTraceLogLevel
  | InitWindow (width height : Int) (title : String)
  | SetTargetFPS (fps : Int)
  | BeginDrawing
  | ClearBackground
  | DrawRectangle (x y width height : Int) (color : Color)
  | EndDrawing
  | LoadRenderTexture (width height : Int)
  | UnloadRenderTexture (id : Nat)
  | CloseWindow
deriving DecidableEq, Repr

/-- What the window emits: calls of the stored callables and listeners, raylib
calls, and the line written to `std::cout`. -/
inductive Event where
  | sceneOnLoad (scene : String)
  | sceneOnUnload (scene : String)
  | sceneOnUpdate (scene : String) (dt : ℚ)
  | sceneOnDraw (scene : String)
  | transitionOnEnter (name : String) (dt prog : ℚ)
  | transitionOnExit (name : String) (dt prog : ℚ)
  | popupOnDraw (name : String)
  | scaleListener (cb : Nat) (scale : ℚ × ℚ) (size : Int × Int)
  | statusListener (cb : Nat) (status : WindowStatus)
  | backend (call : BackendCall)
  | cout (value : ℚ)
deriving DecidableEq, Repr

/-- Class `Window`: its data members, and the trace of what it has emitted. -/
structure Window where
  WindowData : Window_Data
  gScaleListeners : List Nat := []
  gStatusListeners : List Nat := []
  scenes : Dict Scene := ⟨[]⟩
  transitions : Dict Transition := ⟨[]⟩
  popups : Dict Popup := ⟨[]⟩
  SceneState : Scene_State := {}
  TransitionState : Transition_State := {}
  PopupState : Popup_State := {}
  canvas : RenderTexture2D := {}
  trace : List Event := []
deriving DecidableEq, Repr

/-- What raylib reports when asked: `GetScreenWidth`, `GetScreenHeight`,
`IsWindowResized`, and the id of the texture a `LoadRenderTexture` call returns. -/
structure Screen where
  width : Int
  height : Int
  resized : Bool := false
  textureId : Nat := 1
deriving DecidableEq, Repr

namespace Window

/-- Append one event to the trace. -/
def emit (w : Window) (e : Event) : Window :=
  { w with trace := w.trace ++ [e] }

/-- Indexed access `scenes[name]`: the value, and the window after the access. -/
def scenesAt (w : Window) (name : String) : Scene × Window :=
  ((w.scenes.index name).1, { w with scenes := (w.scenes.index name).2 })

/-- Indexed access `transitions[name]`. -/
def transitionsAt (w : Window) (name : String) : Transition × Window :=
  ((w.transitions.index name).1, { w with transitions := (w.transitions.index name).2 })

/-- Indexed access `popups[name]`. -/
def popupsAt (w : Window) (name : String) : Popup × Window :=
  ((w.popups.index name).1, { w with popups := (w.popups.index name).2 })

/-! ## `define` and `listen` -/

/-- Overload `Window::define(std::string, Scene)`. -/
def defineScene (w : Window) (name : String) (scene : Scene) : Window :=
  { w with scenes := w.scenes.assign name scene }

/-- Overload `Window::define(std::string, Transition)`. -/
def defineTransition (w : Window) (name : String) (tr : Transition) : Window :=
  { w with transitions := w.transitions.assign name tr }

/-- Overload `Window::define(std::string, Popup)`. -/
def definePopup (w : Window) (name : String) (popup : Popup) : Window :=
  { w with popups := w.popups.assign name popup }

/-- Overload `Window::listen` for scale listeners. -/
def listenScale (w : Window) (event : WindowEvents) (cb : Nat) : Window :=
  if event = WindowEvents.Scale then
    { w with gScaleListeners := w.gScaleListeners ++ [cb] }
  else w

/-- Overload `Window::listen` for status listeners. -/
def listenStatus (w : Window) (event : WindowEvents) (cb : Nat) : Window :=
  if event = WindowEvents.Status then
    { w with gStatusListeners := w.gStatusListeners ++ [cb] }
  else w

/-! ## Actions -/

/-- Member `Window::navigate`.  Its third parameter `freeze_scene` has no name in
the definition and is not read; the default `""` of `use_transition` is passed
explicitly. -/
def navigate (w : Window) (scene : String) (use_transition : String) : Window :=
  let w1 : Window := { w with SceneState := { w.SceneState with pending := scene } }
  let w2 : Window := { w1 with TransitionState := { w1.TransitionState with want_change := true } }
  if use_transition ≠ "" ∧ w2.transitions.contains use_transition = true then
    { w2 with TransitionState := { w2.TransitionState with active_transition := use_transition } }
  else
    { w2 with TransitionState := { w2.TransitionState with active_transition := "" } }

/-- Member `Window::show` (`show` is a reserved word of Lean). -/
def showPopup (w : Window) (popup : String) : Window :=
  if w.popups.contains popup = false then w
  else
    let w1 : Window := { w with PopupState := { w.PopupState with target := popup } }
    { w1 with PopupState := { w1.PopupState with state := Popup_State.State.Show } }

/-- Member `Window::hide`. -/
def hide (w : Window) (popup : String) : Window :=
  if w.PopupState.current = popup then
    { w with PopupState := { w.PopupState with state := Popup_State.State.Hide } }
  else w

/-! ## Helpers: selection and arithmetic -/

/-- Member `Window::norm`: `std::clamp(t / std::max(0.0001f, dur), 0.0f, 1.0f)`. -/
def norm (t dur : ℚ) : ℚ :=
  let q := t / max (1 / 10000) dur
  if q < 0 then 0 else if 1 < q then 1 else q

/-- Member `Window::pickTransitionName`. -/
def pickTransitionName (w : Window) (preferred fallback : String) : String :=
  if preferred ≠ "" ∧ w.transitions.contains preferred = true then preferred
  else if fallback ≠ "" ∧ w.transitions.contains fallback = true then fallback
  else ""

/-- Member `Window::pickTransitionDuration` (not `const`: it reads through
`operator[]`). -/
def pickTransitionDuration (w : Window) (name : String) : ℚ × Window :=
  if name ≠ "" ∧ w.transitions.contains name = true then
    ((w.transitionsAt name).1.duration, (w.transitionsAt name).2)
  else (1 / 2, w)

/-! ## Helpers: state machine -/

/-- Member `Window::beginEnterPhase`. -/
def beginEnterPhase (w : Window) : Window :=
  let w1 : Window :=
    { w with TransitionState := { w.TransitionState with state := Transition_State.State.Enter } }
  { w1 with TransitionState := { w1.TransitionState with time_accumulator := 0 } }

/-- Member `Window::beginExitPhase`. -/
def beginExitPhase (w : Window) : Window :=
  let w1 : Window :=
    { w with TransitionState := { w.TransitionState with state := Transition_State.State.Exit } }
  { w1 with TransitionState :=
      { w1.TransitionState with time_accumulator := w1.TransitionState.active_duration } }

/-- Member `Window::endTransition`. -/
def endTransition (w : Window) : Window :=
  let w1 : Window :=
    { w with TransitionState := { w.TransitionState with state := Transition_State.State.Inactive } }
  let w2 : Window :=
    { w1 with TransitionState := { w1.TransitionState with active_transition := "" } }
  { w2 with TransitionState := { w2.TransitionState with time_accumulator := 0 } }

/-- Scene-target resolution of `Window::tryStartTransition` (the `if` chain on
`SceneState.pending`).  A moved-from `pending` is left empty. -/
def resolveTarget (w : Window) (opts : Options) : Window :=
  if w.SceneState.pending ≠ "" ∧ w.scenes.contains w.SceneState.pending = true then
    { w with SceneState := { w.SceneState with target := w.SceneState.pending, pending := "" } }
  else if opts.scene.fallback_scene ≠ "" ∧ w.scenes.contains opts.scene.fallback_scene = true then
    { w with SceneState := { w.SceneState with target := opts.scene.fallback_scene } }
  else
    { w with SceneState := { w.SceneState with target := "" } }

/-- Member `Window::tryStartTransition`. -/
def tryStartTransition (w : Window) (opts : Options) : Window :=
  if ¬ (w.TransitionState.want_change = true ∧
        w.TransitionState.state = Transition_State.State.Inactive) then w
  else
    let w1 : Window := { w with TransitionState := { w.TransitionState with want_change := false } }
    let w2 := w1.resolveTarget opts
    let chosen := w2.pickTransitionName w2.TransitionState.active_transition
      opts.scene.default_transition
    let w3 : Window := { w2 with TransitionState := { w2.TransitionState with active_transition := chosen } }
    let w4 := (w3.pickTransitionDuration chosen).2
    let w5 : Window :=
      { w4 with TransitionState :=
          { w4.TransitionState with active_duration := (w3.pickTransitionDuration chosen).1 } }
    if w5.SceneState.target ≠ "" ∧ w5.SceneState.target ≠ w5.SceneState.current then
      w5.beginEnterPhase
    else
      { w5 with TransitionState := { w5.TransitionState with active_transition := "" } }

/-- The guarded call
`if (scenes.contains(name) && scenes[name].onUnload) scenes[name].onUnload();`. -/
def fireOnUnload (w : Window) (name : String) : Window :=
  if w.scenes.contains name = true then
    if (w.scenesAt name).1.onUnload.isSome = true then
      (((w.scenesAt name).2.scenesAt name).2).emit (Event.sceneOnUnload name)
    else (w.scenesAt name).2
  else w

/-- The guarded call
`if (scenes.contains(name) && scenes[name].onLoad) scenes[name].onLoad();`. -/
def fireOnLoad (w : Window) (name : String) : Window :=
  if w.scenes.contains name = true then
    if (w.scenesAt name).1.onLoad.isSome = true then
      (((w.scenesAt name).2.scenesAt name).2).emit (Event.sceneOnLoad name)
    else (w.scenesAt name).2
  else w

/-- Member `Window::advanceTransition`. -/
def advanceTransition (w : Window) (dt : ℚ) : Window :=
  let w0 : Window :=
    { w with TransitionState :=
        { w.TransitionState with
          render_phase := Transition_State.RenderPhase.None, render_progress := 0 } }
  match w0.TransitionState.state with
  | Transition_State.State.Inactive => w0
  | Transition_State.State.Enter =>
    let w1 : Window :=
      { w0 with TransitionState :=
          { w0.TransitionState with time_accumulator := w0.TransitionState.time_accumulator + dt } }
    let prog := norm w1.TransitionState.time_accumulator w1.TransitionState.active_duration
    let w2 : Window :=
      { w1 with TransitionState :=
          { w1.TransitionState with
            render_phase := Transition_State.RenderPhase.Enter, render_progress := prog } }
    if 1 ≤ prog then
      let w3 := w2.fireOnUnload w2.SceneState.current
      let w4 : Window := { w3 with SceneState := { w3.SceneState with current := w3.SceneState.target } }
      let w5 := w4.fireOnLoad w4.SceneState.current
      w5.beginExitPhase
    else w2
  | Transition_State.State.Exit =>
    let w1 : Window :=
      { w0 with TransitionState :=
          { w0.TransitionState with time_accumulator := w0.TransitionState.time_accumulator - dt } }
    let prog := norm w1.TransitionState.time_accumulator w1.TransitionState.active_duration
    let w2 : Window :=
      { w1 with TransitionState :=
          { w1.TransitionState with
            render_phase := Transition_State.RenderPhase.Exit, render_progress := prog } }
    if prog ≤ 0 then w2.endTransition else w2

/-! ## Helpers: phase calls -/

/-- Conversion `(int)x` of a `float`: truncation toward zero. -/
def truncToInt (q : ℚ) : Int :=
  if 0 ≤ q then Rat.floor q else Rat.ceil q

/-- Member `Window::drawDefaultWipe`. -/
def drawDefaultWipe (w : Window) (scr : Screen) (progress : ℚ) : Window :=
  w.emit (Event.backend
    (BackendCall.DrawRectangle 0 0 (truncToInt ((scr.width : ℚ) * progress)) scr.height BLACK))

/-- Member `Window::callOnEnter`. -/
def callOnEnter (w : Window) (scr : Screen) (dt prog : ℚ) : Window :=
  if w.TransitionState.active_transition ≠ "" ∧
      w.transitions.contains w.TransitionState.active_transition = true then
    if (w.transitionsAt w.TransitionState.active_transition).1.onEnter.isSome = true then
      (w.transitionsAt w.TransitionState.active_transition).2.emit
        (Event.transitionOnEnter w.TransitionState.active_transition dt prog)
    else (w.transitionsAt w.TransitionState.active_transition).2
  else w.drawDefaultWipe scr prog

/-- Member `Window::callOnExit`. -/
def callOnExit (w : Window) (scr : Screen) (dt prog : ℚ) : Window :=
  if w.TransitionState.active_transition ≠ "" ∧
      w.transitions.contains w.TransitionState.active_transition = true then
    if (w.transitionsAt w.TransitionState.active_transition).1.onExit.isSome = true then
      (w.transitionsAt w.TransitionState.active_transition).2.emit
        (Event.transitionOnExit w.TransitionState.active_transition dt prog)
    else (w.transitionsAt w.TransitionState.active_transition).2
  else w.drawDefaultWipe scr prog

/-! ## Canvas and scale -/

/-- Member `Window::ensureCanvas`. -/
def ensureCanvas (w : Window) (scr : Screen) : Window :=
  if scr.width ≤ 0 ∨ scr.height ≤ 0 then w
  else if w.canvas.id = 0 then
    { w.emit (Event.backend (BackendCall.LoadRenderTexture scr.width scr.height)) with
      canvas := ⟨scr.textureId, scr.width, scr.height⟩ }
  else if w.canvas.width ≠ scr.width ∨ w.canvas.height ≠ scr.height then
    { (w.emit (Event.backend (BackendCall.UnloadRenderTexture w.canvas.id))).emit
        (Event.backend (BackendCall.LoadRenderTexture scr.width scr.height)) with
      canvas := ⟨scr.textureId, scr.width, scr.height⟩ }
  else w

/-- Call every scale listener, in the order of `gScaleListeners`. -/
def fireScaleListeners (w : Window) (scale : ℚ × ℚ) (size : Int × Int) : Window :=
  w.gScaleListeners.foldl (fun acc cb => acc.emit (Event.scaleListener cb scale size)) w

/-- Call every status listener, in the order of `gStatusListeners`. -/
def fireStatusListeners (w : Window) (status : WindowStatus) : Window :=
  w.gStatusListeners.foldl (fun acc cb => acc.emit (Event.statusListener cb status)) w

/-- Member `Window::scaleCallbackExecution`.  The reference parameters `lastW` and
`lastH` are returned next to the window. -/
def scaleCallbackExecution (w : Window) (scr : Screen) (lastW lastH baseW baseH : Int) :
    Window × Int × Int :=
  if scr.width ≠ lastW ∨ scr.height ≠ lastH ∨ scr.resized = true then
    let w1 : Window :=
      { w with WindowData :=
          { w.WindowData with
            scale_width := if 0 < baseW then (scr.width : ℚ) / (baseW : ℚ) else 1 } }
    let w2 : Window :=
      { w1 with WindowData :=
          { w1.WindowData with
            scale_height := if 0 < baseH then (scr.height : ℚ) / (baseH : ℚ) else 1 } }
    let w3 := w2.emit (Event.cout w2.WindowData.scale_width)
    let w4 := w3.ensureCanvas scr
    (w4.fireScaleListeners (w4.WindowData.scale_width, w4.WindowData.scale_height)
      (scr.width, scr.height), scr.width, scr.height)
  else (w, lastW, lastH)

/-! ## `init`: start, frame loop, shutdown -/

/-- The starting-scene choice of `Window::init`.  The `throw` is `Except.error`,
carrying the message and the window as it is when the exception leaves `init`. -/
def chooseStart (w : Window) (options : Options) : Except (String × Window) Window :=
  if w.scenes.contains options.scene.start_scene = true then
    Except.ok { w with SceneState := { w.SceneState with current := options.scene.start_scene } }
  else if options.scene.fallback_scene ≠ "" ∧
      w.scenes.contains options.scene.fallback_scene = true then
    Except.ok { w with SceneState := { w.SceneState with current := options.scene.fallback_scene } }
  else
    Except.error
      ("Scene " ++ options.scene.start_scene ++ " was not defined and no fallback was stated.", w)

/-- The first `onLoad` call of `Window::init`. -/
def firstOnLoad (w : Window) : Window :=
  if w.SceneState.current ≠ "" ∧ w.scenes.contains w.SceneState.current = true then
    if (w.scenesAt w.SceneState.current).1.onLoad.isSome = true then
      (((w.scenesAt w.SceneState.current).2.scenesAt w.SceneState.current).2).emit
        (Event.sceneOnLoad w.SceneState.current)
    else (w.scenesAt w.SceneState.current).2
  else w

/-- Member `Window::init` up to the frame loop.  Returns the window together with
the locals `lastW` and `lastH`, or the error that is thrown. -/
def initStart (w : Window) (options : Options) (scr : Screen) :
    Except (String × Window) (Window × Int × Int) :=
  let w1 : Window := { w with WindowData := { w.WindowData with id := 0 } }
  let w2 : Window := { w1 with WindowData := { w1.WindowData with scale_width := 1 } }
  let w3 : Window := { w2 with WindowData := { w2.WindowData with scale_height := 1 } }
  match w3.chooseStart options with
  | Except.error e => Except.error e
  | Except.ok w4 =>
    let w5 : Window :=
      { w4 with TransitionState :=
          { w4.TransitionState with state := Transition_State.State.Inactive } }
    let w6 : Window := { w5 with TransitionState := { w5.TransitionState with time_accumulator := 0 } }
    let w7 : Window := { w6 with SceneState := { w6.SceneState with target := "" } }
    let w8 : Window := { w7 with SceneState := { w7.SceneState with pending := "" } }
    let w9 := (((w8.emit (Event.backend BackendCall.SetConfigFlags)).emit
      (Event.backend BackendCall.SetTraceLogLevel)).emit
      (Event.backend (BackendCall.InitWindow options.general.width options.general.height
        options.general.name))).emit (Event.backend (BackendCall.SetTargetFPS 60))
    let w10 := w9.fireStatusListeners WindowStatus.Open
    let w11 := w10.firstOnLoad
    let w12 := w11.ensureCanvas scr
    Except.ok (w12, scr.width, scr.height)

/-- The scene update at the top of the loop body. -/
def updateScene (w : Window) (dt : ℚ) : Window :=
  if w.SceneState.current ≠ "" ∧ w.scenes.contains w.SceneState.current = true then
    if (w.scenesAt w.SceneState.current).1.onUpdate.isSome = true then
      (((w.scenesAt w.SceneState.current).2.scenesAt w.SceneState.current).2).emit
        (Event.sceneOnUpdate w.SceneState.current dt)
    else (w.scenesAt w.SceneState.current).2
  else w

/-- The scene draw of the loop body. -/
def drawScene (w : Window) : Window :=
  if w.SceneState.current ≠ "" ∧ w.scenes.contains w.SceneState.current = true then
    if (w.scenesAt w.SceneState.current).1.onDraw.isSome = true then
      (((w.scenesAt w.SceneState.current).2.scenesAt w.SceneState.current).2).emit
        (Event.sceneOnDraw w.SceneState.current)
    else (w.scenesAt w.SceneState.current).2
  else w

/-- The transition overlay of the loop body. -/
def drawOverlay (w : Window) (scr : Screen) (dt : ℚ) : Window :=
  if w.TransitionState.render_phase ≠ Transition_State.RenderPhase.None then
    if w.TransitionState.render_phase = Transition_State.RenderPhase.Enter then
      w.callOnEnter scr dt w.TransitionState.render_progress
    else
      w.callOnExit scr dt w.TransitionState.render_progress
  else w

/-- The popup draw of the loop body. -/
def drawPopup (w : Window) : Window :=
  if w.PopupState.current ≠ "" ∧ w.popups.contains w.PopupState.current = true then
    if (w.popupsAt w.PopupState.current).1.onDraw.isSome = true then
      (((w.popupsAt w.PopupState.current).2.popupsAt w.PopupState.current).2).emit
        (Event.popupOnDraw w.PopupState.current)
    else (w.popupsAt w.PopupState.current).2
  else w

/-- The two state-machine calls of the loop body:
`tryStartTransition(options); advanceTransition(dt);`. -/
def tick (w : Window) (opts : Options) (dt : ℚ) : Window :=
  (w.tryStartTransition opts).advanceTransition dt

/-- One pass through the body of the `while (!WindowShouldClose())` loop, with
frame time `dt` and screen `scr`. -/
def frame (w : Window) (options : Options) (lastW lastH : Int) (dt : ℚ) (scr : Screen) :
    Window × Int × Int :=
  let w1 := w.updateScene dt
  let w2 := w1.tick options dt
  let r := w2.scaleCallbackExecution scr lastW lastH options.general.width options.general.height
  let w3 := (r.1.emit (Event.backend BackendCall.BeginDrawing)).emit
    (Event.backend BackendCall.ClearBackground)
  let w4 := w3.drawScene
  let w5 := w4.drawOverlay scr dt
  let w6 := w5.drawPopup
  (w6.emit (Event.backend BackendCall.EndDrawing), r.2.1, r.2.2)

/-- The frame loop: one `frame` per entry of `frames`, the frames seen before
`WindowShouldClose` answers true. -/
def frameLoop (options : Options) : Window × Int × Int → List (ℚ × Screen) → Window × Int × Int
  | st, [] => st
  | st, (dt, scr) :: rest => frameLoop options (frame st.1 options st.2.1 st.2.2 dt scr) rest

/-- The end of `Window::init`, after the loop. -/
def initFinish (w : Window) : Window :=
  let w1 :=
    if w.canvas.id ≠ 0 then w.emit (Event.backend (BackendCall.UnloadRenderTexture w.canvas.id))
    else w
  (w1.fireStatusListeners WindowStatus.Close).emit (Event.backend BackendCall.CloseWindow)

/-- Member `Window::init`. -/
def init (w : Window) (options : Options) (scr : Screen) (frames : List (ℚ × Screen)) :
    Except (String × Window) Window :=
  match w.initStart options scr with
  | Except.error e => Except.error e
  | Except.ok st => Except.ok (frameLoop options st frames).1.initFinish

/-- Successive ticks with the frame times `dts`. -/
def ticks (w : Window) (opts : Options) : List ℚ → Window
  | [] => w
  | dt :: rest => ticks (w.tick opts dt) opts rest

/-- Successive `advanceTransition` calls with the frame times `dts`. -/
def advances (w : Window) : List ℚ → Window
  | [] => w
  | dt :: rest => advances (w.advanceTransition dt) rest

/-- A default-constructed `Window`: the member initialisers of window.hpp;
`WindowData` has no initialiser and holds whatever `wd` is. -/
def fresh (wd : Window_Data) : Window :=
  { WindowData := wd }

/-- The render progress reported by each of the successive `advanceTransition`
calls with the frame times `dts`. -/
def progressReports (w : Window) : List ℚ → List ℚ
  | [] => []
  | dt :: rest =>
    (w.advanceTransition dt).TransitionState.render_progress ::
      progressReports (w.advanceTransition dt) rest

/-! ## The time arithmetic in `float` -/

/-- Member `Window::norm` with the arithmetic of `float`: the literal `0.0001f` is
the `float` nearest to `1/10000`, and the quotient is rounded. -/
def normF32 (t dur : ℚ) : ℚ :=
  let q := f32 (t / max (f32 (1 / 10000)) dur)
  if q < 0 then 0 else if 1 < q then 1 else q

/-- Member `Window::advanceTransition` with the arithmetic of `float`:
`time_accumulator += dt` and `time_accumulator -= dt` round their result, and the
progress is `normF32`. -/
def advanceTransitionF32 (w : Window) (dt : ℚ) : Window :=
  let w0 : Window :=
    { w with TransitionState :=
        { w.TransitionState with
          render_phase := Transition_State.RenderPhase.None, render_progress := 0 } }
  match w0.TransitionState.state with
  | Transition_State.State.Inactive => w0
  | Transition_State.State.Enter =>
    let w1 : Window :=
      { w0 with TransitionState :=
          { w0.TransitionState with
            time_accumulator := f32 (w0.TransitionState.time_accumulator + dt) } }
    let prog := normF32 w1.TransitionState.time_accumulator w1.TransitionState.active_duration
    let w2 : Window :=
      { w1 with TransitionState :=
          { w1.TransitionState with
            render_phase := Transition_State.RenderPhase.Enter, render_progress := prog } }
    if 1 ≤ prog then
      let w3 := w2.fireOnUnload w2.SceneState.current
      let w4 : Window := { w3 with SceneState := { w3.SceneState with current := w3.SceneState.target } }
      let w5 := w4.fireOnLoad w4.SceneState.current
      w5.beginExitPhase
    else w2
  | Transition_State.State.Exit =>
    let w1 : Window :=
      { w0 with TransitionState :=
          { w0.TransitionState with
            time_accumulator := f32 (w0.TransitionState.time_accumulator - dt) } }
    let prog := normF32 w1.TransitionState.time_accumulator w1.TransitionState.active_duration
    let w2 : Window :=
      { w1 with TransitionState :=
          { w1.TransitionState with
            render_phase := Transition_State.RenderPhase.Exit, render_progress := prog } }
    if prog ≤ 0 then w2.endTransition else w2

/-- Successive `advanceTransition` calls with the frame times `dts`, in the
arithmetic of `float`. -/
def advancesF32 (w : Window) : List ℚ → Window
  | [] => w
  | dt :: rest => advancesF32 (w.advanceTransitionF32 dt) rest

end Window

/-! ## Reachable states -/

/-- Windows the application can hold before it calls `init`: a default-constructed
window after any calls of `define`, `listen`, `navigate`, `show` and `hide`. -/
inductive PreInit : Window → Prop where
  | fresh (wd : Window_Data) : PreInit (Window.fresh wd)
  | defineScene {w : Window} (name : String) (scene : Scene) :
      PreInit w → PreInit (w.defineScene name scene)
  | defineTransition {w : Window} (name : String) (tr : Transition) :
      PreInit w → PreInit (w.defineTransition name tr)
  | definePopup {w : Window} (name : String) (popup : Popup) :
      PreInit w → PreInit (w.definePopup name popup)
  | listenScale {w : Window} (event : WindowEvents) (cb : Nat) :
      PreInit w → PreInit (w.listenScale event cb)
  | listenStatus {w : Window} (event : WindowEvents) (cb : Nat) :
      PreInit w → PreInit (w.listenStatus event cb)
  | navigate {w : Window} (scene use_transition : String) :
      PreInit w → PreInit (w.navigate scene use_transition)
  | showPopup {w : Window} (popup : String) : PreInit w → PreInit (w.showPopup popup)
  | hide {w : Window} (popup : String) : PreInit w → PreInit (w.hide popup)

/-- Windows reachable while `init` runs with `opts`: the window at the start of
the frame loop, and every window obtained from it by ticks, whole frames, and the
calls `define`, `listen`, `navigate`, `show` and `hide` that callbacks make. -/
inductive Reachable (opts : Options) : Window → Prop where
  | start {w0 w : Window} (scr : Screen) (lastW lastH : Int) :
      PreInit w0 → w0.initStart opts scr = Except.ok (w, lastW, lastH) → Reachable opts w
  | defineScene {w : Window} (name : String) (scene : Scene) :
      Reachable opts w → Reachable opts (w.defineScene name scene)
  | defineTransition {w : Window} (name : String) (tr : Transition) :
      Reachable opts w → Reachable opts (w.defineTransition name tr)
  | definePopup {w : Window} (name : String) (popup : Popup) :
      Reachable opts w → Reachable opts (w.definePopup name popup)
  | listenScale {w : Window} (event : WindowEvents) (cb : Nat) :
      Reachable opts w → Reachable opts (w.listenScale event cb)
  | listenStatus {w : Window} (event : WindowEvents) (cb : Nat) :
      Reachable opts w → Reachable opts (w.listenStatus event cb)
  | navigate {w : Window} (scene use_transition : String) :
      Reachable opts w → Reachable opts (w.navigate scene use_transition)
  | showPopup {w : Window} (popup : String) : Reachable opts w → Reachable opts (w.showPopup popup)
  | hide {w : Window} (popup : String) : Reachable opts w → Reachable opts (w.hide popup)
  | tick {w : Window} (dt : ℚ) : Reachable opts w → Reachable opts (w.tick opts dt)
  | frame {w : Window} (lastW lastH : Int) (dt : ℚ) (scr : Screen) :
      Reachable opts w → Reachable opts (w.frame opts lastW lastH dt scr).1

/-! ## Scenario: scenes `A` and `B`, transition `fade` of duration 1 -/

/-- Options of the scenario: start scene `A`, no fallback scene, no default transition. -/
def fadeOptions : Options :=
  { general := { width := 600, height := 600, name := "fade" },
    scene := { start_scene := "A" } }

/-- The screen of the scenarios: 600 by 600, not resized. -/
def fadeScreen : Screen := { width := 600, height := 600 }

/-- The definitions of the scenario, made on a default-constructed window. -/
def fadeDefs : Window :=
  (((Window.fresh ⟨0, 0, 0⟩).defineScene "A" {}).defineScene "B" {}).defineTransition "fade"
    { duration := 1 }

/-- The window of the scenario with the scene state `current`, `target`, the
transition state `ts`, and the events `extra` after those of the start of `init`. -/
def fadeAt (cur tgt : String) (ts : Transition_State) (extra : List Event) : Window :=
  { WindowData := ⟨0, 1, 1⟩,
    scenes := ⟨[("A", {}), ("B", {})]⟩,
    transitions := ⟨[("fade", { duration := 1 })]⟩,
    SceneState := { current := cur, target := tgt },
    TransitionState := ts,
    canvas := ⟨1, 600, 600⟩,
    trace := [Event.backend BackendCall.SetConfigFlags,
      Event.backend BackendCall.SetTraceLogLevel,
      Event.backend (BackendCall.InitWindow 600 600 "fade"),
      Event.backend (BackendCall.SetTargetFPS 60),
      Event.sceneOnLoad "A",
      Event.backend (BackendCall.LoadRenderTexture 600 600)] ++ extra }

/-- The window of the scenario when the frame loop starts: `current` is `A`, the
transition state is `Inactive`. -/
def fadeStart : Window :=
  fadeAt "A" "" {} []

/-- The window `init` leaves when the frame loop starts, or the window at the
`throw` when `init` fails. -/
def Window.started (w : Window) (opts : Options) (scr : Screen) : Window :=
  match w.initStart opts scr with
  | Except.ok st => st.1
  | Except.error e => e.2

/-! ## Scenario: a transition shorter than the floor of the divisor -/

/-- Scenes `A` and `B` and a transition `blink` of duration `1/20000`. -/
def blinkDefs : Window :=
  (((Window.fresh ⟨0, 0, 0⟩).defineScene "A" {}).defineScene "B" {}).defineTransition "blink"
    { duration := 1 / 20000 }

/-- The window at the start of the Enter phase of `navigate("B", "blink")`. -/
def blinkEnter : Window :=
  ((blinkDefs.started fadeOptions fadeScreen).navigate "B" "blink").tryStartTransition fadeOptions

/-! ## Scenario: frame times the `float` accumulator absorbs -/

/-- The window of the fade scenario at the start of the Enter phase of
`navigate("B", "fade")`. -/
def fadeEnter : Window :=
  (fadeStart.navigate "B" "fade").tryStartTransition fadeOptions

/-- Frame times of type `float` whose exact sum is 1: one frame of `1 - 2^-24`
seconds, then four frames of `2^-26` seconds. -/
def absorbedFrames : List ℚ :=
  [1 - 1 / 2 ^ 24, 1 / 2 ^ 26, 1 / 2 ^ 26, 1 / 2 ^ 26, 1 / 2 ^ 26]

/-! ## Scenario: a transition shorter than the `float` floor of the divisor -/

/-- Scenes `A` and `B` and a transition `brief` of duration `2^-15`. -/
def briefDefs : Window :=
  (((Window.fresh ⟨0, 0, 0⟩).defineScene "A" {}).defineScene "B" {}).defineTransition "brief"
    { duration := 1 / 2 ^ 15 }

/-- The window at the start of the Enter phase of `navigate("B", "brief")`. -/
def briefEnter : Window :=
  ((briefDefs.started fadeOptions fadeScreen).navigate "B" "brief").tryStartTransition fadeOptions

/-! ## Scenario: a transition of duration zero -/

/-- Scenes `A` and `B` and a transition `snap` of duration 0. -/
def snapDefs : Window :=
  (((Window.fresh ⟨0, 0, 0⟩).defineScene "A" {}).defineScene "B" {}).defineTransition "snap"
    { duration := 0 }

/-- The window at the start of the Enter phase of `navigate("B", "snap")`. -/
def snapEnter : Window :=
  ((snapDefs.started fadeOptions fadeScreen).navigate "B" "snap").tryStartTransition fadeOptions

/-! ## Scenario: a scene registered under the empty name -/

/-- Options with the empty name as start scene and `F` as fallback scene. -/
def anonOptions : Options :=
  { general := { width := 600, height := 600, name := "anon" },
    scene := { start_scene := "", fallback_scene := "F" } }

/-- Two scenes, one registered under the empty name and one under `F`. -/
def anonDefs : Window :=
  ((Window.fresh ⟨0, 0, 0⟩).defineScene "" {}).defineScene "F" {}

/-- The window of this scenario with the scene state `current`, `target`, the
transition state `ts`, and the events `extra` after those of the start of `init`. -/
def anonAt (cur tgt : String) (ts : Transition_State) (extra : List Event) : Window :=
  { WindowData := ⟨0, 1, 1⟩,
    scenes := ⟨[("", {}), ("F", {})]⟩,
    SceneState := { current := cur, target := tgt },
    TransitionState := ts,
    canvas := ⟨1, 600, 600⟩,
    trace := [Event.backend BackendCall.SetConfigFlags,
      Event.backend BackendCall.SetTraceLogLevel,
      Event.backend (BackendCall.InitWindow 600 600 "anon"),
      Event.backend (BackendCall.SetTargetFPS 60),
      Event.backend (BackendCall.LoadRenderTexture 600 600)] ++ extra }

/-- The window `init` leaves for `anonDefs` when the frame loop starts: `current`
is the empty name, the transition state is `Inactive`. -/
def anonStart : Window :=
  anonAt "" "" {} []

/-! ## Scenario: the empty name registered as a scene, no fallback configured -/

/-- Scenes registered under the empty name and under `A`. -/
def blankDefs : Window :=
  ((Window.fresh ⟨0, 0, 0⟩).defineScene "" {}).defineScene "A" {}

/-- Options with start scene `A` and the fallback scene name left empty. -/
def blankOptions : Options :=
  { general := { width := 600, height := 600, name := "blank" },
    scene := { start_scene := "A", fallback_scene := "" } }

/-- Options with a start scene `Z` that is not registered, and the fallback scene
name left empty. -/
def lostOptions : Options :=
  { general := { width := 600, height := 600, name := "lost" },
    scene := { start_scene := "Z", fallback_scene := "" } }

/-- The window `init` leaves for `blankDefs` and `blankOptions` when the frame loop
starts. -/
def blankStart : Window :=
  blankDefs.started blankOptions fadeScreen

/-! ## Scenario: a request made while a transition runs -/

/-- The fade scenario after `navigate("B", "fade")` and one tick of one second:
the transition to `B` is in its Exit phase. -/
def deferRunning : Window :=
  (fadeStart.navigate "B" "fade").tick fadeOptions 1

/-- The window after `navigate("A", "fade")` is called while that transition runs,
and a tick of one second has brought the transition back to `Inactive`. -/
def deferEnded : Window :=
  (deferRunning.navigate "A" "fade").tick fadeOptions 1

/-! ## Scenario: a transition registered under the empty name -/

/-- Scenes `A` and `B`, a transition of duration 2 registered under the empty name
and a transition `blinds` of duration `1/4`. -/
def namelessDefs : Window :=
  ((((Window.fresh ⟨0, 0, 0⟩).defineScene "A" {}).defineScene "B" {}).defineTransition ""
    { duration := 2 }).defineTransition "blinds" { duration := 1 / 4 }

/-- Options with start scene `A` and default transition `blinds`. -/
def namelessOptions : Options :=
  { general := { width := 600, height := 600, name := "nameless" },
    scene := { start_scene := "A", default_transition := "blinds" } }

/-- The window `init` leaves for `namelessDefs` when the frame loop starts. -/
def namelessStart : Window :=
  namelessDefs.started namelessOptions fadeScreen

/-! ## Scenario: a request made between the frames of a running transition -/

/-- The definitions of the fade scenario and a second transition `blinds` of
duration `1/4`. -/
def swapDefs : Window :=
  fadeDefs.defineTransition "blinds" { duration := 1 / 4 }

/-- The window of this scenario with `current` the scene `A`, the scene state
`target`, `pending`, the transition state `ts`, and the events `extra` after those
of the start of `init`. -/
def swapAt (tgt pend : String) (ts : Transition_State) (extra : List Event) : Window :=
  { WindowData := ⟨0, 1, 1⟩,
    scenes := ⟨[("A", {}), ("B", {})]⟩,
    transitions := ⟨[("fade", { duration := 1 }), ("blinds", { duration := 1 / 4 })]⟩,
    SceneState := { current := "A", target := tgt, pending := pend },
    TransitionState := ts,
    canvas := ⟨1, 600, 600⟩,
    trace := [Event.backend BackendCall.SetConfigFlags,
      Event.backend BackendCall.SetTraceLogLevel,
      Event.backend (BackendCall.InitWindow 600 600 "fade"),
      Event.backend (BackendCall.SetTargetFPS 60),
      Event.sceneOnLoad "A",
      Event.backend (BackendCall.LoadRenderTexture 600 600)] ++ extra }

/-- The window `init` leaves for `swapDefs` when the frame loop starts. -/
def swapStart : Window :=
  swapAt "" "" {} []

/-- The events of a frame of `1/4` second of this scenario in which the Enter
overlay is drawn by the callback `onEnter` of the transition `name` at progress
`prog`. -/
def swapFrame (name : String) (prog : ℚ) : List Event :=
  [Event.sceneOnUpdate "A" (1 / 4), Event.backend BackendCall.BeginDrawing,
    Event.backend BackendCall.ClearBackground, Event.sceneOnDraw "A",
    Event.transitionOnEnter name (1 / 4) prog, Event.backend BackendCall.EndDrawing]

/-- The window after `navigate("B", "fade")` and one frame of `1/4` second: the
transition to `B` is in its Enter phase. -/
def swapEnter : Window :=
  ((swapStart.navigate "B" "fade").frame fadeOptions 600 600 (1 / 4) fadeScreen).1

/-- The window after `navigate("A", "blinds")` is called on `swapEnter` and one more
frame of `1/4` second has run. -/
def swapAfter : Window :=
  ((swapEnter.navigate "A" "blinds").frame fadeOptions 600 600 (1 / 4) fadeScreen).1

/-! ## Predicates used by the theorems -/

/-- Windows that agree on the registries and on the scene, transition and popup
state (they may differ in `WindowData`, the listeners, the canvas and the trace). -/
def Window.sameState (v w : Window) : Prop :=
  v.scenes = w.scenes ∧ v.transitions = w.transitions ∧ v.popups = w.popups ∧
    v.SceneState = w.SceneState ∧ v.TransitionState = w.TransitionState ∧
    v.PopupState = w.PopupState

/-- The current scene is registered, and so is the target while the state is Enter. -/
def Window.SceneInv (w : Window) : Prop :=
  w.scenes.contains w.SceneState.current = true ∧
    (w.TransitionState.state = Transition_State.State.Enter →
      w.scenes.contains w.SceneState.target = true)

/-- Windows with the same three registries. -/
def Window.sameRegistries (v w : Window) : Prop :=
  v.scenes = w.scenes ∧ v.transitions = w.transitions ∧ v.popups = w.popups

/-- The trace of `v` is the trace of `w` followed by events none of which is a call
of a popup callback. -/
def Window.addsNoPopupCall (v w : Window) : Prop :=
  ∃ seg : List Event, v.trace = w.trace ++ seg ∧ ∀ e ∈ seg, ∀ n, e ≠ Event.popupOnDraw n

/-- No popup is current and no popup callback has been called. -/
def Window.PopupQuiet (w : Window) : Prop :=
  w.PopupState.current = "" ∧ ∀ e ∈ w.trace, ∀ n, e ≠ Event.popupOnDraw n

/-- The current scene name is not empty, and neither is the target while the state
is Enter. -/
def Window.NamedInv (w : Window) : Prop :=
  w.SceneState.current ≠ "" ∧
    (w.TransitionState.state = Transition_State.State.Enter → w.SceneState.target ≠ "")

/-- The transition state agrees with the scene state: in Enter the target is a
non-empty name other than `current`; in Exit `current` is the target; in Inactive
the accumulator is 0, and the transition name is empty unless a request waits. -/
def Window.PhaseInv (w : Window) : Prop :=
  (w.TransitionState.state = Transition_State.State.Enter →
    w.SceneState.target ≠ "" ∧ w.SceneState.target ≠ w.SceneState.current) ∧
  (w.TransitionState.state = Transition_State.State.Exit →
    w.SceneState.current = w.SceneState.target) ∧
  (w.TransitionState.state = Transition_State.State.Inactive →
    w.TransitionState.time_accumulator = 0 ∧
      (w.TransitionState.want_change = false → w.TransitionState.active_transition = ""))

/-! # Theorems -/

/-! ## Scenario of the fade transition -/

theorem fadeStart_init :
    fadeDefs.initStart fadeOptions fadeScreen = Except.ok (fadeStart, 600, 600) := by
  simp [fadeStart, fadeAt, fadeDefs, fadeOptions, fadeScreen, Window.initStart,
    Window.chooseStart, Window.fresh, Window.defineScene, Window.defineTransition, Dict.assign,
    Dict.index, Dict.find, Dict.put, Dict.contains, Window.emit, Window.fireStatusListeners,
    Window.firstOnLoad, Window.scenesAt, Window.ensureCanvas, List.lookup]

/-- The eight ticks of the scenario, one at a time. -/
theorem fade_steps :
    (fadeStart.navigate "B" "fade").tick fadeOptions (1 / 4) =
      fadeAt "A" "B" ⟨.Enter, false, "fade", 1 / 4, 1, .Enter, 1 / 4⟩ [] ∧
    (fadeAt "A" "B" ⟨.Enter, false, "fade", 1 / 4, 1, .Enter, 1 / 4⟩ []).tick fadeOptions (1 / 4) =
      fadeAt "A" "B" ⟨.Enter, false, "fade", 1 / 2, 1, .Enter, 1 / 2⟩ [] ∧
    (fadeAt "A" "B" ⟨.Enter, false, "fade", 1 / 2, 1, .Enter, 1 / 2⟩ []).tick fadeOptions (1 / 4) =
      fadeAt "A" "B" ⟨.Enter, false, "fade", 3 / 4, 1, .Enter, 3 / 4⟩ [] ∧
    (fadeAt "A" "B" ⟨.Enter, false, "fade", 3 / 4, 1, .Enter, 3 / 4⟩ []).tick fadeOptions (1 / 4) =
      fadeAt "B" "B" ⟨.Exit, false, "fade", 1, 1, .Enter, 1⟩
        [Event.sceneOnUnload "A", Event.sceneOnLoad "B"] ∧
    (fadeAt "B" "B" ⟨.Exit, false, "fade", 1, 1, .Enter, 1⟩
        [Event.sceneOnUnload "A", Event.sceneOnLoad "B"]).tick fadeOptions (1 / 4) =
      fadeAt "B" "B" ⟨.Exit, false, "fade", 3 / 4, 1, .Exit, 3 / 4⟩
        [Event.sceneOnUnload "A", Event.sceneOnLoad "B"] ∧
    (fadeAt "B" "B" ⟨.Exit, false, "fade", 3 / 4, 1, .Exit, 3 / 4⟩
        [Event.sceneOnUnload "A", Event.sceneOnLoad "B"]).tick fadeOptions (1 / 4) =
      fadeAt "B" "B" ⟨.Exit, false, "fade", 1 / 2, 1, .Exit, 1 / 2⟩
        [Event.sceneOnUnload "A", Event.sceneOnLoad "B"] ∧
    (fadeAt "B" "B" ⟨.Exit, false, "fade", 1 / 2, 1, .Exit, 1 / 2⟩
        [Event.sceneOnUnload "A", Event.sceneOnLoad "B"]).tick fadeOptions (1 / 4) =
      fadeAt "B" "B" ⟨.Exit, false, "fade", 1 / 4, 1, .Exit, 1 / 4⟩
        [Event.sceneOnUnload "A", Event.sceneOnLoad "B"] ∧
    (fadeAt "B" "B" ⟨.Exit, false, "fade", 1 / 4, 1, .Exit, 1 / 4⟩
        [Event.sceneOnUnload "A", Event.sceneOnLoad "B"]).tick fadeOptions (1 / 4) =
      fadeAt "B" "B" ⟨.Inactive, false, "", 0, 1, .Exit, 0⟩
        [Event.sceneOnUnload "A", Event.sceneOnLoad "B"] := by
  refine ⟨?_, ?_, ?_, ?_, ?_, ?_, ?_, ?_⟩ <;>
    simp [fadeStart, fadeAt, fadeOptions, Dict.index, Dict.find, Dict.contains, Window.emit,
      Window.scenesAt, Window.navigate, Window.tick, Window.tryStartTransition,
      Window.resolveTarget, Window.pickTransitionName, Window.pickTransitionDuration,
      Window.transitionsAt, Window.beginEnterPhase, Window.beginExitPhase, Window.endTransition,
      Window.fireOnLoad, Window.fireOnUnload, Window.advanceTransition, Window.norm,
      List.lookup] <;>
    norm_num

/-- C1: in the scenario (scenes `A` and `B`, no fallback scene, transition `fade`
of duration 1, `init` leaves `current = A` and state `Inactive`), after
`navigate("B", "fade")` and ticks with `dt = 1/4`: tick 1 gives state `Enter` and
progress `1/4`; tick 4 gives progress `1`, `current = B`, state `Exit` and
`time_accumulator = 1`; tick 8 gives progress `0` and state `Inactive`. -/
theorem C1_fade_scenario :
    fadeDefs.initStart fadeOptions fadeScreen = Except.ok (fadeStart, 600, 600) ∧
    fadeStart.SceneState.current = "A" ∧
    fadeStart.TransitionState.state = Transition_State.State.Inactive ∧
    fadeStart.scenes.keys = ["A", "B"] ∧
    fadeOptions.scene.fallback_scene = "" ∧
    (fadeStart.transitions.find "fade").map Transition.duration = some 1 ∧
    ((fadeStart.navigate "B" "fade").ticks fadeOptions [1 / 4]).TransitionState.state =
      Transition_State.State.Enter ∧
    ((fadeStart.navigate "B" "fade").ticks fadeOptions [1 / 4]).TransitionState.render_progress =
      1 / 4 ∧
    ((fadeStart.navigate "B" "fade").ticks fadeOptions
      [1 / 4, 1 / 4, 1 / 4, 1 / 4]).TransitionState.render_progress = 1 ∧
    ((fadeStart.navigate "B" "fade").ticks fadeOptions
      [1 / 4, 1 / 4, 1 / 4, 1 / 4]).SceneState.current = "B" ∧
    ((fadeStart.navigate "B" "fade").ticks fadeOptions
      [1 / 4, 1 / 4, 1 / 4, 1 / 4]).TransitionState.state = Transition_State.State.Exit ∧
    ((fadeStart.navigate "B" "fade").ticks fadeOptions
      [1 / 4, 1 / 4, 1 / 4, 1 / 4]).TransitionState.time_accumulator = 1 ∧
    ((fadeStart.navigate "B" "fade").ticks fadeOptions
      [1 / 4, 1 / 4, 1 / 4, 1 / 4, 1 / 4, 1 / 4, 1 / 4, 1 / 4]).TransitionState.render_progress =
      0 ∧
    ((fadeStart.navigate "B" "fade").ticks fadeOptions
      [1 / 4, 1 / 4, 1 / 4, 1 / 4, 1 / 4, 1 / 4, 1 / 4, 1 / 4]).TransitionState.state =
      Transition_State.State.Inactive := by
  obtain ⟨h1, h2, h3, h4, h5, h6, h7, h8⟩ := fade_steps
  refine ⟨fadeStart_init, ?_, ?_, ?_, ?_, ?_, ?_, ?_, ?_, ?_, ?_, ?_, ?_, ?_⟩
  · simp [fadeStart, fadeAt]
  · simp [fadeStart, fadeAt]
  · simp [fadeStart, fadeAt, Dict.keys]
  · simp [fadeOptions]
  · simp [fadeStart, fadeAt, Dict.find, List.lookup]
  · simp only [Window.ticks, h1]; simp [fadeAt]
  · simp only [Window.ticks, h1]; simp [fadeAt]
  · simp only [Window.ticks, h1, h2, h3, h4]; simp [fadeAt]
  · simp only [Window.ticks, h1, h2, h3, h4]; simp [fadeAt]
  · simp only [Window.ticks, h1, h2, h3, h4]; simp [fadeAt]
  · simp only [Window.ticks, h1, h2, h3, h4]; simp [fadeAt]
  · simp only [Window.ticks, h1, h2, h3, h4, h5, h6, h7, h8]; simp [fadeAt]
  · simp only [Window.ticks, h1, h2, h3, h4, h5, h6, h7, h8]; simp [fadeAt]

/-! ## The container -/

namespace Dict

variable {V : Type}

theorem index_snd_of_contains [Inhabited V] {d : Dict V} {key : String}
    (h : d.contains key = true) : (d.index key).2 = d := by
  unfold contains at h
  unfold index
  cases hf : d.find key with
  | none => simp [hf] at h
  | some v => rfl

theorem index_fst_of_find [Inhabited V] {d : Dict V} {key : String} {v : V}
    (h : d.find key = some v) : (d.index key).1 = v := by
  unfold index
  simp [h]

theorem lookup_cons_eq (k k0 : String) (x : V) (rest : List (String × V)) :
    List.lookup k ((k0, x) :: rest) = if k = k0 then some x else List.lookup k rest := by
  by_cases h : k = k0
  · simp [List.lookup, h]
  · have hb : (k == k0) = false := by simpa using h
    simp [List.lookup, h, hb]

theorem lookup_put (l : List (String × V)) (key : String) (v : V) (k : String) :
    List.lookup k (put l key v) = if k = key then some v else List.lookup k l := by
  induction l with
  | nil =>
    rw [put, lookup_cons_eq]
  | cons p rest ih =>
    obtain ⟨k0, x⟩ := p
    by_cases h0 : key = k0
    · subst h0
      simp only [put, if_true, lookup_cons_eq]
      split_ifs <;> rfl
    · simp only [put, h0, if_false, lookup_cons_eq, ih]
      by_cases hk0 : k = k0
      · have hne : ¬ k0 = key := fun h => h0 h.symm
        subst hk0
        simp [hne]
      · simp [hk0]

theorem find_assign [Inhabited V] (d : Dict V) (key : String) (v : V) (k : String) :
    (d.assign key v).find k = if k = key then some v else d.find k := by
  unfold assign find index
  cases hf : List.lookup key d.data_ with
  | none =>
    simp only [find, hf, lookup_put]
    by_cases hk : k = key
    · simp [hk]
    · simp [hk]
  | some x =>
    simp only [find, hf, lookup_put]

theorem contains_assign [Inhabited V] (d : Dict V) (key : String) (v : V) (k : String) :
    (d.assign key v).contains k = (decide (k = key) || d.contains k) := by
  unfold contains
  rw [find_assign]
  by_cases hk : k = key
  · simp [hk]
  · simp [hk]

end Dict

/-! ## Progress arithmetic -/

namespace Window

theorem norm_nonneg (t dur : ℚ) : 0 ≤ norm t dur := by
  unfold norm
  simp only
  split_ifs with h1 h2
  · exact le_refl 0
  · exact zero_le_one
  · exact not_lt.mp h1

theorem norm_le_one (t dur : ℚ) : norm t dur ≤ 1 := by
  unfold norm
  simp only
  split_ifs with h1 h2
  · exact zero_le_one
  · exact le_refl 1
  · exact not_lt.mp h2

theorem divisor_pos (dur : ℚ) : 0 < max (1 / 10000 : ℚ) dur :=
  lt_of_lt_of_le (by norm_num) (le_max_left _ _)

theorem norm_mono {t t' : ℚ} (dur : ℚ) (h : t ≤ t') : norm t dur ≤ norm t' dur := by
  have hq : t / max (1 / 10000 : ℚ) dur ≤ t' / max (1 / 10000 : ℚ) dur :=
    div_le_div_of_nonneg_right h (le_of_lt (divisor_pos dur))
  unfold norm
  simp only
  split_ifs <;> linarith

theorem norm_of_le {t dur : ℚ} (hd : 1 / 10000 ≤ dur) (h0 : 0 ≤ t) (ht : t ≤ dur) :
    norm t dur = t / dur := by
  have hpos : 0 < dur := lt_of_lt_of_le (by norm_num) hd
  have hq0 : 0 ≤ t / dur := div_nonneg h0 (le_of_lt hpos)
  have hq1 : t / dur ≤ 1 := (div_le_one hpos).mpr ht
  unfold norm
  simp only [max_eq_right hd]
  split_ifs <;> linarith

theorem norm_self {dur : ℚ} (hd : 1 / 10000 ≤ dur) : norm dur dur = 1 := by
  have hpos : 0 < dur := lt_of_lt_of_le (by norm_num) hd
  rw [norm_of_le hd (le_of_lt hpos) (le_refl _)]
  exact div_self (ne_of_gt hpos)

theorem norm_lt_one {t dur : ℚ} (hd : 1 / 10000 ≤ dur) (h0 : 0 ≤ t) (ht : t < dur) :
    norm t dur < 1 := by
  have hpos : 0 < dur := lt_of_lt_of_le (by norm_num) hd
  rw [norm_of_le hd h0 (le_of_lt ht)]
  exact (div_lt_one hpos).mpr ht

/-! ## Guarded callback calls -/

theorem scenesAt_snd {w : Window} {name : String} (h : w.scenes.contains name = true) :
    (w.scenesAt name).2 = w := by
  simp [scenesAt, Dict.index_snd_of_contains h]

theorem transitionsAt_snd {w : Window} {name : String}
    (h : w.transitions.contains name = true) : (w.transitionsAt name).2 = w := by
  simp [transitionsAt, Dict.index_snd_of_contains h]

theorem popupsAt_snd {w : Window} {name : String} (h : w.popups.contains name = true) :
    (w.popupsAt name).2 = w := by
  simp [popupsAt, Dict.index_snd_of_contains h]

theorem fireOnUnload_eq (w : Window) (name : String) :
    w.fireOnUnload name =
      if w.scenes.contains name = true ∧ (w.scenes.index name).1.onUnload.isSome = true then
        w.emit (Event.sceneOnUnload name)
      else w := by
  unfold fireOnUnload
  by_cases hc : w.scenes.contains name = true
  · simp only [hc, if_true, true_and, scenesAt_snd hc]
    simp [scenesAt]
  · simp [hc]

theorem fireOnLoad_eq (w : Window) (name : String) :
    w.fireOnLoad name =
      if w.scenes.contains name = true ∧ (w.scenes.index name).1.onLoad.isSome = true then
        w.emit (Event.sceneOnLoad name)
      else w := by
  unfold fireOnLoad
  by_cases hc : w.scenes.contains name = true
  · simp only [hc, if_true, true_and, scenesAt_snd hc]
    simp [scenesAt]
  · simp [hc]

/-! ## Steps of `advanceTransition` -/

theorem advanceTransition_inactive {w : Window} (dt : ℚ)
    (hs : w.TransitionState.state = Transition_State.State.Inactive) :
    w.advanceTransition dt =
      { w with TransitionState :=
          { w.TransitionState with
            render_phase := Transition_State.RenderPhase.None, render_progress := 0 } } := by
  unfold advanceTransition
  simp [hs]

theorem advanceTransition_enter_stay {w : Window} (dt : ℚ)
    (hs : w.TransitionState.state = Transition_State.State.Enter)
    (hp : norm (w.TransitionState.time_accumulator + dt) w.TransitionState.active_duration < 1) :
    w.advanceTransition dt =
      { w with TransitionState :=
          { w.TransitionState with
            time_accumulator := w.TransitionState.time_accumulator + dt,
            render_phase := Transition_State.RenderPhase.Enter,
            render_progress :=
              norm (w.TransitionState.time_accumulator + dt) w.TransitionState.active_duration } } := by
  unfold advanceTransition
  simp [hs, not_le.mpr hp]

/-- The commit at the end of the Enter phase.  Its events are the `onUnload` call of
the old current scene, then the `onLoad` call of the target scene, each made when
the scene is registered and the slot is not empty. -/
theorem advanceTransition_enter_commit {w : Window} (dt : ℚ)
    (hs : w.TransitionState.state = Transition_State.State.Enter)
    (hp : 1 ≤ norm (w.TransitionState.time_accumulator + dt) w.TransitionState.active_duration) :
    w.advanceTransition dt =
      { w with
        SceneState := { w.SceneState with current := w.SceneState.target },
        TransitionState :=
          { w.TransitionState with
            state := Transition_State.State.Exit,
            time_accumulator := w.TransitionState.active_duration,
            render_phase := Transition_State.RenderPhase.Enter,
            render_progress :=
              norm (w.TransitionState.time_accumulator + dt) w.TransitionState.active_duration },
        trace := w.trace ++
          (if w.scenes.contains w.SceneState.current = true ∧
              (w.scenes.index w.SceneState.current).1.onUnload.isSome = true then
            [Event.sceneOnUnload w.SceneState.current] else []) ++
          (if w.scenes.contains w.SceneState.target = true ∧
              (w.scenes.index w.SceneState.target).1.onLoad.isSome = true then
            [Event.sceneOnLoad w.SceneState.target] else []) } := by
  unfold advanceTransition
  simp only [hs, hp, if_true, fireOnUnload_eq, fireOnLoad_eq, beginExitPhase, emit]
  split_ifs <;> simp_all

theorem advanceTransition_exit_stay {w : Window} (dt : ℚ)
    (hs : w.TransitionState.state = Transition_State.State.Exit)
    (hp : 0 < norm (w.TransitionState.time_accumulator - dt) w.TransitionState.active_duration) :
    w.advanceTransition dt =
      { w with TransitionState :=
          { w.TransitionState with
            time_accumulator := w.TransitionState.time_accumulator - dt,
            render_phase := Transition_State.RenderPhase.Exit,
            render_progress :=
              norm (w.TransitionState.time_accumulator - dt) w.TransitionState.active_duration } } := by
  unfold advanceTransition
  simp [hs, not_le.mpr hp]

theorem advanceTransition_exit_end {w : Window} (dt : ℚ)
    (hs : w.TransitionState.state = Transition_State.State.Exit)
    (hp : norm (w.TransitionState.time_accumulator - dt) w.TransitionState.active_duration ≤ 0) :
    w.advanceTransition dt =
      { w with TransitionState :=
          { w.TransitionState with
            state := Transition_State.State.Inactive,
            active_transition := "",
            time_accumulator := 0,
            render_phase := Transition_State.RenderPhase.Exit,
            render_progress :=
              norm (w.TransitionState.time_accumulator - dt) w.TransitionState.active_duration } } := by
  unfold advanceTransition
  simp [hs, hp, endTransition]

/-! ## Steps of `tryStartTransition` -/

theorem pickTransitionDuration_snd (w : Window) (name : String) :
    (w.pickTransitionDuration name).2 = w := by
  unfold pickTransitionDuration
  split_ifs with h
  · exact transitionsAt_snd h.2
  · rfl

theorem tryStartTransition_noop {w : Window} (opts : Options)
    (h : ¬ (w.TransitionState.want_change = true ∧
      w.TransitionState.state = Transition_State.State.Inactive)) :
    w.tryStartTransition opts = w := by
  unfold tryStartTransition
  rw [if_pos h]

/-- The call of `tryStartTransition` that consumes a navigation request. -/
theorem tryStartTransition_fire {w : Window} (opts : Options)
    (hw : w.TransitionState.want_change = true)
    (hs : w.TransitionState.state = Transition_State.State.Inactive) :
    w.tryStartTransition opts =
      if (w.resolveTarget opts).SceneState.target ≠ "" ∧
          (w.resolveTarget opts).SceneState.target ≠ w.SceneState.current then
        { w with
          SceneState := (w.resolveTarget opts).SceneState,
          TransitionState :=
            { w.TransitionState with
              state := Transition_State.State.Enter,
              want_change := false,
              active_transition :=
                w.pickTransitionName w.TransitionState.active_transition
                  opts.scene.default_transition,
              time_accumulator := 0,
              active_duration :=
                (w.pickTransitionDuration
                  (w.pickTransitionName w.TransitionState.active_transition
                    opts.scene.default_transition)).1 } }
      else
        { w with
          SceneState := (w.resolveTarget opts).SceneState,
          TransitionState :=
            { w.TransitionState with
              want_change := false,
              active_transition := "",
              active_duration :=
                (w.pickTransitionDuration
                  (w.pickTransitionName w.TransitionState.active_transition
                    opts.scene.default_transition)).1 } } := by
  unfold tryStartTransition
  rw [if_neg (not_not.mpr ⟨hw, hs⟩)]
  simp only [pickTransitionDuration_snd]
  simp only [resolveTarget, pickTransitionName, pickTransitionDuration, transitionsAt,
    beginEnterPhase]
  split_ifs <;> simp_all

/-! ## Parts of the frame that leave the state machine alone -/

theorem sameState_refl (w : Window) : sameState w w :=
  ⟨rfl, rfl, rfl, rfl, rfl, rfl⟩

theorem sameState_trans {u v w : Window} (h1 : sameState u v) (h2 : sameState v w) :
    sameState u w :=
  ⟨h1.1.trans h2.1, h1.2.1.trans h2.2.1, h1.2.2.1.trans h2.2.2.1,
    h1.2.2.2.1.trans h2.2.2.2.1, h1.2.2.2.2.1.trans h2.2.2.2.2.1,
    h1.2.2.2.2.2.trans h2.2.2.2.2.2⟩

theorem emit_sameState (w : Window) (e : Event) : sameState (w.emit e) w :=
  ⟨rfl, rfl, rfl, rfl, rfl, rfl⟩

theorem foldl_emit_sameState {α : Type} (f : α → Event) (l : List α) :
    ∀ acc : Window, sameState (l.foldl (fun a x => a.emit (f x)) acc) acc := by
  induction l with
  | nil => intro acc; exact sameState_refl acc
  | cons x rest ih =>
    intro acc
    exact sameState_trans (ih (acc.emit (f x))) (emit_sameState acc (f x))

theorem fireScaleListeners_sameState (w : Window) (scale : ℚ × ℚ) (size : Int × Int) :
    sameState (w.fireScaleListeners scale size) w :=
  foldl_emit_sameState (fun cb => Event.scaleListener cb scale size) w.gScaleListeners w

theorem fireStatusListeners_sameState (w : Window) (status : WindowStatus) :
    sameState (w.fireStatusListeners status) w :=
  foldl_emit_sameState (fun cb => Event.statusListener cb status) w.gStatusListeners w

theorem ensureCanvas_sameState (w : Window) (scr : Screen) :
    sameState (w.ensureCanvas scr) w := by
  unfold ensureCanvas
  split_ifs <;> exact ⟨rfl, rfl, rfl, rfl, rfl, rfl⟩

theorem scaleCallbackExecution_sameState (w : Window) (scr : Screen)
    (lastW lastH baseW baseH : Int) :
    sameState (w.scaleCallbackExecution scr lastW lastH baseW baseH).1 w := by
  unfold scaleCallbackExecution
  by_cases h : scr.width ≠ lastW ∨ scr.height ≠ lastH ∨ scr.resized = true
  · rw [if_pos h]
    exact sameState_trans (fireScaleListeners_sameState _ _ _)
      (sameState_trans (ensureCanvas_sameState _ _)
        (sameState_trans (emit_sameState _ _) ⟨rfl, rfl, rfl, rfl, rfl, rfl⟩))
  · rw [if_neg h]
    exact sameState_refl w

theorem updateScene_sameState (w : Window) (dt : ℚ) : sameState (w.updateScene dt) w := by
  unfold updateScene
  split_ifs with h1 h2
  · rw [scenesAt_snd h1.2, scenesAt_snd h1.2]; exact emit_sameState _ _
  · rw [scenesAt_snd h1.2]; exact sameState_refl w
  · exact sameState_refl w

theorem drawScene_sameState (w : Window) : sameState w.drawScene w := by
  unfold drawScene
  split_ifs with h1 h2
  · rw [scenesAt_snd h1.2, scenesAt_snd h1.2]; exact emit_sameState _ _
  · rw [scenesAt_snd h1.2]; exact sameState_refl w
  · exact sameState_refl w

theorem firstOnLoad_sameState (w : Window) : sameState w.firstOnLoad w := by
  unfold firstOnLoad
  split_ifs with h1 h2
  · rw [scenesAt_snd h1.2, scenesAt_snd h1.2]; exact emit_sameState _ _
  · rw [scenesAt_snd h1.2]; exact sameState_refl w
  · exact sameState_refl w

theorem drawPopup_sameState (w : Window) : sameState w.drawPopup w := by
  unfold drawPopup
  split_ifs with h1 h2
  · rw [popupsAt_snd h1.2, popupsAt_snd h1.2]; exact emit_sameState _ _
  · rw [popupsAt_snd h1.2]; exact sameState_refl w
  · exact sameState_refl w

theorem callOnEnter_sameState (w : Window) (scr : Screen) (dt prog : ℚ) :
    sameState (w.callOnEnter scr dt prog) w := by
  unfold callOnEnter
  split_ifs with h1 h2
  · rw [transitionsAt_snd h1.2]; exact emit_sameState _ _
  · rw [transitionsAt_snd h1.2]; exact sameState_refl w
  · exact emit_sameState _ _

theorem callOnExit_sameState (w : Window) (scr : Screen) (dt prog : ℚ) :
    sameState (w.callOnExit scr dt prog) w := by
  unfold callOnExit
  split_ifs with h1 h2
  · rw [transitionsAt_snd h1.2]; exact emit_sameState _ _
  · rw [transitionsAt_snd h1.2]; exact sameState_refl w
  · exact emit_sameState _ _

theorem drawOverlay_sameState (w : Window) (scr : Screen) (dt : ℚ) :
    sameState (w.drawOverlay scr dt) w := by
  unfold drawOverlay
  split_ifs
  · exact callOnEnter_sameState _ _ _ _
  · exact callOnExit_sameState _ _ _ _
  · exact sameState_refl w

/-- A frame acts on the state machine as its tick does. -/
theorem frame_sameState (w : Window) (opts : Options) (lastW lastH : Int) (dt : ℚ)
    (scr : Screen) :
    sameState (w.frame opts lastW lastH dt scr).1 ((w.updateScene dt).tick opts dt) := by
  unfold frame
  exact sameState_trans (emit_sameState _ _)
    (sameState_trans (drawPopup_sameState _)
      (sameState_trans (drawOverlay_sameState _ _ _)
        (sameState_trans (drawScene_sameState _)
          (sameState_trans (emit_sameState _ _)
            (sameState_trans (emit_sameState _ _)
              (scaleCallbackExecution_sameState _ _ _ _ _ _))))))

/-! ## The start of `init` -/

/-- What `init` throws on, in terms of the registry. -/
theorem chooseStart_error_iff (w : Window) (opts : Options) :
    (∃ e, w.chooseStart opts = Except.error e) ↔
      (w.scenes.contains opts.scene.start_scene = false ∧
        (opts.scene.fallback_scene = "" ∨
          w.scenes.contains opts.scene.fallback_scene = false)) := by
  unfold chooseStart
  by_cases h1 : w.scenes.contains opts.scene.start_scene = true
  · simp [h1]
  · by_cases h2 : opts.scene.fallback_scene ≠ "" ∧
        w.scenes.contains opts.scene.fallback_scene = true
    · rw [if_neg h1, if_pos h2]
      simp [h1, h2.1, h2.2]
    · rw [if_neg h1, if_neg h2]
      simp only [Bool.not_eq_true] at h1
      refine ⟨fun _ => ⟨h1, ?_⟩, fun _ => ⟨_, rfl⟩⟩
      by_cases h3 : opts.scene.fallback_scene = ""
      · exact Or.inl h3
      · right
        by_contra h4
        exact h2 ⟨h3, by simpa using h4⟩

theorem chooseStart_ok {w v : Window} {opts : Options} (h : w.chooseStart opts = Except.ok v) :
    ∃ c, v = { w with SceneState := { w.SceneState with current := c } } ∧
      w.scenes.contains c = true ∧
      c = (if w.scenes.contains opts.scene.start_scene = true then opts.scene.start_scene
        else opts.scene.fallback_scene) := by
  unfold chooseStart at h
  by_cases h1 : w.scenes.contains opts.scene.start_scene = true
  · rw [if_pos h1] at h
    exact ⟨opts.scene.start_scene, (Except.ok.inj h).symm, h1, by rw [if_pos h1]⟩
  · rw [if_neg h1] at h
    by_cases h2 : opts.scene.fallback_scene ≠ "" ∧
        w.scenes.contains opts.scene.fallback_scene = true
    · rw [if_pos h2] at h
      exact ⟨opts.scene.fallback_scene, (Except.ok.inj h).symm, h2.2, by rw [if_neg h1]⟩
    · rw [if_neg h2] at h
      cases h

theorem chooseStart_error {w v : Window} {opts : Options} {msg : String}
    (h : w.chooseStart opts = Except.error (msg, v)) : v = w := by
  unfold chooseStart at h
  split_ifs at h
  exact ((Prod.mk.inj (Except.error.inj h)).2).symm

/-- The window `init` has built when the frame loop starts. -/
theorem initStart_ok {w v : Window} {opts : Options} {scr : Screen} {lastW lastH : Int}
    (h : w.initStart opts scr = Except.ok (v, lastW, lastH)) :
    ∃ c, w.scenes.contains c = true ∧
      c = (if w.scenes.contains opts.scene.start_scene = true then opts.scene.start_scene
        else opts.scene.fallback_scene) ∧
      sameState v
        { w with
          SceneState := { w.SceneState with current := c, target := "", pending := "" },
          TransitionState :=
            { w.TransitionState with
              state := Transition_State.State.Inactive, time_accumulator := 0 } } := by
  unfold initStart at h
  simp only at h
  cases hc : chooseStart
      { w with WindowData := { id := 0, scale_width := 1, scale_height := 1 } } opts with
  | error e => rw [hc] at h; cases h
  | ok w4 =>
    rw [hc] at h
    obtain ⟨c, hw4, hcon, hceq⟩ := chooseStart_ok hc
    have hv := (Prod.mk.inj (Except.ok.inj h)).1
    refine ⟨c, hcon, hceq, ?_⟩
    rw [← hv]
    refine sameState_trans (ensureCanvas_sameState _ _)
      (sameState_trans (firstOnLoad_sameState _)
        (sameState_trans (fireStatusListeners_sameState _ _)
          (sameState_trans (emit_sameState _ _)
            (sameState_trans (emit_sameState _ _)
              (sameState_trans (emit_sameState _ _)
                (sameState_trans (emit_sameState _ _) ?_))))))
    rw [hw4]
    exact ⟨rfl, rfl, rfl, rfl, rfl, rfl⟩

/-- The window at the `throw` of `init`: only `WindowData` has been written. -/
theorem initStart_error {w v : Window} {opts : Options} {scr : Screen} {msg : String}
    (h : w.initStart opts scr = Except.error (msg, v)) :
    v = { w with WindowData := { id := 0, scale_width := 1, scale_height := 1 } } := by
  unfold initStart at h
  simp only at h
  cases hc : chooseStart
      { w with WindowData := { id := 0, scale_width := 1, scale_height := 1 } } opts with
  | error e =>
    rw [hc] at h
    obtain ⟨m, u⟩ := e
    have hu := chooseStart_error hc
    have := (Prod.mk.inj (Except.error.inj h)).2
    rw [← this, hu]
  | ok w4 => rw [hc] at h; cases h

theorem initStart_error_iff (w : Window) (opts : Options) (scr : Screen) :
    (∃ e, w.initStart opts scr = Except.error e) ↔
      (w.scenes.contains opts.scene.start_scene = false ∧
        (opts.scene.fallback_scene = "" ∨
          w.scenes.contains opts.scene.fallback_scene = false)) := by
  rw [← chooseStart_error_iff
    { w with WindowData := { id := 0, scale_width := 1, scale_height := 1 } } opts]
  unfold initStart
  simp only
  cases hc : chooseStart
      { w with WindowData := { id := 0, scale_width := 1, scale_height := 1 } } opts with
  | error e => simp
  | ok w4 => simp

/-! ## The registered-scene invariant -/

theorem SceneInv_of_sameState {v w : Window} (h : sameState v w) (hi : SceneInv w) :
    SceneInv v := by
  obtain ⟨h1, _, _, h4, h5, _⟩ := h
  unfold SceneInv
  rw [h1, h4, h5]
  exact hi

theorem resolveTarget_scenes (w : Window) (opts : Options) :
    (w.resolveTarget opts).scenes = w.scenes ∧
    (w.resolveTarget opts).SceneState.current = w.SceneState.current ∧
    ((w.resolveTarget opts).SceneState.target ≠ "" →
      w.scenes.contains (w.resolveTarget opts).SceneState.target = true) := by
  unfold resolveTarget
  split_ifs with h1 h2
  · exact ⟨rfl, rfl, fun _ => h1.2⟩
  · exact ⟨rfl, rfl, fun _ => h2.2⟩
  · exact ⟨rfl, rfl, fun h => absurd rfl h⟩

theorem SceneInv_tryStartTransition {w : Window} (opts : Options) (hi : SceneInv w) :
    SceneInv (w.tryStartTransition opts) := by
  by_cases hg : w.TransitionState.want_change = true ∧
      w.TransitionState.state = Transition_State.State.Inactive
  · rw [tryStartTransition_fire opts hg.1 hg.2]
    obtain ⟨_, h2, h3⟩ := resolveTarget_scenes w opts
    split_ifs with h
    · exact ⟨by show w.scenes.contains (w.resolveTarget opts).SceneState.current = true
                rw [h2]; exact hi.1, fun _ => h3 h.1⟩
    · refine ⟨by show w.scenes.contains (w.resolveTarget opts).SceneState.current = true
                 rw [h2]; exact hi.1, fun he => ?_⟩
      have he2 : w.TransitionState.state = Transition_State.State.Enter := he
      rw [hg.2] at he2
      cases he2
  · rw [tryStartTransition_noop opts hg]
    exact hi

theorem SceneInv_advanceTransition {w : Window} (dt : ℚ) (hi : SceneInv w) :
    SceneInv (w.advanceTransition dt) := by
  cases hs : w.TransitionState.state with
  | Inactive =>
    rw [advanceTransition_inactive dt hs]
    exact ⟨hi.1, fun he => hi.2 he⟩
  | Enter =>
    by_cases hp : 1 ≤ norm (w.TransitionState.time_accumulator + dt)
        w.TransitionState.active_duration
    · rw [advanceTransition_enter_commit dt hs hp]
      exact ⟨hi.2 hs, fun he => by cases he⟩
    · rw [advanceTransition_enter_stay dt hs (not_le.mp hp)]
      exact ⟨hi.1, fun he => hi.2 he⟩
  | Exit =>
    by_cases hp : norm (w.TransitionState.time_accumulator - dt)
        w.TransitionState.active_duration ≤ 0
    · rw [advanceTransition_exit_end dt hs hp]
      exact ⟨hi.1, fun he => by cases he⟩
    · rw [advanceTransition_exit_stay dt hs (not_le.mp hp)]
      refine ⟨hi.1, fun he => ?_⟩
      have he2 : w.TransitionState.state = Transition_State.State.Enter := he
      rw [hs] at he2
      cases he2

theorem SceneInv_tick {w : Window} (opts : Options) (dt : ℚ) (hi : SceneInv w) :
    SceneInv (w.tick opts dt) :=
  SceneInv_advanceTransition dt (SceneInv_tryStartTransition opts hi)

theorem SceneInv_defineScene {w : Window} (name : String) (scene : Scene) (hi : SceneInv w) :
    SceneInv (w.defineScene name scene) := by
  unfold SceneInv defineScene
  simp only [Dict.contains_assign, Bool.or_eq_true]
  exact ⟨Or.inr hi.1, fun he => Or.inr (hi.2 he)⟩

theorem navigate_fields (w : Window) (scene use_transition : String) :
    (w.navigate scene use_transition).scenes = w.scenes ∧
    (w.navigate scene use_transition).transitions = w.transitions ∧
    (w.navigate scene use_transition).popups = w.popups ∧
    (w.navigate scene use_transition).PopupState = w.PopupState ∧
    (w.navigate scene use_transition).trace = w.trace ∧
    (w.navigate scene use_transition).SceneState = { w.SceneState with pending := scene } ∧
    (w.navigate scene use_transition).TransitionState =
      { w.TransitionState with
        want_change := true,
        active_transition :=
          if use_transition ≠ "" ∧ w.transitions.contains use_transition = true then
            use_transition else "" } := by
  by_cases h : use_transition ≠ "" ∧ w.transitions.contains use_transition = true
  · simp [navigate, h]
  · simp [navigate, h]

theorem SceneInv_navigate {w : Window} (scene use_transition : String) (hi : SceneInv w) :
    SceneInv (w.navigate scene use_transition) := by
  obtain ⟨h1, _, _, _, _, h6, h7⟩ := navigate_fields w scene use_transition
  unfold SceneInv
  rw [h1, h6, h7]
  exact hi

theorem SceneInv_showPopup {w : Window} (popup : String) (hi : SceneInv w) :
    SceneInv (w.showPopup popup) := by
  unfold showPopup
  split_ifs
  · exact hi
  · exact hi

theorem SceneInv_hide {w : Window} (popup : String) (hi : SceneInv w) :
    SceneInv (w.hide popup) := by
  unfold hide
  split_ifs
  · exact hi
  · exact hi

/-- In every reachable window the current scene is registered, and so is the
target while the state is Enter. -/
theorem SceneInv_of_reachable {opts : Options} {w : Window} (h : Reachable opts w) :
    SceneInv w := by
  induction h with
  | start scr lastW lastH _ hinit =>
    obtain ⟨c, hcon, _, hsame⟩ := initStart_ok hinit
    exact SceneInv_of_sameState hsame ⟨hcon, fun he => by cases he⟩
  | defineScene name scene _ ih => exact SceneInv_defineScene name scene ih
  | defineTransition name tr _ ih => exact ih
  | definePopup name popup _ ih => exact ih
  | listenScale event cb _ ih =>
    unfold listenScale
    split_ifs
    · exact ih
    · exact ih
  | listenStatus event cb _ ih =>
    unfold listenStatus
    split_ifs
    · exact ih
    · exact ih
  | navigate scene use_transition _ ih => exact SceneInv_navigate scene use_transition ih
  | showPopup popup _ ih => exact SceneInv_showPopup popup ih
  | hide popup _ ih => exact SceneInv_hide popup ih
  | tick dt _ ih => exact SceneInv_tick opts dt ih
  | frame lastW lastH dt scr _ ih =>
    exact SceneInv_of_sameState (frame_sameState _ _ _ _ _ _)
      (SceneInv_tick opts dt (SceneInv_of_sameState (updateScene_sameState _ _) ih))

/-! ## Ticks without a pending request -/

/-- A tick in state Inactive with no request pending only resets the render fields. -/
theorem tick_quiet {w : Window} (opts : Options) (dt : ℚ)
    (hs : w.TransitionState.state = Transition_State.State.Inactive)
    (hw : w.TransitionState.want_change = false) :
    w.tick opts dt =
      { w with TransitionState :=
          { w.TransitionState with
            render_phase := Transition_State.RenderPhase.None, render_progress := 0 } } := by
  unfold tick
  rw [tryStartTransition_noop opts (by simp [hw]), advanceTransition_inactive dt hs]

/-- Ticks in state Inactive with no request pending: nothing changes but the render
fields, which are reset by every tick. -/
theorem ticks_quiet (opts : Options) (dts : List ℚ) :
    ∀ w : Window, w.TransitionState.state = Transition_State.State.Inactive →
      w.TransitionState.want_change = false →
      w.ticks opts dts =
        { w with TransitionState :=
            { w.TransitionState with
              render_phase :=
                if dts = [] then w.TransitionState.render_phase
                else Transition_State.RenderPhase.None,
              render_progress := if dts = [] then w.TransitionState.render_progress else 0 } } := by
  induction dts with
  | nil =>
    intro w _ _
    simp [ticks]
  | cons x rest ih =>
    intro w hs hw
    have hstep := tick_quiet (w := w) opts x hs hw
    have hrun := ih (w.tick opts x) (by rw [hstep]; exact hs) (by rw [hstep]; exact hw)
    show (w.tick opts x).ticks opts rest = _
    rw [hrun, hstep]
    by_cases hr : rest = []
    · simp [hr]
    · simp [hr]

/-! ## What a tick leaves alone -/

/-- Fields `advanceTransition` never writes. -/
theorem advanceTransition_keeps (w : Window) (dt : ℚ) :
    (w.advanceTransition dt).scenes = w.scenes ∧
    (w.advanceTransition dt).transitions = w.transitions ∧
    (w.advanceTransition dt).popups = w.popups ∧
    (w.advanceTransition dt).PopupState = w.PopupState ∧
    (w.advanceTransition dt).SceneState.pending = w.SceneState.pending ∧
    (w.advanceTransition dt).SceneState.target = w.SceneState.target ∧
    (w.advanceTransition dt).TransitionState.want_change = w.TransitionState.want_change ∧
    (w.advanceTransition dt).TransitionState.active_duration =
      w.TransitionState.active_duration := by
  cases hs : w.TransitionState.state with
  | Inactive =>
    rw [advanceTransition_inactive dt hs]
    exact ⟨rfl, rfl, rfl, rfl, rfl, rfl, rfl, rfl⟩
  | Enter =>
    by_cases hp : 1 ≤ norm (w.TransitionState.time_accumulator + dt)
        w.TransitionState.active_duration
    · rw [advanceTransition_enter_commit dt hs hp]
      exact ⟨rfl, rfl, rfl, rfl, rfl, rfl, rfl, rfl⟩
    · rw [advanceTransition_enter_stay dt hs (not_le.mp hp)]
      exact ⟨rfl, rfl, rfl, rfl, rfl, rfl, rfl, rfl⟩
  | Exit =>
    by_cases hp : norm (w.TransitionState.time_accumulator - dt)
        w.TransitionState.active_duration ≤ 0
    · rw [advanceTransition_exit_end dt hs hp]
      exact ⟨rfl, rfl, rfl, rfl, rfl, rfl, rfl, rfl⟩
    · rw [advanceTransition_exit_stay dt hs (not_le.mp hp)]
      exact ⟨rfl, rfl, rfl, rfl, rfl, rfl, rfl, rfl⟩

/-- The scene state after target resolution. -/
theorem resolveTarget_sceneState (w : Window) (opts : Options) :
    (w.resolveTarget opts).SceneState =
      if w.SceneState.pending ≠ "" ∧ w.scenes.contains w.SceneState.pending = true then
        { w.SceneState with target := w.SceneState.pending, pending := "" }
      else if opts.scene.fallback_scene ≠ "" ∧
          w.scenes.contains opts.scene.fallback_scene = true then
        { w.SceneState with target := opts.scene.fallback_scene }
      else { w.SceneState with target := "" } := by
  unfold resolveTarget
  split_ifs <;> rfl

/-! ## Runs of `advanceTransition` -/

theorem advances_append (w : Window) (l₁ l₂ : List ℚ) :
    w.advances (l₁ ++ l₂) = (w.advances l₁).advances l₂ := by
  induction l₁ generalizing w with
  | nil => rfl
  | cons x rest ih => exact ih (w.advanceTransition x)

theorem sum_nonneg_of_nonneg {l : List ℚ} (h : ∀ x ∈ l, 0 ≤ x) : 0 ≤ l.sum :=
  List.sum_nonneg h

/-- While the accumulated time stays below the duration, the Enter phase only moves
the clock and the render fields. -/
theorem advances_enter_below {d : ℚ} (hd : 1 / 10000 ≤ d) (dts : List ℚ) :
    ∀ w : Window, w.TransitionState.state = Transition_State.State.Enter →
      w.TransitionState.active_duration = d → 0 ≤ w.TransitionState.time_accumulator →
      (∀ x ∈ dts, 0 ≤ x) → w.TransitionState.time_accumulator + dts.sum < d →
      ∃ ph pr, w.advances dts =
        { w with TransitionState :=
            { w.TransitionState with
              time_accumulator := w.TransitionState.time_accumulator + dts.sum,
              render_phase := ph, render_progress := pr } } := by
  induction dts with
  | nil =>
    intro w _ _ _ _ _
    exact ⟨w.TransitionState.render_phase, w.TransitionState.render_progress, by simp [advances]⟩
  | cons x rest ih =>
    intro w hs hdur h0 hnn hlt
    have hx : 0 ≤ x := hnn x (List.mem_cons_self _ _)
    have hrest : ∀ y ∈ rest, 0 ≤ y := fun y hy => hnn y (List.mem_cons_of_mem _ hy)
    have hsum : 0 ≤ rest.sum := sum_nonneg_of_nonneg hrest
    rw [List.sum_cons] at hlt
    have hstep := advanceTransition_enter_stay (w := w) x hs
      (by rw [hdur]; exact norm_lt_one hd (by linarith) (by linarith))
    have hs1 : (w.advanceTransition x).TransitionState.state = Transition_State.State.Enter := by
      rw [hstep]; exact hs
    have hd1 : (w.advanceTransition x).TransitionState.active_duration = d := by
      rw [hstep]; exact hdur
    have ht1 : (w.advanceTransition x).TransitionState.time_accumulator =
        w.TransitionState.time_accumulator + x := by
      rw [hstep]
    obtain ⟨ph, pr, hrun⟩ := ih (w.advanceTransition x) hs1 hd1 (by rw [ht1]; linarith) hrest
      (by rw [ht1]; linarith)
    refine ⟨ph, pr, ?_⟩
    rw [advances, hrun, ht1, hstep]
    simp [List.sum_cons, add_assoc]

/-- With frame time zero the Exit phase, started at the full duration, stays where
it is. -/
theorem advances_exit_zeros {d : ℚ} (hd : 1 / 10000 ≤ d) (dts : List ℚ) :
    ∀ w : Window, w.TransitionState.state = Transition_State.State.Exit →
      w.TransitionState.active_duration = d → w.TransitionState.time_accumulator = d →
      (∀ x ∈ dts, x = 0) →
      ∃ ph pr, w.advances dts =
        { w with TransitionState :=
            { w.TransitionState with render_phase := ph, render_progress := pr } } := by
  induction dts with
  | nil =>
    intro w _ _ _ _
    exact ⟨w.TransitionState.render_phase, w.TransitionState.render_progress, by simp [advances]⟩
  | cons x rest ih =>
    intro w hs hdur ht hz
    have hx : x = 0 := hz x (List.mem_cons_self _ _)
    have hrest : ∀ y ∈ rest, y = 0 := fun y hy => hz y (List.mem_cons_of_mem _ hy)
    subst hx
    have hstep := advanceTransition_exit_stay (w := w) 0 hs
      (by rw [hdur, ht, sub_zero, norm_self hd]; exact zero_lt_one)
    have hs1 : (w.advanceTransition 0).TransitionState.state = Transition_State.State.Exit := by
      rw [hstep]; exact hs
    have hd1 : (w.advanceTransition 0).TransitionState.active_duration = d := by
      rw [hstep]; exact hdur
    have ht1 : (w.advanceTransition 0).TransitionState.time_accumulator = d := by
      rw [hstep]; show w.TransitionState.time_accumulator - 0 = d; rw [sub_zero, ht]
    obtain ⟨ph, pr, hrun⟩ := ih (w.advanceTransition 0) hs1 hd1 ht1 hrest
    refine ⟨ph, pr, ?_⟩
    rw [advances, hrun, hstep]
    simp

/-- A list of non-negative numbers that sums to zero holds only zeros. -/
theorem all_zero_of_sum_zero {l : List ℚ} (hnn : ∀ x ∈ l, 0 ≤ x) (hsum : l.sum = 0) :
    ∀ x ∈ l, x = 0 := by
  induction l with
  | nil => intro x hx; simp at hx
  | cons y rest ih =>
    have hy : 0 ≤ y := hnn y (List.mem_cons_self _ _)
    have hrest : ∀ z ∈ rest, 0 ≤ z := fun z hz => hnn z (List.mem_cons_of_mem _ hz)
    have hs : 0 ≤ rest.sum := sum_nonneg_of_nonneg hrest
    rw [List.sum_cons] at hsum
    intro x hx
    rcases List.mem_cons.mp hx with h | h
    · rw [h]; linarith
    · exact ih hrest (by linarith) x h

/-- The frame at which the cumulative frame time reaches the total exists. -/
theorem boundary_exists (dts : List ℚ) :
    ∀ t d : ℚ, (∀ x ∈ dts, 0 ≤ x) → t < d → t + dts.sum = d →
      ∃ pre x post, dts = pre ++ x :: post ∧ t + pre.sum < d ∧ t + pre.sum + x = d := by
  induction dts with
  | nil => intro t d _ hlt hsum; simp at hsum; linarith
  | cons x rest ih =>
    intro t d hnn hlt hsum
    have hx : 0 ≤ x := hnn x (List.mem_cons_self _ _)
    have hrest : ∀ y ∈ rest, 0 ≤ y := fun y hy => hnn y (List.mem_cons_of_mem _ hy)
    have hs : 0 ≤ rest.sum := sum_nonneg_of_nonneg hrest
    rw [List.sum_cons] at hsum
    by_cases hb : t + x = d
    · exact ⟨[], x, rest, rfl, by simpa using hlt, by simpa using hb⟩
    · have hlt2 : t + x < d := lt_of_le_of_ne (by linarith) hb
      obtain ⟨pre, y, post, hsplit, h1, h2⟩ := ih (t + x) d hrest hlt2 (by linarith)
      refine ⟨x :: pre, y, post, by rw [hsplit]; rfl, ?_, ?_⟩
      · rw [List.sum_cons]; linarith
      · rw [List.sum_cons]; linarith

/-- The Enter phase driven up to the frame that reaches the duration, and beyond:
the window after the frames `pre`, after the boundary frame `x`, and after the
remaining frames `post`. -/
theorem enter_run {d : ℚ} (hd : 1 / 10000 ≤ d) (w : Window) (pre post : List ℚ) (x : ℚ)
    (hs : w.TransitionState.state = Transition_State.State.Enter)
    (ht : w.TransitionState.time_accumulator = 0)
    (hdur : w.TransitionState.active_duration = d)
    (hnn : ∀ y ∈ pre ++ x :: post, 0 ≤ y) (hsum : (pre ++ x :: post).sum = d)
    (h1 : pre.sum < d) (h2 : pre.sum + x = d) :
    (∃ ph pr, w.advances pre =
      { w with TransitionState :=
          { w.TransitionState with
            time_accumulator := pre.sum, render_phase := ph, render_progress := pr } }) ∧
    w.advances (pre ++ [x]) =
      { w with
        SceneState := { w.SceneState with current := w.SceneState.target },
        TransitionState :=
          { w.TransitionState with
            state := Transition_State.State.Exit,
            time_accumulator := d,
            render_phase := Transition_State.RenderPhase.Enter,
            render_progress := 1 },
        trace := w.trace ++
          (if w.scenes.contains w.SceneState.current = true ∧
              (w.scenes.index w.SceneState.current).1.onUnload.isSome = true then
            [Event.sceneOnUnload w.SceneState.current] else []) ++
          (if w.scenes.contains w.SceneState.target = true ∧
              (w.scenes.index w.SceneState.target).1.onLoad.isSome = true then
            [Event.sceneOnLoad w.SceneState.target] else []) } ∧
    ∃ ph pr, w.advances (pre ++ x :: post) =
      { w with
        SceneState := { w.SceneState with current := w.SceneState.target },
        TransitionState :=
          { w.TransitionState with
            state := Transition_State.State.Exit,
            time_accumulator := d,
            render_phase := ph,
            render_progress := pr },
        trace := w.trace ++
          (if w.scenes.contains w.SceneState.current = true ∧
              (w.scenes.index w.SceneState.current).1.onUnload.isSome = true then
            [Event.sceneOnUnload w.SceneState.current] else []) ++
          (if w.scenes.contains w.SceneState.target = true ∧
              (w.scenes.index w.SceneState.target).1.onLoad.isSome = true then
            [Event.sceneOnLoad w.SceneState.target] else []) } := by
  have hpre : ∀ y ∈ pre, 0 ≤ y := fun y hy => hnn y (List.mem_append_left _ hy)
  have hpost : ∀ y ∈ post, 0 ≤ y := fun y hy =>
    hnn y (List.mem_append_right _ (List.mem_cons_of_mem _ hy))
  have hpost0 : post.sum = 0 := by
    rw [List.sum_append, List.sum_cons] at hsum
    linarith
  have hzeros := all_zero_of_sum_zero hpost hpost0
  obtain ⟨ph, pr, hA⟩ := advances_enter_below hd pre w hs hdur (by rw [ht]) hpre (by rw [ht]; linarith)
  rw [ht, zero_add] at hA
  have hsA : (w.advances pre).TransitionState.state = Transition_State.State.Enter := by
    rw [hA]; exact hs
  have hdA : (w.advances pre).TransitionState.active_duration = d := by
    rw [hA]; exact hdur
  have htA : (w.advances pre).TransitionState.time_accumulator = pre.sum := by
    rw [hA]
  have hn : norm ((w.advances pre).TransitionState.time_accumulator + x)
      (w.advances pre).TransitionState.active_duration = 1 := by
    rw [htA, hdA, h2, norm_self hd]
  have hB := advanceTransition_enter_commit (w := w.advances pre) x hsA (by rw [hn])
  rw [hn, hdA] at hB
  have hB2 : w.advances (pre ++ [x]) =
      { w with
        SceneState := { w.SceneState with current := w.SceneState.target },
        TransitionState :=
          { w.TransitionState with
            state := Transition_State.State.Exit,
            time_accumulator := d,
            render_phase := Transition_State.RenderPhase.Enter,
            render_progress := 1 },
        trace := w.trace ++
          (if w.scenes.contains w.SceneState.current = true ∧
              (w.scenes.index w.SceneState.current).1.onUnload.isSome = true then
            [Event.sceneOnUnload w.SceneState.current] else []) ++
          (if w.scenes.contains w.SceneState.target = true ∧
              (w.scenes.index w.SceneState.target).1.onLoad.isSome = true then
            [Event.sceneOnLoad w.SceneState.target] else []) } := by
    rw [advances_append]
    show (w.advances pre).advanceTransition x = _
    rw [hB, hA]
  refine ⟨⟨ph, pr, hA⟩, hB2, ?_⟩
  have hsplit : pre ++ x :: post = (pre ++ [x]) ++ post := by simp
  obtain ⟨ph2, pr2, hC⟩ := advances_exit_zeros hd post (w.advances (pre ++ [x]))
    (by rw [hB2]) (by rw [hB2]; exact hdur) (by rw [hB2]) hzeros
  refine ⟨ph2, pr2, ?_⟩
  rw [hsplit, advances_append, hC, hB2]

/-! ## Rounding to `float` -/

theorem roundEven_intCast (m : ℤ) : roundEven (m : ℚ) = m := by
  unfold roundEven
  simp

theorem roundEven_lt {x : ℚ} {m : ℤ} (h : x < (m : ℚ) - 1 / 2) : roundEven x < m := by
  have hf : (⌊x⌋ : ℚ) ≤ x := Int.floor_le x
  have hfm : ⌊x⌋ < m := by
    have : ((⌊x⌋ : ℤ) : ℚ) < (m : ℚ) := by linarith
    exact_mod_cast this
  unfold roundEven
  split_ifs with h1 h2 h3
  · exact hfm
  · have : ((⌊x⌋ + 1 : ℤ) : ℚ) < (m : ℚ) := by push_cast; linarith
    exact_mod_cast this
  · exact hfm
  · have hx : x - ⌊x⌋ = 1 / 2 := le_antisymm (not_lt.mp h2) (not_lt.mp h1)
    have : ((⌊x⌋ + 1 : ℤ) : ℚ) < (m : ℚ) := by push_cast; linarith
    exact_mod_cast this

theorem roundEven_of_lt_half {x : ℚ} {f : ℤ} (h1 : (f : ℚ) ≤ x) (h2 : x < (f : ℚ) + 1 / 2) :
    roundEven x = f := by
  have hf : ⌊x⌋ = f := Int.floor_eq_iff.mpr ⟨h1, by linarith⟩
  unfold roundEven
  rw [hf, if_pos (by linarith)]

/-- The rounded value inside a known binade. -/
theorem f32_of_binade {q : ℚ} {e : ℤ} (h1 : (2 : ℚ) ^ e ≤ |q|) (h2 : |q| < (2 : ℚ) ^ (e + 1))
    (he : -126 ≤ e) :
    f32 q = (roundEven (q / 2 ^ (e - 23)) : ℚ) * 2 ^ (e - 23) := by
  have hpos : 0 < |q| := lt_of_lt_of_le (zpow_pos (by norm_num) e) h1
  have hlog : Int.log 2 |q| = e := by
    apply le_antisymm
    · have := (Int.lt_zpow_iff_log_lt (b := 2) (by norm_num) hpos (x := e + 1)).mp
        (by exact_mod_cast h2)
      omega
    · exact (Int.zpow_le_iff_le_log (b := 2) (by norm_num) hpos).mp (by exact_mod_cast h1)
  unfold f32 f32Exponent
  rw [hlog, max_eq_left he]

theorem f32_zero : f32 0 = 0 := by
  unfold f32
  simp [roundEven]

theorem f32_one : f32 1 = 1 := by
  rw [f32_of_binade (e := 0) (by norm_num) (by norm_num) (by norm_num)]
  have h : (1 : ℚ) / 2 ^ ((0 : ℤ) - 23) = ((8388608 : ℤ) : ℚ) := by norm_num [zpow_neg]
  rw [h, roundEven_intCast]
  norm_num [zpow_neg]

theorem f32_lt_one {q : ℚ} (h0 : 0 ≤ q) (h1 : q < 1 - 1 / 2 ^ 25) : f32 q < 1 := by
  rcases eq_or_lt_of_le h0 with h | hpos
  · rw [← h, f32_zero]
    norm_num
  · have habs : |q| = q := abs_of_pos hpos
    have hq1 : q < 1 := by
      have : (0 : ℚ) < 1 / 2 ^ 25 := by norm_num
      linarith
    have hlog : Int.log 2 |q| ≤ -1 := by
      have hp : (0 : ℚ) < |q| := by rw [habs]; exact hpos
      have hl : |q| < ((2 : ℕ) : ℚ) ^ (0 : ℤ) := by rw [habs]; simpa using hq1
      have h := (Int.lt_zpow_iff_log_lt (b := 2) (by norm_num) hp).mp hl
      omega
    have hE : f32Exponent q ≤ -1 := max_le hlog (by norm_num)
    unfold f32
    generalize f32Exponent q = e at hE
    have hu : (0 : ℚ) < 2 ^ (e - 23) := zpow_pos (by norm_num) _
    have hule : (2 : ℚ) ^ (e - 23) ≤ 1 / 2 ^ 24 := by
      have h := zpow_le_zpow_right₀ (a := (2 : ℚ)) (by norm_num) (show e - 23 ≤ -24 by omega)
      have h24 : (2 : ℚ) ^ (-24 : ℤ) = 1 / 2 ^ 24 := by norm_num [zpow_neg]
      rw [h24] at h
      exact h
    have hnat : ((23 - e).toNat : ℤ) = 23 - e := Int.toNat_of_nonneg (by omega)
    have hN : (((2 : ℤ) ^ (23 - e).toNat : ℤ) : ℚ) = 1 / 2 ^ (e - 23) := by
      push_cast
      rw [← zpow_natCast, hnat, show (23 : ℤ) - e = -(e - 23) by ring, zpow_neg, one_div]
    have hlt : roundEven (q / 2 ^ (e - 23)) < (2 : ℤ) ^ (23 - e).toNat := by
      apply roundEven_lt
      rw [hN, div_lt_iff₀ hu, sub_mul, one_div_mul_cancel (ne_of_gt hu)]
      nlinarith
    calc (roundEven (q / 2 ^ (e - 23)) : ℚ) * 2 ^ (e - 23)
        < (((2 : ℤ) ^ (23 - e).toNat : ℤ) : ℚ) * 2 ^ (e - 23) :=
          mul_lt_mul_of_pos_right (by exact_mod_cast hlt) hu
      _ = 1 := by rw [hN, one_div_mul_cancel (ne_of_gt hu)]

theorem two_zpow_succ (n : ℤ) : (2 : ℚ) ^ (n + 1) = 2 * 2 ^ n := by
  rw [zpow_add_one₀ (by norm_num : (2 : ℚ) ≠ 0), mul_comm]

/-- A positive value is inside the binade of its exponent, from below when it is
not subnormal. -/
theorem f32Exponent_bounds {q : ℚ} (hq : 0 < q) :
    q < 2 ^ (f32Exponent q + 1) ∧ ((2 : ℚ) ^ (-126 : ℤ) ≤ q → 2 ^ f32Exponent q ≤ q) := by
  have habs : |q| = q := abs_of_pos hq
  unfold f32Exponent
  rw [habs]
  constructor
  · have h := Int.lt_zpow_succ_log_self (b := 2) (by norm_num) q
    have hle : (2 : ℚ) ^ (Int.log 2 q + 1) ≤ 2 ^ (max (Int.log 2 q) (-126) + 1) :=
      zpow_le_zpow_right₀ (by norm_num) (by omega)
    exact lt_of_lt_of_le (by exact_mod_cast h) hle
  · intro hn
    have hl : -126 ≤ Int.log 2 q :=
      (Int.zpow_le_iff_le_log (b := 2) (by norm_num) hq).mp (by exact_mod_cast hn)
    rw [max_eq_left hl]
    exact_mod_cast Int.zpow_log_le_self (b := 2) (by norm_num) hq

theorem f32Exponent_mono {t d : ℚ} (ht : 0 < t) (h : t ≤ d) : f32Exponent t ≤ f32Exponent d := by
  have hd : 0 < d := lt_of_lt_of_le ht h
  unfold f32Exponent
  rw [abs_of_pos ht, abs_of_pos hd]
  exact max_le_max (Int.log_mono_right ht h) (le_refl _)

/-- Two values of type `float`, the smaller divided by the larger: the quotient is
below `1 - 2^-25`, so its rounding is below 1. -/
theorem div_lt_of_isF32 {t d : ℚ} (ht0 : 0 ≤ t) (htd : t < d) (hft : f32 t = t)
    (hfd : f32 d = d) (hd : (2 : ℚ) ^ (-126 : ℤ) ≤ d) : t / d < 1 - 1 / 2 ^ 25 := by
  have hdpos : 0 < d := lt_of_le_of_lt ht0 htd
  rw [div_lt_iff₀ hdpos]
  obtain ⟨hdu, hdl⟩ := f32Exponent_bounds hdpos
  have hdl := hdl hd
  have hA : (0 : ℚ) < 2 ^ (f32Exponent d - 24) := zpow_pos (by norm_num) _
  have e1 : (2 : ℚ) ^ (f32Exponent d - 23) = 2 * 2 ^ (f32Exponent d - 24) := by
    rw [show f32Exponent d - 23 = (f32Exponent d - 24) + 1 by ring, two_zpow_succ]
  have e25 : (2 : ℚ) ^ (f32Exponent d + 1) = 2 ^ 25 * 2 ^ (f32Exponent d - 24) := by
    rw [show f32Exponent d + 1 = (f32Exponent d - 24) + 25 by ring,
      zpow_add₀ (by norm_num : (2 : ℚ) ≠ 0), mul_comm]
    norm_num
  have e24 : (2 : ℚ) ^ f32Exponent d = 2 ^ 24 * 2 ^ (f32Exponent d - 24) := by
    rw [show f32Exponent d = (f32Exponent d - 24) + 24 by ring,
      zpow_add₀ (by norm_num : (2 : ℚ) ≠ 0), mul_comm]
    norm_num
  rw [e25] at hdu
  rw [e24] at hdl
  -- it is enough that `d - t` is at least `A = 2^(e - 24)`
  suffices hgap : (2 : ℚ) ^ (f32Exponent d - 24) ≤ d - t by
    have : d * (1 / 2 ^ 25) < 2 ^ (f32Exponent d - 24) := by
      have h25 : (0 : ℚ) < 2 ^ 25 := by norm_num
      rw [mul_one_div, div_lt_iff₀ h25]
      linarith
    linarith
  rcases eq_or_lt_of_le ht0 with h0 | htpos
  · rw [← h0, sub_zero]
    have : (1 : ℚ) ≤ 2 ^ 24 := by norm_num
    nlinarith
  · obtain ⟨htu, _⟩ := f32Exponent_bounds htpos
    have hmono := f32Exponent_mono htpos (le_of_lt htd)
    unfold f32 at hft hfd
    generalize roundEven (t / 2 ^ (f32Exponent t - 23)) = mt at hft
    generalize roundEven (d / 2 ^ (f32Exponent d - 23)) = md at hfd
    rw [e1] at hfd
    by_cases hc : f32Exponent t = f32Exponent d
    · rw [hc, e1] at hft
      generalize (2 : ℚ) ^ (f32Exponent d - 24) = A at hA hft hfd ⊢
      have hlt : (mt : ℚ) * (2 * A) < (md : ℚ) * (2 * A) := by rw [hft, hfd]; exact htd
      have hm : mt < md := by
        have := lt_of_mul_lt_mul_right hlt (by positivity)
        exact_mod_cast this
      have hm1 : (mt : ℚ) + 1 ≤ md := by exact_mod_cast hm
      have hgap : d - t = ((md : ℚ) - mt) * (2 * A) := by linear_combination hft - hfd
      rw [hgap]
      nlinarith
    · by_cases hc1 : f32Exponent t = f32Exponent d - 1
      · rw [hc1, show f32Exponent d - 1 - 23 = f32Exponent d - 24 by ring] at hft
        generalize (2 : ℚ) ^ (f32Exponent d - 24) = A at hA hft hfd ⊢
        have hlt : (mt : ℚ) * A < ((2 * md : ℤ) : ℚ) * A := by
          push_cast
          rw [hft, mul_assoc, mul_left_comm, hfd]
          exact htd
        have hm : mt < 2 * md := by
          have := lt_of_mul_lt_mul_right hlt (le_of_lt hA)
          exact_mod_cast this
        have hm1 : (mt : ℚ) + 1 ≤ 2 * md := by exact_mod_cast hm
        have hgap : d - t = (2 * (md : ℚ) - mt) * A := by linear_combination hft - hfd
        rw [hgap]
        nlinarith
      · have hle : f32Exponent t + 1 ≤ f32Exponent d - 1 := by omega
        have h2 : (2 : ℚ) ^ (f32Exponent t + 1) ≤ 2 ^ (f32Exponent d - 1) :=
          zpow_le_zpow_right₀ (by norm_num) hle
        have e23 : (2 : ℚ) ^ (f32Exponent d - 1) = 2 ^ 23 * 2 ^ (f32Exponent d - 24) := by
          rw [show f32Exponent d - 1 = (f32Exponent d - 24) + 23 by ring,
            zpow_add₀ (by norm_num : (2 : ℚ) ≠ 0), mul_comm]
          norm_num
        rw [e23] at h2
        have htA : t < 2 ^ 23 * 2 ^ (f32Exponent d - 24) := lt_of_lt_of_le htu h2
        generalize (2 : ℚ) ^ (f32Exponent d - 24) = A at hA hdl htA ⊢
        nlinarith

/-- The rounded quotient of a `float` by a larger one is below 1. -/
theorem f32_div_lt_one {t d : ℚ} (ht0 : 0 ≤ t) (htd : t < d) (hft : f32 t = t)
    (hfd : f32 d = d) (hd : (2 : ℚ) ^ (-126 : ℤ) ≤ d) : f32 (t / d) < 1 :=
  f32_lt_one (div_nonneg ht0 (le_of_lt (lt_of_le_of_lt ht0 htd)))
    (div_lt_of_isF32 ht0 htd hft hfd hd)

/-! ## The constant `0.0001f` and the progress in `float` -/

/-- The literal `0.0001f`. -/
theorem f32_floor_constant : f32 (1 / 10000) = 13743895 / 2 ^ 37 := by
  rw [f32_of_binade (e := -14) (by rw [abs_of_pos (by norm_num)]; norm_num [zpow_neg])
    (by rw [abs_of_pos (by norm_num)]; norm_num [zpow_neg]) (by norm_num)]
  rw [roundEven_of_lt_half (f := 13743895) (by norm_num [zpow_neg]) (by norm_num [zpow_neg])]
  norm_num [zpow_neg]

theorem normF32_lt_one {t d : ℚ} (hF : f32 d = d) (hd : f32 (1 / 10000) ≤ d) (h0 : 0 ≤ t)
    (ht : t < d) (hft : f32 t = t) : normF32 t d < 1 := by
  have hmin : (2 : ℚ) ^ (-126 : ℤ) ≤ d := by
    refine le_trans ?_ hd
    rw [f32_floor_constant, zpow_neg]
    norm_num
  have hq := f32_div_lt_one h0 ht hft hF hmin
  unfold normF32
  simp only [max_eq_right hd]
  split_ifs <;> linarith

theorem normF32_self {d : ℚ} (hd : f32 (1 / 10000) ≤ d) : normF32 d d = 1 := by
  have hpos : 0 < d := by
    refine lt_of_lt_of_le ?_ hd
    rw [f32_floor_constant]
    norm_num
  unfold normF32
  simp only [max_eq_right hd, div_self (ne_of_gt hpos), f32_one]
  norm_num

/-! ## Steps and runs of `advanceTransition` in `float` -/

theorem advanceTransitionF32_enter_stay {w : Window} (dt : ℚ)
    (hs : w.TransitionState.state = Transition_State.State.Enter)
    (hp : normF32 (f32 (w.TransitionState.time_accumulator + dt))
      w.TransitionState.active_duration < 1) :
    w.advanceTransitionF32 dt =
      { w with TransitionState :=
          { w.TransitionState with
            time_accumulator := f32 (w.TransitionState.time_accumulator + dt),
            render_phase := Transition_State.RenderPhase.Enter,
            render_progress :=
              normF32 (f32 (w.TransitionState.time_accumulator + dt))
                w.TransitionState.active_duration } } := by
  unfold advanceTransitionF32
  simp [hs, not_le.mpr hp]

theorem advanceTransitionF32_enter_commit {w : Window} (dt : ℚ)
    (hs : w.TransitionState.state = Transition_State.State.Enter)
    (hp : 1 ≤ normF32 (f32 (w.TransitionState.time_accumulator + dt))
      w.TransitionState.active_duration) :
    w.advanceTransitionF32 dt =
      { w with
        SceneState := { w.SceneState with current := w.SceneState.target },
        TransitionState :=
          { w.TransitionState with
            state := Transition_State.State.Exit,
            time_accumulator := w.TransitionState.active_duration,
            render_phase := Transition_State.RenderPhase.Enter,
            render_progress :=
              normF32 (f32 (w.TransitionState.time_accumulator + dt))
                w.TransitionState.active_duration },
        trace := w.trace ++
          (if w.scenes.contains w.SceneState.current = true ∧
              (w.scenes.index w.SceneState.current).1.onUnload.isSome = true then
            [Event.sceneOnUnload w.SceneState.current] else []) ++
          (if w.scenes.contains w.SceneState.target = true ∧
              (w.scenes.index w.SceneState.target).1.onLoad.isSome = true then
            [Event.sceneOnLoad w.SceneState.target] else []) } := by
  unfold advanceTransitionF32
  simp only [hs, hp, if_true, fireOnUnload_eq, fireOnLoad_eq, beginExitPhase, emit]
  split_ifs <;> simp_all

theorem advanceTransitionF32_exit_stay {w : Window} (dt : ℚ)
    (hs : w.TransitionState.state = Transition_State.State.Exit)
    (hp : 0 < normF32 (f32 (w.TransitionState.time_accumulator - dt))
      w.TransitionState.active_duration) :
    w.advanceTransitionF32 dt =
      { w with TransitionState :=
          { w.TransitionState with
            time_accumulator := f32 (w.TransitionState.time_accumulator - dt),
            render_phase := Transition_State.RenderPhase.Exit,
            render_progress :=
              normF32 (f32 (w.TransitionState.time_accumulator - dt))
                w.TransitionState.active_duration } } := by
  unfold advanceTransitionF32
  simp [hs, not_le.mpr hp]

theorem advancesF32_append (w : Window) (l₁ l₂ : List ℚ) :
    w.advancesF32 (l₁ ++ l₂) = (w.advancesF32 l₁).advancesF32 l₂ := by
  induction l₁ generalizing w with
  | nil => rfl
  | cons x rest ih => exact ih (w.advanceTransitionF32 x)

/-- While the accumulated time stays below the duration and no addition rounds, the
Enter phase only moves the clock and the render fields. -/
theorem advancesF32_enter_below {d : ℚ} (hF : f32 d = d) (hd : f32 (1 / 10000) ≤ d)
    (dts : List ℚ) :
    ∀ w : Window, w.TransitionState.state = Transition_State.State.Enter →
      w.TransitionState.active_duration = d → 0 ≤ w.TransitionState.time_accumulator →
      (∀ x ∈ dts, 0 ≤ x) → w.TransitionState.time_accumulator + dts.sum < d →
      (∀ pre x post, dts = pre ++ x :: post →
        f32 (w.TransitionState.time_accumulator + pre.sum + x) =
          w.TransitionState.time_accumulator + pre.sum + x) →
      ∃ ph pr, w.advancesF32 dts =
        { w with TransitionState :=
            { w.TransitionState with
              time_accumulator := w.TransitionState.time_accumulator + dts.sum,
              render_phase := ph, render_progress := pr } } := by
  induction dts with
  | nil =>
    intro w _ _ _ _ _ _
    exact ⟨w.TransitionState.render_phase, w.TransitionState.render_progress,
      by simp [advancesF32]⟩
  | cons x rest ih =>
    intro w hs hdur h0 hnn hlt hex
    have hx : 0 ≤ x := hnn x (List.mem_cons_self _ _)
    have hrest : ∀ y ∈ rest, 0 ≤ y := fun y hy => hnn y (List.mem_cons_of_mem _ hy)
    have hsum : 0 ≤ rest.sum := sum_nonneg_of_nonneg hrest
    rw [List.sum_cons] at hlt
    have hfx : f32 (w.TransitionState.time_accumulator + x) =
        w.TransitionState.time_accumulator + x := by
      have h := hex [] x rest rfl
      simpa using h
    have hstep := advanceTransitionF32_enter_stay (w := w) x hs
      (by rw [hdur, hfx]
          exact normF32_lt_one hF hd (by linarith) (by linarith) (by rw [hfx]))
    rw [hfx] at hstep
    have hs1 : (w.advanceTransitionF32 x).TransitionState.state =
        Transition_State.State.Enter := by
      rw [hstep]; exact hs
    have hd1 : (w.advanceTransitionF32 x).TransitionState.active_duration = d := by
      rw [hstep]; exact hdur
    have ht1 : (w.advanceTransitionF32 x).TransitionState.time_accumulator =
        w.TransitionState.time_accumulator + x := by
      rw [hstep]
    obtain ⟨ph, pr, hrun⟩ := ih (w.advanceTransitionF32 x) hs1 hd1 (by rw [ht1]; linarith) hrest
      (by rw [ht1]; linarith)
      (by
        intro pre y post hsplit
        rw [ht1]
        have h := hex (x :: pre) y post (by rw [hsplit]; rfl)
        rw [List.sum_cons, ← add_assoc] at h
        exact h)
    refine ⟨ph, pr, ?_⟩
    rw [advancesF32, hrun, ht1, hstep]
    simp [List.sum_cons, add_assoc]

/-- With frame time zero the Exit phase, started at the full duration, stays where
it is. -/
theorem advancesF32_exit_zeros {d : ℚ} (hF : f32 d = d) (hd : f32 (1 / 10000) ≤ d)
    (dts : List ℚ) :
    ∀ w : Window, w.TransitionState.state = Transition_State.State.Exit →
      w.TransitionState.active_duration = d → w.TransitionState.time_accumulator = d →
      (∀ x ∈ dts, x = 0) →
      ∃ ph pr, w.advancesF32 dts =
        { w with TransitionState :=
            { w.TransitionState with render_phase := ph, render_progress := pr } } := by
  induction dts with
  | nil =>
    intro w _ _ _ _
    exact ⟨w.TransitionState.render_phase, w.TransitionState.render_progress,
      by simp [advancesF32]⟩
  | cons x rest ih =>
    intro w hs hdur ht hz
    have hx : x = 0 := hz x (List.mem_cons_self _ _)
    have hrest : ∀ y ∈ rest, y = 0 := fun y hy => hz y (List.mem_cons_of_mem _ hy)
    subst hx
    have hfd : f32 (w.TransitionState.time_accumulator - 0) = d := by
      rw [sub_zero, ht, hF]
    have hstep := advanceTransitionF32_exit_stay (w := w) 0 hs
      (by rw [hfd, hdur, normF32_self hd]; exact zero_lt_one)
    rw [hfd] at hstep
    have hs1 : (w.advanceTransitionF32 0).TransitionState.state =
        Transition_State.State.Exit := by
      rw [hstep]; exact hs
    have hd1 : (w.advanceTransitionF32 0).TransitionState.active_duration = d := by
      rw [hstep]; exact hdur
    have ht1 : (w.advanceTransitionF32 0).TransitionState.time_accumulator = d := by
      rw [hstep]
    obtain ⟨ph, pr, hrun⟩ := ih (w.advanceTransitionF32 0) hs1 hd1 ht1 hrest
    refine ⟨ph, pr, ?_⟩
    rw [advancesF32, hrun, hstep]
    simp [← ht]

/-- The Enter phase in `float`, driven up to the frame that reaches the duration,
and beyond, when no addition of the accumulation rounds: the window after the
frames `pre`, after the boundary frame `x`, and after the remaining frames `post`. -/
theorem enter_run_f32 {d : ℚ} (hF : f32 d = d) (hd : f32 (1 / 10000) ≤ d) (w : Window)
    (pre post : List ℚ) (x : ℚ)
    (hs : w.TransitionState.state = Transition_State.State.Enter)
    (ht : w.TransitionState.time_accumulator = 0)
    (hdur : w.TransitionState.active_duration = d)
    (hnn : ∀ y ∈ pre ++ x :: post, 0 ≤ y) (hsum : (pre ++ x :: post).sum = d)
    (hex : ∀ p y q, pre ++ x :: post = p ++ y :: q → f32 (p.sum + y) = p.sum + y)
    (h1 : pre.sum < d) (h2 : pre.sum + x = d) :
    (∃ ph pr, w.advancesF32 pre =
      { w with TransitionState :=
          { w.TransitionState with
            time_accumulator := pre.sum, render_phase := ph, render_progress := pr } }) ∧
    w.advancesF32 (pre ++ [x]) =
      { w with
        SceneState := { w.SceneState with current := w.SceneState.target },
        TransitionState :=
          { w.TransitionState with
            state := Transition_State.State.Exit,
            time_accumulator := d,
            render_phase := Transition_State.RenderPhase.Enter,
            render_progress := 1 },
        trace := w.trace ++
          (if w.scenes.contains w.SceneState.current = true ∧
              (w.scenes.index w.SceneState.current).1.onUnload.isSome = true then
            [Event.sceneOnUnload w.SceneState.current] else []) ++
          (if w.scenes.contains w.SceneState.target = true ∧
              (w.scenes.index w.SceneState.target).1.onLoad.isSome = true then
            [Event.sceneOnLoad w.SceneState.target] else []) } ∧
    ∃ ph pr, w.advancesF32 (pre ++ x :: post) =
      { w with
        SceneState := { w.SceneState with current := w.SceneState.target },
        TransitionState :=
          { w.TransitionState with
            state := Transition_State.State.Exit,
            time_accumulator := d,
            render_phase := ph,
            render_progress := pr },
        trace := w.trace ++
          (if w.scenes.contains w.SceneState.current = true ∧
              (w.scenes.index w.SceneState.current).1.onUnload.isSome = true then
            [Event.sceneOnUnload w.SceneState.current] else []) ++
          (if w.scenes.contains w.SceneState.target = true ∧
              (w.scenes.index w.SceneState.target).1.onLoad.isSome = true then
            [Event.sceneOnLoad w.SceneState.target] else []) } := by
  have hpre : ∀ y ∈ pre, 0 ≤ y := fun y hy => hnn y (List.mem_append_left _ hy)
  have hpost : ∀ y ∈ post, 0 ≤ y := fun y hy =>
    hnn y (List.mem_append_right _ (List.mem_cons_of_mem _ hy))
  have hpost0 : post.sum = 0 := by
    rw [List.sum_append, List.sum_cons] at hsum
    linarith
  have hzeros := all_zero_of_sum_zero hpost hpost0
  obtain ⟨ph, pr, hA⟩ := advancesF32_enter_below hF hd pre w hs hdur (by rw [ht]) hpre
    (by rw [ht]; linarith)
    (by
      intro p y q hsplit
      rw [ht, zero_add]
      exact hex p y (q ++ x :: post) (by rw [hsplit]; simp))
  rw [ht, zero_add] at hA
  have hsA : (w.advancesF32 pre).TransitionState.state = Transition_State.State.Enter := by
    rw [hA]; exact hs
  have hdA : (w.advancesF32 pre).TransitionState.active_duration = d := by
    rw [hA]; exact hdur
  have htA : (w.advancesF32 pre).TransitionState.time_accumulator = pre.sum := by
    rw [hA]
  have hfx : f32 (pre.sum + x) = d := by
    rw [hex pre x post rfl, h2]
  have hn : normF32 (f32 ((w.advancesF32 pre).TransitionState.time_accumulator + x))
      (w.advancesF32 pre).TransitionState.active_duration = 1 := by
    rw [htA, hdA, hfx, normF32_self hd]
  have hB := advanceTransitionF32_enter_commit (w := w.advancesF32 pre) x hsA (by rw [hn])
  rw [hn, hdA] at hB
  have hB2 : w.advancesF32 (pre ++ [x]) =
      { w with
        SceneState := { w.SceneState with current := w.SceneState.target },
        TransitionState :=
          { w.TransitionState with
            state := Transition_State.State.Exit,
            time_accumulator := d,
            render_phase := Transition_State.RenderPhase.Enter,
            render_progress := 1 },
        trace := w.trace ++
          (if w.scenes.contains w.SceneState.current = true ∧
              (w.scenes.index w.SceneState.current).1.onUnload.isSome = true then
            [Event.sceneOnUnload w.SceneState.current] else []) ++
          (if w.scenes.contains w.SceneState.target = true ∧
              (w.scenes.index w.SceneState.target).1.onLoad.isSome = true then
            [Event.sceneOnLoad w.SceneState.target] else []) } := by
    rw [advancesF32_append]
    show (w.advancesF32 pre).advanceTransitionF32 x = _
    rw [hB, hA]
  refine ⟨⟨ph, pr, hA⟩, hB2, ?_⟩
  have hsplit : pre ++ x :: post = (pre ++ [x]) ++ post := by simp
  obtain ⟨ph2, pr2, hC⟩ := advancesF32_exit_zeros hF hd post (w.advancesF32 (pre ++ [x]))
    (by rw [hB2]) (by rw [hB2]; exact hdur) (by rw [hB2]) hzeros
  refine ⟨ph2, pr2, ?_⟩
  rw [hsplit, advancesF32_append, hC, hB2]

/-! ## Concrete values in `float` -/

theorem f32_two_zpow {e : ℤ} (he : -126 ≤ e) : f32 ((2 : ℚ) ^ e) = 2 ^ e := by
  have hpos : (0 : ℚ) < 2 ^ e := zpow_pos (by norm_num) e
  rw [f32_of_binade (e := e) (by rw [abs_of_pos hpos])
    (by rw [abs_of_pos hpos, two_zpow_succ]; linarith) he]
  have h : (2 : ℚ) ^ e / 2 ^ (e - 23) = ((8388608 : ℤ) : ℚ) := by
    rw [← zpow_sub₀ (by norm_num : (2 : ℚ) ≠ 0), show e - (e - 23) = 23 by ring]
    norm_num
  rw [h, roundEven_intCast]
  have h2 : (2 : ℚ) ^ e = 2 ^ (e - 23) * 2 ^ (23 : ℤ) := by
    rw [← zpow_add₀ (by norm_num : (2 : ℚ) ≠ 0), show e - 23 + 23 = e by ring]
  rw [h2]
  norm_num
  ring

/-- The sums of the frame times `1/4, 1/4, 1/2` are values of type `float`. -/
theorem f32_quarters :
    f32 (1 / 4) = 1 / 4 ∧ f32 (1 / 2) = 1 / 2 := by
  have h4 := f32_two_zpow (e := -2) (by norm_num)
  have h2 := f32_two_zpow (e := -1) (by norm_num)
  have e4 : (2 : ℚ) ^ (-2 : ℤ) = 1 / 4 := by norm_num [zpow_neg]
  have e2 : (2 : ℚ) ^ (-1 : ℤ) = 1 / 2 := by norm_num [zpow_neg]
  rw [e4] at h4
  rw [e2] at h2
  exact ⟨h4, h2⟩

/-- The `float` below 1 absorbs a frame time of `2^-26`. -/
theorem f32_absorbs :
    f32 (1 - 1 / 2 ^ 24) = 1 - 1 / 2 ^ 24 ∧
    f32 (1 - 1 / 2 ^ 24 + 1 / 2 ^ 26) = 1 - 1 / 2 ^ 24 := by
  constructor
  · rw [f32_of_binade (e := -1) (by rw [abs_of_pos (by norm_num)]; norm_num [zpow_neg])
      (by rw [abs_of_pos (by norm_num)]; norm_num [zpow_neg]) (by norm_num)]
    have h : ((1 : ℚ) - 1 / 2 ^ 24) / 2 ^ ((-1 : ℤ) - 23) = ((16777215 : ℤ) : ℚ) := by
      norm_num [zpow_neg]
    rw [h, roundEven_intCast]
    norm_num [zpow_neg]
  · rw [f32_of_binade (e := -1) (by rw [abs_of_pos (by norm_num)]; norm_num [zpow_neg])
      (by rw [abs_of_pos (by norm_num)]; norm_num [zpow_neg]) (by norm_num)]
    rw [roundEven_of_lt_half (f := 16777215) (by norm_num [zpow_neg]) (by norm_num [zpow_neg])]
    norm_num [zpow_neg]

/-- The progress of the absorbed accumulator, and of the duration `2^-15` over the
floor `0.0001f`. -/
theorem normF32_values :
    normF32 (1 - 1 / 2 ^ 24) 1 = 1 - 1 / 2 ^ 24 ∧
    normF32 (1 / 2 ^ 15) (1 / 2 ^ 15) = 625 / 2048 := by
  constructor
  · unfold normF32
    have hm : max (f32 (1 / 10000)) 1 = 1 := by
      rw [f32_floor_constant]
      norm_num
    simp only [hm, div_one, f32_absorbs.1]
    norm_num
  · unfold normF32
    have hm : max (f32 (1 / 10000)) (1 / 2 ^ 15) = 13743895 / 2 ^ 37 := by
      rw [f32_floor_constant]
      norm_num
    have hq : f32 (1 / 2 ^ 15 / (13743895 / 2 ^ 37)) = 625 / 2048 := by
      rw [f32_of_binade (e := -2) (by rw [abs_of_pos (by norm_num)]; norm_num [zpow_neg])
        (by rw [abs_of_pos (by norm_num)]; norm_num [zpow_neg]) (by norm_num)]
      rw [roundEven_of_lt_half (f := 10240000) (by norm_num [zpow_neg])
        (by norm_num [zpow_neg])]
      norm_num [zpow_neg]
    simp only [hm, hq]
    norm_num

/-- C2 (amended): in the arithmetic of `float`, for every duration `d` of type
`float` that is at least the floor `0.0001f` of the divisor in `norm`, and every
sequence of non-negative frame times whose sum is exactly `d` and whose running
sums are added without rounding (each `time_accumulator += dt` is exact), running
`advanceTransition` from the start of the Enter phase (state `Enter`,
`time_accumulator = 0`, `active_duration = d`): a frame `x` at which the cumulative
frame time reaches `d` exists; before it nothing is fired and `current` is
unchanged; the call of that frame reports `render_progress = 1` in render phase
`Enter`, sets `current` to the target and fires `onUnload` of the old current scene
followed by `onLoad` of the new one (each when the scene is registered and the slot
is not empty); and over the whole sequence these are the only events, `current` is
the target and the state is `Exit`. -/
theorem C2_enter_reaches_duration (w : Window) (d : ℚ) (dts : List ℚ)
    (hF : isF32 d) (hd : f32 (1 / 10000) ≤ d)
    (hs : w.TransitionState.state = Transition_State.State.Enter)
    (ht : w.TransitionState.time_accumulator = 0)
    (hdur : w.TransitionState.active_duration = d)
    (hnn : ∀ y ∈ dts, 0 ≤ y) (hsum : dts.sum = d)
    (hexact : ∀ pre x post, dts = pre ++ x :: post → f32 (pre.sum + x) = pre.sum + x) :
    (∃ pre x post, dts = pre ++ x :: post ∧ pre.sum < d ∧ pre.sum + x = d) ∧
    (∀ pre x post, dts = pre ++ x :: post → pre.sum < d → pre.sum + x = d →
      (w.advancesF32 pre).trace = w.trace ∧
      (w.advancesF32 pre).SceneState.current = w.SceneState.current ∧
      (w.advancesF32 (pre ++ [x])).TransitionState.render_progress = 1 ∧
      (w.advancesF32 (pre ++ [x])).TransitionState.render_phase =
        Transition_State.RenderPhase.Enter ∧
      (w.advancesF32 (pre ++ [x])).SceneState.current = w.SceneState.target ∧
      (w.advancesF32 (pre ++ [x])).trace = w.trace ++
        (if w.scenes.contains w.SceneState.current = true ∧
            (w.scenes.index w.SceneState.current).1.onUnload.isSome = true then
          [Event.sceneOnUnload w.SceneState.current] else []) ++
        (if w.scenes.contains w.SceneState.target = true ∧
            (w.scenes.index w.SceneState.target).1.onLoad.isSome = true then
          [Event.sceneOnLoad w.SceneState.target] else [])) ∧
    (w.advancesF32 dts).SceneState.current = w.SceneState.target ∧
    (w.advancesF32 dts).TransitionState.state = Transition_State.State.Exit ∧
    (w.advancesF32 dts).trace = w.trace ++
      (if w.scenes.contains w.SceneState.current = true ∧
          (w.scenes.index w.SceneState.current).1.onUnload.isSome = true then
        [Event.sceneOnUnload w.SceneState.current] else []) ++
      (if w.scenes.contains w.SceneState.target = true ∧
          (w.scenes.index w.SceneState.target).1.onLoad.isSome = true then
        [Event.sceneOnLoad w.SceneState.target] else []) := by
  have hpos : 0 < d := by
    refine lt_of_lt_of_le ?_ hd
    rw [f32_floor_constant]
    norm_num
  have hex := boundary_exists dts 0 d hnn hpos (by rw [zero_add]; exact hsum)
  simp only [zero_add] at hex
  refine ⟨hex, ?_, ?_⟩
  · intro pre x post hsplit h1 h2
    subst hsplit
    obtain ⟨⟨ph, pr, hA⟩, hB, _⟩ :=
      enter_run_f32 hF.1 hd w pre post x hs ht hdur hnn hsum hexact h1 h2
    rw [hA, hB]
    exact ⟨rfl, rfl, rfl, rfl, rfl, rfl⟩
  · obtain ⟨pre, x, post, hsplit, h1, h2⟩ := hex
    subst hsplit
    obtain ⟨_, _, ph, pr, hC⟩ :=
      enter_run_f32 hF.1 hd w pre post x hs ht hdur hnn hsum hexact h1 h2
    rw [hC]
    exact ⟨rfl, rfl, rfl⟩

/-- Witness of C2: scenario window at the start of Enter with duration 1, and frame
times `1/4, 1/4, 1/2`, whose running sums `1/4`, `1/2` and `1` are values of type
`float`. -/
theorem C2_enter_reaches_duration_witness :
    ((fadeAt "A" "B" ⟨.Enter, false, "fade", 0, 1, .None, 0⟩ []).advancesF32
      [1 / 4, 1 / 4, 1 / 2]).SceneState.current = "B" ∧
    ((fadeAt "A" "B" ⟨.Enter, false, "fade", 0, 1, .None, 0⟩ []).advancesF32
      [1 / 4, 1 / 4, 1 / 2]).TransitionState.state = Transition_State.State.Exit := by
  have hex : ∀ pre x post, [(1 / 4 : ℚ), 1 / 4, 1 / 2] = pre ++ x :: post →
      f32 (pre.sum + x) = pre.sum + x := by
    intro pre x post h
    rcases pre with _ | ⟨a, _ | ⟨b, _ | ⟨c, pre⟩⟩⟩
    · simp only [List.nil_append, List.cons.injEq] at h
      rw [← h.1]
      simpa using f32_quarters.1
    · simp only [List.cons_append, List.nil_append, List.cons.injEq] at h
      rw [← h.1, ← h.2.1]
      have e : [(1 / 4 : ℚ)].sum + 1 / 4 = 1 / 2 := by norm_num
      rw [e]
      exact f32_quarters.2
    · simp only [List.cons_append, List.nil_append, List.cons.injEq] at h
      rw [← h.1, ← h.2.1, ← h.2.2.1]
      have e : [(1 / 4 : ℚ), 1 / 4].sum + 1 / 2 = 1 := by norm_num
      rw [e]
      exact f32_one
    · simp at h
  have h := C2_enter_reaches_duration (fadeAt "A" "B" ⟨.Enter, false, "fade", 0, 1, .None, 0⟩ [])
    1 [1 / 4, 1 / 4, 1 / 2] ⟨f32_one, by norm_num⟩ (by rw [f32_floor_constant]; norm_num)
    rfl rfl rfl (by simp) (by norm_num) hex
  exact ⟨h.2.2.1, h.2.2.2.1⟩

theorem fadeEnter_fields :
    fadeEnter.TransitionState.state = Transition_State.State.Enter ∧
    fadeEnter.TransitionState.time_accumulator = 0 ∧
    fadeEnter.TransitionState.active_duration = 1 ∧
    fadeEnter.SceneState.current = "A" ∧ fadeEnter.SceneState.target = "B" := by
  simp [fadeEnter, fadeStart, fadeAt, fadeOptions, Dict.index, Dict.find, Dict.contains,
    navigate, tryStartTransition, resolveTarget, pickTransitionName, pickTransitionDuration,
    transitionsAt, beginEnterPhase, List.lookup]

theorem briefEnter_fields :
    briefEnter.TransitionState.state = Transition_State.State.Enter ∧
    briefEnter.TransitionState.time_accumulator = 0 ∧
    briefEnter.TransitionState.active_duration = 1 / 2 ^ 15 ∧
    briefEnter.SceneState.current = "A" ∧ briefEnter.SceneState.target = "B" := by
  simp [briefEnter, briefDefs, started, fadeOptions, fadeScreen, initStart,
    chooseStart, fresh, defineScene, defineTransition, Dict.assign,
    Dict.put, fireStatusListeners, firstOnLoad, ensureCanvas,
    Dict.index, Dict.find, Dict.contains, emit,
    scenesAt, navigate, tryStartTransition,
    resolveTarget, pickTransitionName, pickTransitionDuration,
    transitionsAt, beginEnterPhase, List.lookup]

/-- An Enter phase of duration 1 whose accumulator holds `1 - 2^-24`: a frame of
`2^-26` seconds leaves the accumulator where it is and reports the same progress. -/
theorem absorbed_step {w : Window}
    (hs : w.TransitionState.state = Transition_State.State.Enter)
    (hdur : w.TransitionState.active_duration = 1)
    (ht : w.TransitionState.time_accumulator = 1 - 1 / 2 ^ 24) :
    w.advanceTransitionF32 (1 / 2 ^ 26) =
      { w with TransitionState :=
          { w.TransitionState with
            time_accumulator := 1 - 1 / 2 ^ 24,
            render_phase := Transition_State.RenderPhase.Enter,
            render_progress := 1 - 1 / 2 ^ 24 } } := by
  have hp : normF32 (f32 (w.TransitionState.time_accumulator + 1 / 2 ^ 26))
      w.TransitionState.active_duration = 1 - 1 / 2 ^ 24 := by
    rw [ht, hdur, f32_absorbs.2, normF32_values.1]
  rw [advanceTransitionF32_enter_stay (1 / 2 ^ 26) hs (by rw [hp]; norm_num), hp, ht,
    f32_absorbs.2]

/-- The run of the absorbed frame times on the fade scenario. -/
theorem absorbed_run :
    fadeEnter.advancesF32 absorbedFrames =
      { fadeEnter with TransitionState :=
          { fadeEnter.TransitionState with
            time_accumulator := 1 - 1 / 2 ^ 24,
            render_phase := Transition_State.RenderPhase.Enter,
            render_progress := 1 - 1 / 2 ^ 24 } } := by
  obtain ⟨hs, ht, hdur, _, _⟩ := fadeEnter_fields
  have hp : normF32 (f32 (fadeEnter.TransitionState.time_accumulator + (1 - 1 / 2 ^ 24)))
      fadeEnter.TransitionState.active_duration = 1 - 1 / 2 ^ 24 := by
    rw [ht, hdur, zero_add, f32_absorbs.1, normF32_values.1]
  have h1 := advanceTransitionF32_enter_stay (w := fadeEnter) (1 - 1 / 2 ^ 24) hs
    (by rw [hp]; norm_num)
  rw [hp, ht, zero_add, f32_absorbs.1] at h1
  have h2 := absorbed_step
    (w := { fadeEnter with TransitionState :=
      { fadeEnter.TransitionState with
        time_accumulator := 1 - 1 / 2 ^ 24,
        render_phase := Transition_State.RenderPhase.Enter,
        render_progress := 1 - 1 / 2 ^ 24 } }) hs hdur rfl
  simp only [absorbedFrames, advancesF32]
  rw [h1, h2, h2, h2, h2]

/-- The single frame of `2^-15` seconds on the Enter phase of `brief`. -/
theorem brief_run :
    briefEnter.advancesF32 [1 / 2 ^ 15] =
      { briefEnter with TransitionState :=
          { briefEnter.TransitionState with
            time_accumulator := 1 / 2 ^ 15,
            render_phase := Transition_State.RenderPhase.Enter,
            render_progress := 625 / 2048 } } := by
  obtain ⟨bs, bt, bd, _, _⟩ := briefEnter_fields
  have hb15 : f32 (1 / 2 ^ 15) = 1 / 2 ^ 15 := by
    have h := f32_two_zpow (e := -15) (by norm_num)
    have e : (2 : ℚ) ^ (-15 : ℤ) = 1 / 2 ^ 15 := by norm_num [zpow_neg]
    rw [e] at h
    exact h
  have hp : normF32 (f32 (briefEnter.TransitionState.time_accumulator + 1 / 2 ^ 15))
      briefEnter.TransitionState.active_duration = 625 / 2048 := by
    rw [bt, bd, zero_add, hb15, normF32_values.2]
  have hbrief := advanceTransitionF32_enter_stay (w := briefEnter) (1 / 2 ^ 15) bs
    (by rw [hp]; norm_num)
  rw [hp, bt, zero_add, hb15] at hbrief
  simp only [advancesF32]
  exact hbrief

/-- Counterexample to C2 as stated, in the arithmetic of `float`.  First: the Enter
phase of the fade scenario (duration 1), driven by the frame times `1 - 2^-24` and
four times `2^-26`, all non-negative values of type `float` whose sum is exactly 1;
each `2^-26` is absorbed by the rounding of `time_accumulator += dt`, so after the
last frame, where the cumulative frame time reaches 1, the accumulator and the
progress are `1 - 2^-24`, the state is still `Enter`, `current` is still `A` and
nothing has fired.  Second: the transition `brief` of duration `2^-15 > 0`, below
the floor `0.0001f`, driven by the single frame time `2^-15`: the progress is
`625/2048`, not 1, and nothing is committed. -/
theorem C2_counterexample :
    fadeEnter.TransitionState.state = Transition_State.State.Enter ∧
    fadeEnter.TransitionState.time_accumulator = 0 ∧
    fadeEnter.TransitionState.active_duration = 1 ∧
    (∀ y ∈ absorbedFrames, 0 ≤ y) ∧ absorbedFrames.sum = 1 ∧
    (fadeEnter.advancesF32 absorbedFrames).TransitionState.render_progress = 1 - 1 / 2 ^ 24 ∧
    (fadeEnter.advancesF32 absorbedFrames).TransitionState.time_accumulator = 1 - 1 / 2 ^ 24 ∧
    (fadeEnter.advancesF32 absorbedFrames).TransitionState.state = Transition_State.State.Enter ∧
    (fadeEnter.advancesF32 absorbedFrames).SceneState.current = "A" ∧
    fadeEnter.SceneState.target = "B" ∧
    (fadeEnter.advancesF32 absorbedFrames).trace = fadeEnter.trace ∧
    briefEnter.TransitionState.state = Transition_State.State.Enter ∧
    briefEnter.TransitionState.time_accumulator = 0 ∧
    briefEnter.TransitionState.active_duration = 1 / 2 ^ 15 ∧
    (0 : ℚ) < 1 / 2 ^ 15 ∧ [(1 / 2 ^ 15 : ℚ)].sum = 1 / 2 ^ 15 ∧
    (briefEnter.advancesF32 [1 / 2 ^ 15]).TransitionState.render_progress = 625 / 2048 ∧
    (briefEnter.advancesF32 [1 / 2 ^ 15]).TransitionState.state = Transition_State.State.Enter ∧
    (briefEnter.advancesF32 [1 / 2 ^ 15]).SceneState.current = "A" ∧
    briefEnter.SceneState.target = "B" ∧
    (briefEnter.advancesF32 [1 / 2 ^ 15]).trace = briefEnter.trace := by
  obtain ⟨fs, ft, fd, fc, fg⟩ := fadeEnter_fields
  obtain ⟨bs, bt, bd, bc, bg⟩ := briefEnter_fields
  rw [absorbed_run, brief_run]
  refine ⟨fs, ft, fd, ?_, ?_, rfl, rfl, fs, fc, fg, rfl, bs, bt, bd, by norm_num, by simp,
    rfl, bs, bc, bg, rfl⟩
  · intro y hy
    simp only [absorbedFrames, List.mem_cons, List.mem_singleton, List.not_mem_nil,
      or_false] at hy
    rcases hy with h | h | h | h | h <;> rw [h] <;> norm_num
  · simp only [absorbedFrames]
    norm_num

/-- Over exact time, the floor of the divisor alone: with the transition `blink` of duration
`1/20000 > 0`, the Enter phase started by `navigate("B", "blink")`, driven by the
single frame time `1/20000` (sum exactly the duration), reports progress `1/2`, not
`1`, and commits nothing: the state is still `Enter`, `current` is still `A`, and no
callback has fired. -/
theorem blink_no_commit :
    blinkEnter.TransitionState.state = Transition_State.State.Enter ∧
    blinkEnter.TransitionState.time_accumulator = 0 ∧
    blinkEnter.TransitionState.active_duration = 1 / 20000 ∧
    (0 : ℚ) < 1 / 20000 ∧ (∀ y ∈ [(1 / 20000 : ℚ)], 0 ≤ y) ∧ [(1 / 20000 : ℚ)].sum = 1 / 20000 ∧
    (blinkEnter.advances [1 / 20000]).TransitionState.render_progress = 1 / 2 ∧
    (blinkEnter.advances [1 / 20000]).TransitionState.state = Transition_State.State.Enter ∧
    (blinkEnter.advances [1 / 20000]).SceneState.current = "A" ∧
    blinkEnter.SceneState.target = "B" ∧
    (blinkEnter.advances [1 / 20000]).trace = blinkEnter.trace := by
  simp [blinkEnter, blinkDefs, started, fadeOptions, fadeScreen, Window.initStart,
    Window.chooseStart, Window.fresh, Window.defineScene, Window.defineTransition, Dict.assign,
    Dict.put, Window.fireStatusListeners, Window.firstOnLoad, Window.ensureCanvas,
    Dict.index, Dict.find, Dict.contains, Window.emit,
      Window.scenesAt, Window.navigate, Window.tick, Window.tryStartTransition,
      Window.resolveTarget, Window.pickTransitionName, Window.pickTransitionDuration,
      Window.transitionsAt, Window.beginEnterPhase, Window.beginExitPhase, Window.endTransition,
      Window.fireOnLoad, Window.fireOnUnload, Window.advanceTransition, Window.norm, advances,
      List.lookup]
  norm_num

/-! ## The Exit phase -/

/-- One call in state Exit: the progress it reports, and when it ends the
transition. -/
theorem advanceTransition_exit_facts (v : Window) (dt : ℚ)
    (hs : v.TransitionState.state = Transition_State.State.Exit) :
    (v.advanceTransition dt).TransitionState.render_progress =
        norm (v.TransitionState.time_accumulator - dt) v.TransitionState.active_duration ∧
    (v.advanceTransition dt).TransitionState.active_duration =
        v.TransitionState.active_duration ∧
    ((v.advanceTransition dt).TransitionState.state = Transition_State.State.Inactive ↔
      (v.advanceTransition dt).TransitionState.render_progress ≤ 0) ∧
    ((v.advanceTransition dt).TransitionState.state = Transition_State.State.Inactive →
      (v.advanceTransition dt).TransitionState.active_transition = "" ∧
      (v.advanceTransition dt).TransitionState.time_accumulator = 0) ∧
    ((v.advanceTransition dt).TransitionState.state ≠ Transition_State.State.Inactive →
      (v.advanceTransition dt).TransitionState.state = Transition_State.State.Exit ∧
      (v.advanceTransition dt).TransitionState.active_transition =
        v.TransitionState.active_transition ∧
      (v.advanceTransition dt).TransitionState.time_accumulator =
        v.TransitionState.time_accumulator - dt) := by
  by_cases hp : norm (v.TransitionState.time_accumulator - dt) v.TransitionState.active_duration ≤ 0
  · rw [advanceTransition_exit_end dt hs hp]
    simp [hp]
  · rw [advanceTransition_exit_stay dt hs (not_le.mp hp)]
    simp [hp, hs]

/-- Reports of a run that starts in state Exit or Inactive: each is at most the
one before (`p` stands for the report before the run) and none is negative. -/
theorem reports_chain (dts : List ℚ) :
    ∀ (w : Window) (p : ℚ),
      (w.TransitionState.state = Transition_State.State.Exit ∧
          norm w.TransitionState.time_accumulator w.TransitionState.active_duration ≤ p) ∨
        (w.TransitionState.state = Transition_State.State.Inactive ∧ 0 ≤ p) →
      (∀ y ∈ dts, 0 ≤ y) →
      List.Chain (fun a b => b ≤ a) p (w.progressReports dts) ∧
        ∀ q ∈ w.progressReports dts, 0 ≤ q := by
  induction dts with
  | nil =>
    intro w p _ _
    exact ⟨List.Chain.nil, fun q hq => by simp [progressReports] at hq⟩
  | cons x rest ih =>
    intro w p hJ hnn
    have hx : 0 ≤ x := hnn x (List.mem_cons_self _ _)
    have hrest : ∀ y ∈ rest, 0 ≤ y := fun y hy => hnn y (List.mem_cons_of_mem _ hy)
    have hstep : (w.advanceTransition x).TransitionState.render_progress ≤ p ∧
        0 ≤ (w.advanceTransition x).TransitionState.render_progress ∧
        (((w.advanceTransition x).TransitionState.state = Transition_State.State.Exit ∧
            norm (w.advanceTransition x).TransitionState.time_accumulator
              (w.advanceTransition x).TransitionState.active_duration ≤
              (w.advanceTransition x).TransitionState.render_progress) ∨
          ((w.advanceTransition x).TransitionState.state = Transition_State.State.Inactive ∧
            0 ≤ (w.advanceTransition x).TransitionState.render_progress)) := by
      rcases hJ with ⟨hs, hp⟩ | ⟨hs, hp⟩
      · obtain ⟨h1, h2, h3, h4, h5⟩ := advanceTransition_exit_facts w x hs
        have hmono : norm (w.TransitionState.time_accumulator - x)
            w.TransitionState.active_duration ≤
            norm w.TransitionState.time_accumulator w.TransitionState.active_duration :=
          norm_mono _ (by linarith)
        refine ⟨by rw [h1]; linarith, by rw [h1]; exact norm_nonneg _ _, ?_⟩
        by_cases hin : (w.advanceTransition x).TransitionState.state =
            Transition_State.State.Inactive
        · exact Or.inr ⟨hin, by rw [h1]; exact norm_nonneg _ _⟩
        · obtain ⟨h6, _, h8⟩ := h5 hin
          exact Or.inl ⟨h6, by rw [h8, h2, h1]⟩
      · rw [advanceTransition_inactive x hs]
        exact ⟨hp, le_refl _, Or.inr ⟨hs, le_refl _⟩⟩
    obtain ⟨h1, h2, h3⟩ := hstep
    obtain ⟨hc, hq⟩ := ih (w.advanceTransition x) _ h3 hrest
    refine ⟨List.Chain.cons h1 hc, ?_⟩
    intro q hq2
    rcases List.mem_cons.mp hq2 with h | h
    · rw [h]; exact h2
    · exact hq q h

/-- C3: during the Exit phase, for every sequence of non-negative frame times, the
`render_progress` reported by successive `advanceTransition` calls is non-increasing
from call to call and never below `0`; and a call made in state `Exit` reports
`norm (time_accumulator - dt) active_duration`, sets the state to `Inactive`
(clearing `active_transition` and resetting `time_accumulator` to `0`) if and only
if that progress is `≤ 0`, and otherwise stays in `Exit`. -/
theorem C3_exit_progress (w : Window) (dts : List ℚ)
    (hs : w.TransitionState.state = Transition_State.State.Exit)
    (hnn : ∀ y ∈ dts, 0 ≤ y) :
    List.Chain' (fun a b => b ≤ a) (w.progressReports dts) ∧
    (∀ q ∈ w.progressReports dts, 0 ≤ q) ∧
    (∀ (v : Window) (dt : ℚ), v.TransitionState.state = Transition_State.State.Exit →
      (v.advanceTransition dt).TransitionState.render_progress =
        norm (v.TransitionState.time_accumulator - dt) v.TransitionState.active_duration ∧
      ((v.advanceTransition dt).TransitionState.state = Transition_State.State.Inactive ↔
        (v.advanceTransition dt).TransitionState.render_progress ≤ 0) ∧
      ((v.advanceTransition dt).TransitionState.state = Transition_State.State.Inactive →
        (v.advanceTransition dt).TransitionState.active_transition = "" ∧
        (v.advanceTransition dt).TransitionState.time_accumulator = 0) ∧
      ((v.advanceTransition dt).TransitionState.state ≠ Transition_State.State.Inactive →
        (v.advanceTransition dt).TransitionState.state = Transition_State.State.Exit)) := by
  obtain ⟨hc, hq⟩ := reports_chain dts w 1 (Or.inl ⟨hs, norm_le_one _ _⟩) hnn
  refine ⟨?_, hq, ?_⟩
  · have h : List.Chain' (fun a b : ℚ => b ≤ a) (1 :: w.progressReports dts) := hc
    exact h.tail
  · intro v dt hv
    obtain ⟨h1, _, h3, h4, h5⟩ := advanceTransition_exit_facts v dt hv
    exact ⟨h1, h3, h4, fun h => (h5 h).1⟩

/-- Witness of C3: the scenario window at the start of Exit, frame times
`1/4, 1/2, 1/2, 0`. -/
theorem C3_exit_progress_witness :
    List.Chain' (fun a b : ℚ => b ≤ a)
      ((fadeAt "B" "B" ⟨.Exit, false, "fade", 1, 1, .Enter, 1⟩ []).progressReports
        [1 / 4, 1 / 2, 1 / 2, 0]) ∧
    ∀ q ∈ (fadeAt "B" "B" ⟨.Exit, false, "fade", 1, 1, .Enter, 1⟩ []).progressReports
        [1 / 4, 1 / 2, 1 / 2, 0], 0 ≤ q := by
  have h := C3_exit_progress (fadeAt "B" "B" ⟨.Exit, false, "fade", 1, 1, .Enter, 1⟩ [])
    [1 / 4, 1 / 2, 1 / 2, 0] rfl (by norm_num)
  exact ⟨h.1, h.2.1⟩

/-- C4 (amended): for every reachable state with transition state `Inactive` in
which `current` is not the empty name, and every transition name `t`, calling
`navigate(current, t)` and then ticking (any frame times, any number of ticks, no
further `navigate`) never starts a transition: the state stays `Inactive`, `current`
is unchanged, no callback fires, and every tick leaves `render_phase = None`,
`want_change` cleared and `active_transition` empty. -/
theorem C4_navigate_to_current (opts : Options) (w : Window) (t : String) (dts : List ℚ)
    (hr : Reachable opts w)
    (hs : w.TransitionState.state = Transition_State.State.Inactive)
    (hc : w.SceneState.current ≠ "") :
    ((w.navigate w.SceneState.current t).ticks opts dts).TransitionState.state =
      Transition_State.State.Inactive ∧
    ((w.navigate w.SceneState.current t).ticks opts dts).SceneState.current =
      w.SceneState.current ∧
    ((w.navigate w.SceneState.current t).ticks opts dts).trace = w.trace ∧
    (dts ≠ [] →
      ((w.navigate w.SceneState.current t).ticks opts dts).TransitionState.render_phase =
        Transition_State.RenderPhase.None ∧
      ((w.navigate w.SceneState.current t).ticks opts dts).TransitionState.want_change = false ∧
      ((w.navigate w.SceneState.current t).ticks opts dts).TransitionState.active_transition =
        "") := by
  have hreg : w.scenes.contains w.SceneState.current = true := (SceneInv_of_reachable hr).1
  obtain ⟨n1, _, _, _, n5, n6, n7⟩ := navigate_fields w w.SceneState.current t
  have hsn : (w.navigate w.SceneState.current t).TransitionState.state =
      Transition_State.State.Inactive := by
    rw [n7]; exact hs
  cases dts with
  | nil =>
    refine ⟨hsn, ?_, n5, fun h => absurd rfl h⟩
    show (w.navigate w.SceneState.current t).SceneState.current = _
    rw [n6]
  | cons x rest =>
    have hfire := tryStartTransition_fire (w := w.navigate w.SceneState.current t) opts
      (by rw [n7]) hsn
    have hres : ((w.navigate w.SceneState.current t).resolveTarget opts).SceneState =
        { w.SceneState with target := w.SceneState.current, pending := "" } := by
      rw [resolveTarget_sceneState, n1, n6]
      simp [hc, hreg]
    rw [hres, if_neg (by rw [n6]; simp)] at hfire
    have htick : (w.navigate w.SceneState.current t).tick opts x =
        { (w.navigate w.SceneState.current t).tryStartTransition opts with
          TransitionState :=
            { ((w.navigate w.SceneState.current t).tryStartTransition opts).TransitionState with
              render_phase := Transition_State.RenderPhase.None, render_progress := 0 } } := by
      unfold tick
      rw [advanceTransition_inactive x (by rw [hfire]; exact hsn)]
    rw [hfire] at htick
    rw [show (w.navigate w.SceneState.current t).ticks opts (x :: rest) =
      ((w.navigate w.SceneState.current t).tick opts x).ticks opts rest from rfl]
    rw [ticks_quiet opts rest _ (by rw [htick]; exact hsn) (by rw [htick]), htick]
    refine ⟨hsn, rfl, n5, fun _ => ⟨?_, rfl, rfl⟩⟩
    show (if rest = [] then Transition_State.RenderPhase.None
      else Transition_State.RenderPhase.None) = Transition_State.RenderPhase.None
    split_ifs <;> rfl

theorem fadeStart_reachable : Reachable fadeOptions fadeStart :=
  Reachable.start fadeScreen 600 600
    (PreInit.defineTransition _ _ (PreInit.defineScene _ _ (PreInit.defineScene _ _
      (PreInit.fresh _)))) fadeStart_init

/-- Witness of C4: the scenario window, `navigate("A", "fade")` while `current` is
`A`, two ticks. -/
theorem C4_navigate_to_current_witness :
    ((fadeStart.navigate "A" "fade").ticks fadeOptions [1 / 4, 1 / 4]).TransitionState.state =
      Transition_State.State.Inactive ∧
    ((fadeStart.navigate "A" "fade").ticks fadeOptions [1 / 4, 1 / 4]).SceneState.current = "A" ∧
    ((fadeStart.navigate "A" "fade").ticks fadeOptions [1 / 4, 1 / 4]).trace = fadeStart.trace := by
  have h := C4_navigate_to_current fadeOptions fadeStart "fade" [1 / 4, 1 / 4]
    fadeStart_reachable rfl (by simp [fadeStart, fadeAt])
  exact ⟨h.1, h.2.1, h.2.2.1⟩

theorem anonStart_init :
    anonDefs.initStart anonOptions fadeScreen = Except.ok (anonStart, 600, 600) := by
  simp [anonStart, anonAt, anonDefs, anonOptions, fadeScreen, Window.initStart,
    Window.chooseStart, Window.fresh, Window.defineScene, Dict.assign,
    Dict.index, Dict.find, Dict.put, Dict.contains, Window.emit, Window.fireStatusListeners,
    Window.firstOnLoad, Window.scenesAt, Window.ensureCanvas, List.lookup]

/-- The two ticks after `navigate("")` in the scenario of the empty scene name. -/
theorem anon_steps :
    (anonStart.navigate "" "").tick anonOptions (1 / 4) =
      anonAt "" "F" ⟨.Enter, false, "", 1 / 4, 1 / 2, .Enter, 1 / 2⟩ [] ∧
    (anonAt "" "F" ⟨.Enter, false, "", 1 / 4, 1 / 2, .Enter, 1 / 2⟩ []).tick anonOptions (1 / 4) =
      anonAt "F" "F" ⟨.Exit, false, "", 1 / 2, 1 / 2, .Enter, 1⟩
        [Event.sceneOnUnload "", Event.sceneOnLoad "F"] := by
  refine ⟨?_, ?_⟩ <;>
    simp [anonStart, anonAt, anonOptions, Dict.index, Dict.find, Dict.contains, Window.emit,
      Window.scenesAt, Window.navigate, Window.tick, Window.tryStartTransition,
      Window.resolveTarget, Window.pickTransitionName, Window.pickTransitionDuration,
      Window.transitionsAt, Window.beginEnterPhase, Window.beginExitPhase, Window.endTransition,
      Window.fireOnLoad, Window.fireOnUnload, Window.advanceTransition, Window.norm,
      List.lookup] <;>
    norm_num

/-- Counterexample to C4 as stated: a scene is registered under the empty name and
chosen as start scene, with `F` as registered fallback.  The window at the start of
the frame loop is reachable and `Inactive` with `current` empty; `navigate(current)`
followed by a tick starts a transition to the fallback scene, and a second tick
makes `F` the current scene, with `onUnload` and `onLoad` fired. -/
theorem C4_counterexample :
    Reachable anonOptions anonStart ∧
    anonStart.TransitionState.state = Transition_State.State.Inactive ∧
    anonStart.SceneState.current = "" ∧
    ((anonStart.navigate anonStart.SceneState.current "").ticks anonOptions
      [1 / 4]).TransitionState.state = Transition_State.State.Enter ∧
    ((anonStart.navigate anonStart.SceneState.current "").ticks anonOptions
      [1 / 4]).TransitionState.render_phase = Transition_State.RenderPhase.Enter ∧
    ((anonStart.navigate anonStart.SceneState.current "").ticks anonOptions
      [1 / 4, 1 / 4]).SceneState.current = "F" ∧
    ((anonStart.navigate anonStart.SceneState.current "").ticks anonOptions
      [1 / 4, 1 / 4]).trace =
      anonStart.trace ++ [Event.sceneOnUnload "", Event.sceneOnLoad "F"] := by
  obtain ⟨h1, h2⟩ := anon_steps
  have hc : anonStart.SceneState.current = "" := rfl
  rw [hc]
  refine ⟨Reachable.start fadeScreen 600 600
    (PreInit.defineScene _ _ (PreInit.defineScene _ _ (PreInit.fresh _))) anonStart_init,
    rfl, rfl, ?_, ?_, ?_, ?_⟩
  · simp only [Window.ticks, h1]; simp [anonAt]
  · simp only [Window.ticks, h1]; simp [anonAt]
  · simp only [Window.ticks, h1, h2]; simp [anonAt]
  · simp only [Window.ticks, h1, h2]; simp [anonAt, anonStart]

/-! ## Navigation requests -/

theorem navigate_navigate (w : Window) (s1 t1 s2 t2 : String) :
    (w.navigate s1 t1).navigate s2 t2 = w.navigate s2 t2 := by
  by_cases h1 : t1 ≠ "" ∧ w.transitions.contains t1 = true <;>
    by_cases h2 : t2 ≠ "" ∧ w.transitions.contains t2 = true <;>
    simp [navigate, h1, h2]

/-- After a tick that starts in state Inactive no request is pending. -/
theorem tick_clears_request {w : Window} (opts : Options) (dt : ℚ)
    (hs : w.TransitionState.state = Transition_State.State.Inactive) :
    (w.tick opts dt).TransitionState.want_change = false := by
  unfold tick
  rw [(advanceTransition_keeps _ dt).2.2.2.2.2.2.1]
  by_cases hw : w.TransitionState.want_change = true
  · rw [tryStartTransition_fire opts hw hs]
    split_ifs <;> rfl
  · rw [tryStartTransition_noop opts (fun h => hw h.1)]
    simpa using hw

/-- C5: for every `Inactive` state and every two calls `navigate(s1, t1)` then
`navigate(s2, t2)` made before the next tick: the window is the one that
`navigate(s2, t2)` alone produces, so the tick gives the same state as if only the
second call had been made and resolves the target from `s2`; after that tick no
request is pending, and the `tryStartTransition` of the following tick changes
nothing. -/
theorem C5_last_navigate_wins (opts : Options) (w : Window) (s1 t1 s2 t2 : String) (dt : ℚ)
    (hs : w.TransitionState.state = Transition_State.State.Inactive) :
    (w.navigate s1 t1).navigate s2 t2 = w.navigate s2 t2 ∧
    ((w.navigate s1 t1).navigate s2 t2).tick opts dt = (w.navigate s2 t2).tick opts dt ∧
    (((w.navigate s1 t1).navigate s2 t2).tick opts dt).SceneState.target =
      (if s2 ≠ "" ∧ w.scenes.contains s2 = true then s2
        else if opts.scene.fallback_scene ≠ "" ∧
            w.scenes.contains opts.scene.fallback_scene = true then opts.scene.fallback_scene
        else "") ∧
    (((w.navigate s1 t1).navigate s2 t2).tick opts dt).TransitionState.want_change = false ∧
    (((w.navigate s1 t1).navigate s2 t2).tick opts dt).tryStartTransition opts =
      ((w.navigate s1 t1).navigate s2 t2).tick opts dt := by
  obtain ⟨n1, _, _, _, _, n6, n7⟩ := navigate_fields w s2 t2
  have hsn : (w.navigate s2 t2).TransitionState.state = Transition_State.State.Inactive := by
    rw [n7]; exact hs
  have hwc := tick_clears_request (w := w.navigate s2 t2) opts dt hsn
  rw [navigate_navigate]
  refine ⟨rfl, rfl, ?_, hwc, tryStartTransition_noop opts (fun h => by rw [hwc] at h; cases h.1)⟩
  unfold tick
  rw [(advanceTransition_keeps _ dt).2.2.2.2.2.1,
    tryStartTransition_fire opts (by rw [n7]) hsn]
  have hres := resolveTarget_sceneState (w.navigate s2 t2) opts
  rw [n1, n6] at hres
  split_ifs at hres ⊢ <;> simp_all

/-- Witness of C5: the scenario window, `navigate("A", "")` then
`navigate("B", "fade")`. -/
theorem C5_last_navigate_wins_witness :
    ((fadeStart.navigate "A" "").navigate "B" "fade").tick fadeOptions (1 / 4) =
      (fadeStart.navigate "B" "fade").tick fadeOptions (1 / 4) ∧
    (((fadeStart.navigate "A" "").navigate "B" "fade").tick fadeOptions
      (1 / 4)).TransitionState.want_change = false := by
  have h := C5_last_navigate_wins fadeOptions fadeStart "A" "" "B" "fade" (1 / 4) rfl
  exact ⟨h.2.1, h.2.2.2.1⟩

/-! ## Unregistered navigation targets -/

/-- C6 (amended): for every `Inactive` state, if `navigate` is called with a scene
name that is not registered and the configured fallback scene name is not empty and
is registered, then the next `tryStartTransition` sets `target` to the fallback
scene (which is not empty), clears `want_change`, leaves `current` unchanged, and
begins the Enter phase (state `Enter`, `time_accumulator = 0`) exactly when the
fallback scene differs from `current`; otherwise the state stays `Inactive`. -/
theorem C6_fallback_target (opts : Options) (w : Window) (s t : String)
    (hs : w.TransitionState.state = Transition_State.State.Inactive)
    (hreg : w.scenes.contains s = false)
    (hfb : opts.scene.fallback_scene ≠ "")
    (hfbreg : w.scenes.contains opts.scene.fallback_scene = true) :
    ((w.navigate s t).tryStartTransition opts).SceneState.target = opts.scene.fallback_scene ∧
    ((w.navigate s t).tryStartTransition opts).SceneState.target ≠ "" ∧
    ((w.navigate s t).tryStartTransition opts).SceneState.current = w.SceneState.current ∧
    ((w.navigate s t).tryStartTransition opts).TransitionState.want_change = false ∧
    (((w.navigate s t).tryStartTransition opts).TransitionState.state =
        Transition_State.State.Enter ↔ opts.scene.fallback_scene ≠ w.SceneState.current) ∧
    (((w.navigate s t).tryStartTransition opts).TransitionState.state =
        Transition_State.State.Enter →
      ((w.navigate s t).tryStartTransition opts).TransitionState.time_accumulator = 0) ∧
    (opts.scene.fallback_scene = w.SceneState.current →
      ((w.navigate s t).tryStartTransition opts).TransitionState.state =
        Transition_State.State.Inactive) := by
  obtain ⟨n1, _, _, _, _, n6, n7⟩ := navigate_fields w s t
  have hsn : (w.navigate s t).TransitionState.state = Transition_State.State.Inactive := by
    rw [n7]; exact hs
  have hres : ((w.navigate s t).resolveTarget opts).SceneState =
      { w.SceneState with target := opts.scene.fallback_scene, pending := s } := by
    rw [resolveTarget_sceneState, n1, n6]
    simp [hreg, hfb, hfbreg]
  rw [tryStartTransition_fire opts (by rw [n7]) hsn, hres, n6]
  by_cases hne : opts.scene.fallback_scene = w.SceneState.current
  · rw [if_neg (by simp [hne])]
    refine ⟨rfl, hfb, rfl, rfl, ?_, ?_, fun _ => hsn⟩
    · constructor
      · intro h
        have h2 : (w.navigate s t).TransitionState.state = Transition_State.State.Enter := h
        rw [hsn] at h2
        cases h2
      · intro h
        exact absurd hne h
    · intro h
      have h2 : (w.navigate s t).TransitionState.state = Transition_State.State.Enter := h
      rw [hsn] at h2
      cases h2
  · rw [if_pos ⟨hfb, hne⟩]
    exact ⟨rfl, hfb, rfl, rfl, ⟨fun _ => hne, fun _ => rfl⟩, fun _ => rfl, fun h => absurd h hne⟩

/-- Witness of C6: scenes registered under the empty name and `F`, fallback `F`,
`current` empty, `navigate("zzz")`. -/
theorem C6_fallback_target_witness :
    ((anonStart.navigate "zzz" "").tryStartTransition anonOptions).SceneState.target = "F" ∧
    (((anonStart.navigate "zzz" "").tryStartTransition anonOptions).TransitionState.state =
      Transition_State.State.Enter ↔ "F" ≠ "") := by
  have h := C6_fallback_target anonOptions anonStart "zzz" "" rfl
    (by simp [anonStart, anonAt, Dict.contains, Dict.find, List.lookup])
    (by simp [anonOptions])
    (by simp [anonStart, anonAt, anonOptions, Dict.contains, Dict.find, List.lookup])
  exact ⟨h.1, h.2.2.2.2.1⟩

/-- Counterexample to C6 as stated: the empty name is registered as a scene and the
fallback scene name of the options is empty, so the fallback name is registered and
differs from `current = A`; after `navigate("zzz")` with `zzz` not registered,
`tryStartTransition` leaves `target` empty and the state `Inactive`. -/
theorem C6_counterexample :
    blankStart.TransitionState.state = Transition_State.State.Inactive ∧
    blankStart.SceneState.current = "A" ∧
    blankStart.scenes.contains "zzz" = false ∧
    blankStart.scenes.contains blankOptions.scene.fallback_scene = true ∧
    blankOptions.scene.fallback_scene ≠ blankStart.SceneState.current ∧
    ((blankStart.navigate "zzz" "").tryStartTransition blankOptions).SceneState.target = "" ∧
    ((blankStart.navigate "zzz" "").tryStartTransition blankOptions).TransitionState.state =
      Transition_State.State.Inactive := by
  simp [blankStart, blankDefs, blankOptions, started, fadeScreen, Window.initStart,
    Window.chooseStart, Window.fresh, Window.defineScene, Dict.assign, Dict.put,
    Window.fireStatusListeners, Window.firstOnLoad, Window.ensureCanvas,
    Dict.index, Dict.find, Dict.contains, Window.emit, Window.scenesAt, Window.navigate,
    Window.tryStartTransition, Window.resolveTarget,
    Window.pickTransitionName, Window.pickTransitionDuration, Window.transitionsAt,
    Window.beginEnterPhase, List.lookup]

/-- C7: for every `Inactive` state, if `navigate` is called with a scene name that
is not registered and no non-empty registered fallback scene is configured, then on
the next tick and on every later tick without a new `navigate` no transition starts:
the state is `Inactive`, `target` and `active_transition` are empty, `want_change`
is cleared, `current` is unchanged, the render phase is `None`, and nothing has been
emitted. -/
theorem C7_unregistered_without_fallback (opts : Options) (w : Window) (s t : String)
    (dts : List ℚ)
    (hs : w.TransitionState.state = Transition_State.State.Inactive)
    (hreg : w.scenes.contains s = false)
    (hfb : ¬ (opts.scene.fallback_scene ≠ "" ∧
      w.scenes.contains opts.scene.fallback_scene = true))
    (hne : dts ≠ []) :
    ((w.navigate s t).ticks opts dts).TransitionState.state =
      Transition_State.State.Inactive ∧
    ((w.navigate s t).ticks opts dts).SceneState.target = "" ∧
    ((w.navigate s t).ticks opts dts).TransitionState.active_transition = "" ∧
    ((w.navigate s t).ticks opts dts).TransitionState.want_change = false ∧
    ((w.navigate s t).ticks opts dts).SceneState.current = w.SceneState.current ∧
    ((w.navigate s t).ticks opts dts).TransitionState.render_phase =
      Transition_State.RenderPhase.None ∧
    ((w.navigate s t).ticks opts dts).trace = w.trace := by
  obtain ⟨n1, _, _, _, n5, n6, n7⟩ := navigate_fields w s t
  have hsn : (w.navigate s t).TransitionState.state = Transition_State.State.Inactive := by
    rw [n7]; exact hs
  cases dts with
  | nil => exact absurd rfl hne
  | cons x rest =>
    have hfire := tryStartTransition_fire (w := w.navigate s t) opts (by rw [n7]) hsn
    have hres : ((w.navigate s t).resolveTarget opts).SceneState =
        { w.SceneState with target := "", pending := s } := by
      rw [resolveTarget_sceneState, n1, n6]
      simp only [hreg, Bool.false_eq_true, and_false, if_false, if_neg hfb]
    rw [hres, if_neg (by simp)] at hfire
    have htick : (w.navigate s t).tick opts x =
        { (w.navigate s t).tryStartTransition opts with
          TransitionState :=
            { ((w.navigate s t).tryStartTransition opts).TransitionState with
              render_phase := Transition_State.RenderPhase.None, render_progress := 0 } } := by
      unfold tick
      rw [advanceTransition_inactive x (by rw [hfire]; exact hsn)]
    rw [hfire] at htick
    rw [show (w.navigate s t).ticks opts (x :: rest) =
      ((w.navigate s t).tick opts x).ticks opts rest from rfl]
    rw [ticks_quiet opts rest _ (by rw [htick]; exact hsn) (by rw [htick]), htick]
    refine ⟨hsn, rfl, rfl, rfl, rfl, ?_, n5⟩
    show (if rest = [] then Transition_State.RenderPhase.None
      else Transition_State.RenderPhase.None) = Transition_State.RenderPhase.None
    split_ifs <;> rfl

/-- Witness of C7: the fade scenario (no fallback scene), `navigate("zzz", "fade")`,
three ticks. -/
theorem C7_unregistered_without_fallback_witness :
    ((fadeStart.navigate "zzz" "fade").ticks fadeOptions
      [1 / 4, 1 / 4, 1 / 4]).TransitionState.state = Transition_State.State.Inactive ∧
    ((fadeStart.navigate "zzz" "fade").ticks fadeOptions
      [1 / 4, 1 / 4, 1 / 4]).SceneState.current = "A" ∧
    ((fadeStart.navigate "zzz" "fade").ticks fadeOptions [1 / 4, 1 / 4, 1 / 4]).trace =
      fadeStart.trace := by
  have h := C7_unregistered_without_fallback fadeOptions fadeStart "zzz" "fade"
    [1 / 4, 1 / 4, 1 / 4] rfl
    (by simp [fadeStart, fadeAt, Dict.contains, Dict.find, List.lookup])
    (by simp [fadeOptions]) (by simp)
  exact ⟨h.1, h.2.2.2.2.1, h.2.2.2.2.2.2⟩

/-! ## Failure of `init` -/

theorem init_error_iff (w : Window) (opts : Options) (scr : Screen)
    (frames : List (ℚ × Screen)) :
    (∃ e, w.init opts scr frames = Except.error e) ↔
      ∃ e, w.initStart opts scr = Except.error e := by
  unfold init
  cases h : w.initStart opts scr with
  | error e => simp
  | ok st => simp

theorem init_error {w v : Window} {opts : Options} {scr : Screen}
    {frames : List (ℚ × Screen)} {msg : String}
    (h : w.init opts scr frames = Except.error (msg, v)) :
    w.initStart opts scr = Except.error (msg, v) := by
  unfold init at h
  cases hi : w.initStart opts scr with
  | error e => rw [hi] at h; rw [Except.error.inj h]
  | ok st => rw [hi] at h; cases h

/-- C8 (amended): `init` fails if and only if the starting scene name is not a
registered scene and the fallback scene name is empty or not a registered scene.
When it fails nothing has been emitted (no window is opened, no status listener and
no `onLoad` has fired) and the registries and the scene, transition and popup state
are untouched.  When it does not fail, at the start of the frame loop `current` is
the starting scene if registered and otherwise the fallback scene, it is registered,
the state is `Inactive`, `time_accumulator` is `0`, and `target` and `pending` are
empty. -/
theorem C8_init_start (w : Window) (opts : Options) (scr : Screen)
    (frames : List (ℚ × Screen)) :
    ((∃ e, w.init opts scr frames = Except.error e) ↔
      (w.scenes.contains opts.scene.start_scene = false ∧
        (opts.scene.fallback_scene = "" ∨
          w.scenes.contains opts.scene.fallback_scene = false))) ∧
    (∀ msg v, w.init opts scr frames = Except.error (msg, v) →
      v.trace = w.trace ∧ sameState v w) ∧
    (∀ v lastW lastH, w.initStart opts scr = Except.ok (v, lastW, lastH) →
      v.SceneState.current =
        (if w.scenes.contains opts.scene.start_scene = true then opts.scene.start_scene
          else opts.scene.fallback_scene) ∧
      v.scenes.contains v.SceneState.current = true ∧
      v.TransitionState.state = Transition_State.State.Inactive ∧
      v.TransitionState.time_accumulator = 0 ∧
      v.SceneState.target = "" ∧ v.SceneState.pending = "") := by
  refine ⟨?_, ?_, ?_⟩
  · rw [init_error_iff, initStart_error_iff]
  · intro msg v h
    rw [initStart_error (init_error h)]
    exact ⟨rfl, rfl, rfl, rfl, rfl, rfl, rfl⟩
  · intro v lastW lastH h
    obtain ⟨c, hcon, hceq, h1, _, _, h4, h5, _⟩ := initStart_ok h
    rw [h1, h4, h5, ← hceq]
    exact ⟨rfl, hcon, rfl, rfl, rfl, rfl⟩

/-- Counterexample to C8 as stated: only the empty name is registered as a scene;
with start scene `Z` and the fallback scene name empty, the fallback scene name is
a registered scene, and `init` fails all the same. -/
theorem C8_counterexample :
    ((Window.fresh ⟨0, 0, 0⟩).defineScene "" {}).scenes.contains
      lostOptions.scene.start_scene = false ∧
    ((Window.fresh ⟨0, 0, 0⟩).defineScene "" {}).scenes.contains
      lostOptions.scene.fallback_scene = true ∧
    ((Window.fresh ⟨0, 0, 0⟩).defineScene "" {}).init lostOptions fadeScreen [] =
      Except.error ("Scene Z was not defined and no fallback was stated.",
        { (Window.fresh ⟨0, 0, 0⟩).defineScene "" {} with WindowData := ⟨0, 1, 1⟩ }) := by
  simp [lostOptions, Window.init, Window.initStart, Window.chooseStart, Window.fresh,
    Window.defineScene, Dict.assign, Dict.put, Dict.index, Dict.find, Dict.contains,
    List.lookup]

/-! ## Requests made while a transition runs -/

/-- A tick that starts while a transition runs keeps the request: `pending` and
`want_change` are as before. -/
theorem tick_running_keeps {w : Window} (opts : Options) (dt : ℚ)
    (hs : w.TransitionState.state ≠ Transition_State.State.Inactive) :
    (w.tick opts dt).SceneState.pending = w.SceneState.pending ∧
    (w.tick opts dt).TransitionState.want_change = w.TransitionState.want_change := by
  unfold tick
  rw [tryStartTransition_noop opts (fun h => hs h.2)]
  exact ⟨(advanceTransition_keeps w dt).2.2.2.2.1, (advanceTransition_keeps w dt).2.2.2.2.2.2.1⟩

theorem ticks_running_keep (opts : Options) (dts : List ℚ) :
    ∀ w : Window,
      (∀ k, k < dts.length →
        (w.ticks opts (dts.take k)).TransitionState.state ≠ Transition_State.State.Inactive) →
      (w.ticks opts dts).SceneState.pending = w.SceneState.pending ∧
      (w.ticks opts dts).TransitionState.want_change = w.TransitionState.want_change := by
  induction dts with
  | nil => intro w _; exact ⟨rfl, rfl⟩
  | cons x rest ih =>
    intro w hrun
    have h0 : w.TransitionState.state ≠ Transition_State.State.Inactive :=
      hrun 0 (Nat.succ_pos _)
    obtain ⟨k1, k2⟩ := tick_running_keeps (w := w) opts x h0
    obtain ⟨i1, i2⟩ := ih (w.tick opts x) (fun k hk => hrun (k + 1) (Nat.succ_lt_succ hk))
    exact ⟨i1.trans k1, i2.trans k2⟩

/-- C9 (amended): a `navigate(s, t)` request made while a transition is running is
not acted on while it runs, and it is kept, not dropped: through every tick that
starts in state `Enter` or `Exit`, `pending` stays `s` and `want_change` stays set;
once such a tick has returned the state to `Inactive`, the `tryStartTransition` of
the next tick consumes the request, and when `s` is a non-empty registered scene
name other than `current` it begins a new Enter phase with target `s`. -/
theorem C9_request_kept_while_running (opts : Options) (w : Window) (s t : String)
    (dts : List ℚ)
    (hrun : ∀ k, k < dts.length →
      ((w.navigate s t).ticks opts (dts.take k)).TransitionState.state ≠
        Transition_State.State.Inactive) :
    ((w.navigate s t).ticks opts dts).SceneState.pending = s ∧
    ((w.navigate s t).ticks opts dts).TransitionState.want_change = true ∧
    (((w.navigate s t).ticks opts dts).TransitionState.state =
        Transition_State.State.Inactive →
      (((w.navigate s t).ticks opts dts).tryStartTransition opts).TransitionState.want_change =
        false ∧
      (s ≠ "" → ((w.navigate s t).ticks opts dts).scenes.contains s = true →
        s ≠ ((w.navigate s t).ticks opts dts).SceneState.current →
        (((w.navigate s t).ticks opts dts).tryStartTransition opts).TransitionState.state =
          Transition_State.State.Enter ∧
        (((w.navigate s t).ticks opts dts).tryStartTransition opts).SceneState.target = s)) := by
  obtain ⟨_, _, _, _, _, n6, n7⟩ := navigate_fields w s t
  obtain ⟨hp, hw⟩ := ticks_running_keep opts dts (w.navigate s t) hrun
  rw [n6] at hp
  rw [n7] at hw
  have hp2 : ((w.navigate s t).ticks opts dts).SceneState.pending = s := hp
  have hw2 : ((w.navigate s t).ticks opts dts).TransitionState.want_change = true := hw
  refine ⟨hp2, hw2, fun hin => ?_⟩
  rw [tryStartTransition_fire opts hw2 hin]
  refine ⟨by split_ifs <;> rfl, fun hne hreg hcur => ?_⟩
  have hres := resolveTarget_sceneState ((w.navigate s t).ticks opts dts) opts
  rw [hp2, if_pos ⟨hne, hreg⟩] at hres
  rw [hres, if_pos ⟨hne, hcur⟩]
  exact ⟨rfl, rfl⟩

/-- The ticks of the scenario in which `navigate("A", "fade")` is called during the
Exit phase of the transition to `B`. -/
theorem defer_steps :
    deferRunning =
      fadeAt "B" "B" ⟨.Exit, false, "fade", 1, 1, .Enter, 1⟩
        [Event.sceneOnUnload "A", Event.sceneOnLoad "B"] ∧
    deferEnded =
      { fadeAt "B" "B" ⟨.Inactive, true, "", 0, 1, .Exit, 0⟩
          [Event.sceneOnUnload "A", Event.sceneOnLoad "B"] with
        SceneState := { current := "B", target := "B", pending := "A" } } ∧
    deferEnded.tick fadeOptions (1 / 4) =
      fadeAt "B" "A" ⟨.Enter, false, "", 1 / 4, 1 / 2, .Enter, 1 / 2⟩
        [Event.sceneOnUnload "A", Event.sceneOnLoad "B"] ∧
    (fadeAt "B" "A" ⟨.Enter, false, "", 1 / 4, 1 / 2, .Enter, 1 / 2⟩
        [Event.sceneOnUnload "A", Event.sceneOnLoad "B"]).tick fadeOptions (1 / 4) =
      fadeAt "A" "A" ⟨.Exit, false, "", 1 / 2, 1 / 2, .Enter, 1⟩
        [Event.sceneOnUnload "A", Event.sceneOnLoad "B", Event.sceneOnUnload "B",
          Event.sceneOnLoad "A"] := by
  have h1 : deferRunning =
      fadeAt "B" "B" ⟨.Exit, false, "fade", 1, 1, .Enter, 1⟩
        [Event.sceneOnUnload "A", Event.sceneOnLoad "B"] := by
    simp [deferRunning, fadeStart, fadeAt, fadeOptions, Dict.index, Dict.find, Dict.contains,
      Window.emit, Window.scenesAt, Window.navigate, Window.tick, Window.tryStartTransition,
      Window.resolveTarget, Window.pickTransitionName, Window.pickTransitionDuration,
      Window.transitionsAt, Window.beginEnterPhase, Window.beginExitPhase,
      Window.endTransition, Window.fireOnLoad, Window.fireOnUnload, Window.advanceTransition,
      Window.norm, List.lookup]
    norm_num
  have h2 : deferEnded =
      { fadeAt "B" "B" ⟨.Inactive, true, "", 0, 1, .Exit, 0⟩
          [Event.sceneOnUnload "A", Event.sceneOnLoad "B"] with
        SceneState := { current := "B", target := "B", pending := "A" } } := by
    rw [deferEnded, h1]
    simp [fadeAt, fadeOptions, Dict.index, Dict.find, Dict.contains,
      Window.emit, Window.scenesAt, Window.navigate, Window.tick, Window.tryStartTransition,
      Window.resolveTarget, Window.pickTransitionName, Window.pickTransitionDuration,
      Window.transitionsAt, Window.beginEnterPhase, Window.beginExitPhase,
      Window.endTransition, Window.fireOnLoad, Window.fireOnUnload, Window.advanceTransition,
      Window.norm, List.lookup]
    norm_num
  refine ⟨h1, h2, ?_, ?_⟩
  · rw [h2]
    simp [fadeAt, fadeOptions, Dict.index, Dict.find, Dict.contains,
      Window.emit, Window.scenesAt, Window.navigate, Window.tick, Window.tryStartTransition,
      Window.resolveTarget, Window.pickTransitionName, Window.pickTransitionDuration,
      Window.transitionsAt, Window.beginEnterPhase, Window.beginExitPhase,
      Window.endTransition, Window.fireOnLoad, Window.fireOnUnload, Window.advanceTransition,
      Window.norm, List.lookup]
    norm_num
  · simp [fadeAt, fadeOptions, Dict.index, Dict.find, Dict.contains,
      Window.emit, Window.scenesAt, Window.navigate, Window.tick, Window.tryStartTransition,
      Window.resolveTarget, Window.pickTransitionName, Window.pickTransitionDuration,
      Window.transitionsAt, Window.beginEnterPhase, Window.beginExitPhase,
      Window.endTransition, Window.fireOnLoad, Window.fireOnUnload, Window.advanceTransition,
      Window.norm, List.lookup]
    norm_num

/-- Counterexample to C9 as stated: in the fade scenario `navigate("A", "fade")` is
called while the transition to `B` is in its Exit phase, and no further `navigate`
call is made.  The running transition returns to `Inactive` with `current = B`; the
next tick starts a new transition (state `Enter`, target `A`), and the tick after it
makes `A` the current scene. -/
theorem C9_counterexample :
    deferRunning.TransitionState.state = Transition_State.State.Exit ∧
    deferRunning.SceneState.current = "B" ∧
    deferEnded.TransitionState.state = Transition_State.State.Inactive ∧
    deferEnded.SceneState.current = "B" ∧
    (deferEnded.ticks fadeOptions [1 / 4]).TransitionState.state =
      Transition_State.State.Enter ∧
    (deferEnded.ticks fadeOptions [1 / 4]).SceneState.target = "A" ∧
    (deferEnded.ticks fadeOptions [1 / 4, 1 / 4]).SceneState.current = "A" := by
  obtain ⟨h1, h2, h3, h4⟩ := defer_steps
  refine ⟨?_, ?_, ?_, ?_, ?_, ?_, ?_⟩
  · rw [h1]; rfl
  · rw [h1]; rfl
  · rw [h2]; rfl
  · rw [h2]
  · simp only [Window.ticks, h3]; rfl
  · simp only [Window.ticks, h3]; rfl
  · simp only [Window.ticks, h3, h4]; rfl

/-- Witness of C9: the request of the scenario, made in the Exit phase and followed
by the tick that ends the transition. -/
theorem C9_request_kept_while_running_witness :
    ((deferRunning.navigate "A" "fade").ticks fadeOptions [1]).SceneState.pending = "A" ∧
    ((deferRunning.navigate "A" "fade").ticks fadeOptions [1]).TransitionState.want_change =
      true := by
  have h := C9_request_kept_while_running fadeOptions deferRunning "A" "fade" [1]
    (by
      intro k hk
      have hk0 : k = 0 := by simpa using hk
      subst hk0
      show (deferRunning.navigate "A" "fade").TransitionState.state ≠
        Transition_State.State.Inactive
      rw [(navigate_fields deferRunning "A" "fade").2.2.2.2.2.2, defer_steps.1]
      simp [fadeAt])
  exact ⟨h.1, h.2.1⟩

/-! ## The guard of `tryStartTransition` -/

/-- C10: `tryStartTransition` changes nothing at all unless `want_change` is set and
the state is `Inactive`; it leaves a state other than `Inactive` as it is, and when
it changes the state, the request flag was set and the step is `Inactive` to
`Enter`.  The other operations that run between two `advanceTransition` calls
(`navigate`, `show`, `hide`, `define`, `listen`, and the update and draw parts of a
frame) never write the transition state, so a state other than `Inactive` changes
only inside `advanceTransition`. -/
theorem C10_tryStart_guard (opts : Options) (w : Window) :
    (¬ (w.TransitionState.want_change = true ∧
        w.TransitionState.state = Transition_State.State.Inactive) →
      w.tryStartTransition opts = w) ∧
    (w.TransitionState.state ≠ Transition_State.State.Inactive →
      (w.tryStartTransition opts).TransitionState.state = w.TransitionState.state) ∧
    ((w.tryStartTransition opts).TransitionState.state ≠ w.TransitionState.state →
      w.TransitionState.want_change = true ∧
      w.TransitionState.state = Transition_State.State.Inactive ∧
      (w.tryStartTransition opts).TransitionState.state = Transition_State.State.Enter) ∧
    (∀ s t, (w.navigate s t).TransitionState.state = w.TransitionState.state) ∧
    (∀ p, (w.showPopup p).TransitionState = w.TransitionState) ∧
    (∀ p, (w.hide p).TransitionState = w.TransitionState) ∧
    (∀ n sc, (w.defineScene n sc).TransitionState = w.TransitionState) ∧
    (∀ n tr, (w.defineTransition n tr).TransitionState = w.TransitionState) ∧
    (∀ n p, (w.definePopup n p).TransitionState = w.TransitionState) ∧
    (∀ e cb, (w.listenScale e cb).TransitionState = w.TransitionState) ∧
    (∀ e cb, (w.listenStatus e cb).TransitionState = w.TransitionState) ∧
    (∀ dt, (w.updateScene dt).TransitionState = w.TransitionState) ∧
    (∀ lastW lastH dt scr,
      (w.frame opts lastW lastH dt scr).1.TransitionState =
        (((w.updateScene dt).tryStartTransition opts).advanceTransition dt).TransitionState) := by
  refine ⟨fun h => tryStartTransition_noop opts h,
    fun h => by rw [tryStartTransition_noop opts (fun hg => h hg.2)], ?_, ?_, ?_, ?_,
    fun _ _ => rfl, fun _ _ => rfl, fun _ _ => rfl, ?_, ?_,
    fun dt => (updateScene_sameState w dt).2.2.2.2.1,
    fun lastW lastH dt scr => (frame_sameState w opts lastW lastH dt scr).2.2.2.2.1⟩
  · intro hne
    by_cases hg : w.TransitionState.want_change = true ∧
        w.TransitionState.state = Transition_State.State.Inactive
    · refine ⟨hg.1, hg.2, ?_⟩
      rw [tryStartTransition_fire opts hg.1 hg.2] at hne ⊢
      split_ifs at hne ⊢ with hc
      · rfl
      · exact absurd rfl hne
    · rw [tryStartTransition_noop opts hg] at hne
      exact absurd rfl hne
  · intro s t
    rw [(navigate_fields w s t).2.2.2.2.2.2]
  · intro p
    unfold showPopup
    split_ifs <;> rfl
  · intro p
    unfold hide
    split_ifs <;> rfl
  · intro e cb
    unfold listenScale
    split_ifs <;> rfl
  · intro e cb
    unfold listenStatus
    split_ifs <;> rfl

/-! ## `navigate`, `define`, `show` and `hide` -/

/-- C12: for every state, scene name `s` and transition name `t`, `navigate(s, t)`
sets `pending = s` and `want_change = true`, sets `active_transition` to `t` if `t`
is a registered transition and to empty otherwise, and changes nothing else: the
window is otherwise the same record (`current`, `target`, the transition state,
`time_accumulator`, `active_duration`, the render fields, the popup state, the
registries, the listeners and the trace are unchanged, so no callback fires). -/
theorem C12_navigate_effect (w : Window) (s t : String) :
    w.navigate s t =
      { w with
        SceneState := { w.SceneState with pending := s },
        TransitionState :=
          { w.TransitionState with
            want_change := true,
            active_transition := if w.transitions.contains t = true then t else "" } } := by
  by_cases ht : t = ""
  · subst ht
    by_cases hc : w.transitions.contains "" = true <;> simp [navigate, hc]
  · by_cases hc : w.transitions.contains t = true <;> simp [navigate, hc, ht]

/-- Two assignments to the same key: the second value is stored, other keys are as
before. -/
theorem dict_assign_assign {V : Type} [Inhabited V] (d : Dict V) (n : String) (d1 d2 : V) :
    ((d.assign n d1).assign n d2).contains n = true ∧
    (((d.assign n d1).assign n d2).index n).1 = d2 ∧
    (((d.assign n d1).assign n d2).index n).2 = (d.assign n d1).assign n d2 ∧
    (∀ k, k ≠ n →
      ((d.assign n d1).assign n d2).contains k = d.contains k ∧
      ((d.assign n d1).assign n d2).find k = d.find k) := by
  have hf : ((d.assign n d1).assign n d2).find n = some d2 := by
    rw [Dict.find_assign]; simp
  have hc : ((d.assign n d1).assign n d2).contains n = true := by
    unfold Dict.contains; rw [hf]; rfl
  refine ⟨hc, Dict.index_fst_of_find hf, Dict.index_snd_of_contains hc, fun k hk => ?_⟩
  have hfk : ((d.assign n d1).assign n d2).find k = d.find k := by
    rw [Dict.find_assign, Dict.find_assign]; simp [hk]
  exact ⟨by unfold Dict.contains; rw [hfk], hfk⟩

/-- C14: for each of the three registries, every name `n` and definitions `d1`,
`d2`: after `define(n, d1)` then `define(n, d2)`, `contains(n)` is true and the
indexed read of `n` returns `d2` and leaves the registry as it is; every other name
keeps its presence and its definition, and the two other registries are
unchanged. -/
theorem C14_define_overwrites (w : Window) (n : String) :
    (∀ d1 d2 : Scene,
      ((w.defineScene n d1).defineScene n d2).scenes.contains n = true ∧
      (((w.defineScene n d1).defineScene n d2).scenes.index n).1 = d2 ∧
      (((w.defineScene n d1).defineScene n d2).scenes.index n).2 =
        ((w.defineScene n d1).defineScene n d2).scenes ∧
      (∀ k, k ≠ n →
        ((w.defineScene n d1).defineScene n d2).scenes.contains k = w.scenes.contains k ∧
        ((w.defineScene n d1).defineScene n d2).scenes.find k = w.scenes.find k) ∧
      ((w.defineScene n d1).defineScene n d2).transitions = w.transitions ∧
      ((w.defineScene n d1).defineScene n d2).popups = w.popups) ∧
    (∀ d1 d2 : Transition,
      ((w.defineTransition n d1).defineTransition n d2).transitions.contains n = true ∧
      (((w.defineTransition n d1).defineTransition n d2).transitions.index n).1 = d2 ∧
      (((w.defineTransition n d1).defineTransition n d2).transitions.index n).2 =
        ((w.defineTransition n d1).defineTransition n d2).transitions ∧
      (∀ k, k ≠ n →
        ((w.defineTransition n d1).defineTransition n d2).transitions.contains k =
          w.transitions.contains k ∧
        ((w.defineTransition n d1).defineTransition n d2).transitions.find k =
          w.transitions.find k) ∧
      ((w.defineTransition n d1).defineTransition n d2).scenes = w.scenes ∧
      ((w.defineTransition n d1).defineTransition n d2).popups = w.popups) ∧
    (∀ d1 d2 : Popup,
      ((w.definePopup n d1).definePopup n d2).popups.contains n = true ∧
      (((w.definePopup n d1).definePopup n d2).popups.index n).1 = d2 ∧
      (((w.definePopup n d1).definePopup n d2).popups.index n).2 =
        ((w.definePopup n d1).definePopup n d2).popups ∧
      (∀ k, k ≠ n →
        ((w.definePopup n d1).definePopup n d2).popups.contains k = w.popups.contains k ∧
        ((w.definePopup n d1).definePopup n d2).popups.find k = w.popups.find k) ∧
      ((w.definePopup n d1).definePopup n d2).scenes = w.scenes ∧
      ((w.definePopup n d1).definePopup n d2).transitions = w.transitions) := by
  refine ⟨fun d1 d2 => ?_, fun d1 d2 => ?_, fun d1 d2 => ?_⟩
  · obtain ⟨h1, h2, h3, h4⟩ := dict_assign_assign w.scenes n d1 d2
    exact ⟨h1, h2, h3, h4, rfl, rfl⟩
  · obtain ⟨h1, h2, h3, h4⟩ := dict_assign_assign w.transitions n d1 d2
    exact ⟨h1, h2, h3, h4, rfl, rfl⟩
  · obtain ⟨h1, h2, h3, h4⟩ := dict_assign_assign w.popups n d1 d2
    exact ⟨h1, h2, h3, h4, rfl, rfl⟩

/-- C15: `show(n)` changes nothing when `n` is not a registered popup, and otherwise
sets `PopupState.target = n` and the popup state to `Show`, leaving
`PopupState.current` and everything else as it is; `hide(n)` changes nothing when
`n` differs from `PopupState.current`, and otherwise sets the popup state to `Hide`,
leaving `current`, `target` and everything else as they are.  Neither touches the
scene or transition state. -/
theorem C15_show_hide (w : Window) (n : String) :
    (w.popups.contains n = false → w.showPopup n = w) ∧
    (w.popups.contains n = true →
      w.showPopup n =
        { w with PopupState :=
            { w.PopupState with target := n, state := Popup_State.State.Show } }) ∧
    (n ≠ w.PopupState.current → w.hide n = w) ∧
    (n = w.PopupState.current →
      w.hide n =
        { w with PopupState := { w.PopupState with state := Popup_State.State.Hide } }) ∧
    (w.showPopup n).SceneState = w.SceneState ∧
    (w.showPopup n).TransitionState = w.TransitionState ∧
    (w.showPopup n).PopupState.current = w.PopupState.current ∧
    (w.hide n).SceneState = w.SceneState ∧
    (w.hide n).TransitionState = w.TransitionState ∧
    (w.hide n).PopupState.current = w.PopupState.current ∧
    (w.hide n).PopupState.target = w.PopupState.target := by
  refine ⟨fun h => ?_, fun h => ?_, fun h => ?_, fun h => ?_, ?_, ?_, ?_, ?_, ?_, ?_, ?_⟩
  · simp [showPopup, h]
  · simp [showPopup, h]
  · unfold hide
    rw [if_neg (fun h2 => h h2.symm)]
  · unfold hide
    rw [if_pos h.symm]
  all_goals first
    | (unfold showPopup; split_ifs <;> rfl)
    | (unfold hide; split_ifs <;> rfl)

/-! ## Range of the render progress -/

/-- The value `norm` computes is the clamp of the quotient to `[0, 1]`. -/
theorem norm_eq_clamp (t dur : ℚ) :
    norm t dur = max 0 (min 1 (t / max (1 / 10000) dur)) := by
  unfold norm
  simp only
  split_ifs with h1 h2
  · rw [max_eq_left]
    exact le_trans (min_le_right _ _) (le_of_lt h1)
  · rw [min_eq_left (le_of_lt h2), max_eq_right zero_le_one]
  · rw [min_eq_right (not_lt.mp h2), max_eq_right (not_lt.mp h1)]

/-- C16 (amended): after every `advanceTransition` call, for every frame time `dt`
and every `active_duration` (zero and negative values included), `render_progress`
lies in `[0, 1]`; the divisor `max(0.0001, active_duration)` is positive; when the
state was `Enter` or `Exit` the progress equals the clamp to `[0, 1]` of the
accumulator the call computed (`time_accumulator + dt` in `Enter`,
`time_accumulator - dt` in `Exit`) divided by that divisor; it equals the same clamp
of the fields `time_accumulator` and `active_duration` as they are after the call,
except on the call that ends an Enter phase whose `active_duration` is below
`0.0001`: every call that ends an Enter phase reports progress 1 and resets
`time_accumulator` to `active_duration`; and `render_phase = None` with
`render_progress = 0` holds exactly when the state at the start of the call was
`Inactive`. -/
theorem C16_progress_range (w : Window) (dt : ℚ) :
    0 ≤ (w.advanceTransition dt).TransitionState.render_progress ∧
    (w.advanceTransition dt).TransitionState.render_progress ≤ 1 ∧
    0 < max (1 / 10000 : ℚ) w.TransitionState.active_duration ∧
    (w.TransitionState.state = Transition_State.State.Enter →
      (w.advanceTransition dt).TransitionState.render_phase =
        Transition_State.RenderPhase.Enter ∧
      (w.advanceTransition dt).TransitionState.render_progress =
        max 0 (min 1 ((w.TransitionState.time_accumulator + dt) /
          max (1 / 10000) w.TransitionState.active_duration))) ∧
    (w.TransitionState.state = Transition_State.State.Exit →
      (w.advanceTransition dt).TransitionState.render_phase =
        Transition_State.RenderPhase.Exit ∧
      (w.advanceTransition dt).TransitionState.render_progress =
        max 0 (min 1 ((w.TransitionState.time_accumulator - dt) /
          max (1 / 10000) w.TransitionState.active_duration))) ∧
    (w.TransitionState.state ≠ Transition_State.State.Inactive →
      ¬ (w.TransitionState.state = Transition_State.State.Enter ∧
        (w.advanceTransition dt).TransitionState.state = Transition_State.State.Exit ∧
        w.TransitionState.active_duration < 1 / 10000) →
      (w.advanceTransition dt).TransitionState.render_progress =
        max 0 (min 1 ((w.advanceTransition dt).TransitionState.time_accumulator /
          max (1 / 10000) (w.advanceTransition dt).TransitionState.active_duration))) ∧
    (w.TransitionState.state = Transition_State.State.Enter →
      (w.advanceTransition dt).TransitionState.state = Transition_State.State.Exit →
      (w.advanceTransition dt).TransitionState.render_progress = 1 ∧
      (w.advanceTransition dt).TransitionState.time_accumulator =
        w.TransitionState.active_duration ∧
      (w.advanceTransition dt).TransitionState.active_duration =
        w.TransitionState.active_duration) ∧
    (((w.advanceTransition dt).TransitionState.render_phase =
        Transition_State.RenderPhase.None ∧
      (w.advanceTransition dt).TransitionState.render_progress = 0) ↔
      w.TransitionState.state = Transition_State.State.Inactive) := by
  cases hs : w.TransitionState.state with
  | Inactive =>
    rw [advanceTransition_inactive dt hs]
    exact ⟨le_refl _, zero_le_one, divisor_pos _, (fun h => by cases h), (fun h => by cases h),
      (fun h => absurd rfl h), (fun h => by cases h), ⟨fun _ => rfl, fun _ => ⟨rfl, rfl⟩⟩⟩
  | Enter =>
    by_cases hp : 1 ≤ norm (w.TransitionState.time_accumulator + dt)
        w.TransitionState.active_duration
    · rw [advanceTransition_enter_commit dt hs hp]
      have h1 : norm (w.TransitionState.time_accumulator + dt)
          w.TransitionState.active_duration = 1 := le_antisymm (norm_le_one _ _) hp
      refine ⟨norm_nonneg _ _, norm_le_one _ _, divisor_pos _,
        fun _ => ⟨rfl, norm_eq_clamp _ _⟩, (fun h => by cases h), fun _ hex => ?_,
        fun _ _ => ⟨h1, rfl, rfl⟩,
        ⟨fun h => absurd h.1 (by simp), (fun h => by cases h)⟩⟩
      have hd : 1 / 10000 ≤ w.TransitionState.active_duration :=
        not_lt.mp (fun hlt => hex ⟨rfl, rfl, hlt⟩)
      show norm (w.TransitionState.time_accumulator + dt) w.TransitionState.active_duration =
        max 0 (min 1 (w.TransitionState.active_duration /
          max (1 / 10000) w.TransitionState.active_duration))
      rw [h1, ← norm_eq_clamp, norm_self hd]
    · rw [advanceTransition_enter_stay dt hs (not_le.mp hp)]
      exact ⟨norm_nonneg _ _, norm_le_one _ _, divisor_pos _,
        fun _ => ⟨rfl, norm_eq_clamp _ _⟩, (fun h => by cases h),
        fun _ _ => norm_eq_clamp _ _, (fun _ h => absurd (hs.symm.trans h) (by simp)),
        ⟨fun h => absurd h.1 (by simp), (fun h => by cases h)⟩⟩
  | Exit =>
    by_cases hp : norm (w.TransitionState.time_accumulator - dt)
        w.TransitionState.active_duration ≤ 0
    · rw [advanceTransition_exit_end dt hs hp]
      have h0 : norm (w.TransitionState.time_accumulator - dt)
          w.TransitionState.active_duration = 0 := le_antisymm hp (norm_nonneg _ _)
      refine ⟨norm_nonneg _ _, norm_le_one _ _, divisor_pos _, (fun h => by cases h),
        fun _ => ⟨rfl, norm_eq_clamp _ _⟩, fun _ _ => ?_, (fun h => by cases h),
        ⟨fun h => absurd h.1 (by simp), (fun h => by cases h)⟩⟩
      show norm (w.TransitionState.time_accumulator - dt) w.TransitionState.active_duration =
        max 0 (min 1 ((0 : ℚ) / max (1 / 10000) w.TransitionState.active_duration))
      rw [h0, zero_div, min_eq_right zero_le_one, max_self]
    · rw [advanceTransition_exit_stay dt hs (not_le.mp hp)]
      exact ⟨norm_nonneg _ _, norm_le_one _ _, divisor_pos _, (fun h => by cases h),
        fun _ => ⟨rfl, norm_eq_clamp _ _⟩, fun _ _ => norm_eq_clamp _ _,
        (fun h => by cases h),
        ⟨fun h => absurd h.1 (by simp), (fun h => by cases h)⟩⟩

/-- Counterexample to C16 as stated: the Enter phase of the transition `snap` of
duration 0, started by `navigate("B", "snap")`, with frame time 1.  The call reports
progress 1 and ends the Enter phase, which resets `time_accumulator` to the
duration 0; the clamp of `time_accumulator / max(0.0001, active_duration)` over the
fields after the call is 0, not the reported progress. -/
theorem C16_counterexample :
    snapEnter.TransitionState.state = Transition_State.State.Enter ∧
    snapEnter.TransitionState.time_accumulator = 0 ∧
    snapEnter.TransitionState.active_duration = 0 ∧
    (snapEnter.advanceTransition 1).TransitionState.render_progress = 1 ∧
    (snapEnter.advanceTransition 1).TransitionState.time_accumulator = 0 ∧
    (snapEnter.advanceTransition 1).TransitionState.active_duration = 0 ∧
    max 0 (min 1 ((snapEnter.advanceTransition 1).TransitionState.time_accumulator /
      max (1 / 10000) (snapEnter.advanceTransition 1).TransitionState.active_duration)) = 0 ∧
    (snapEnter.advanceTransition 1).TransitionState.render_progress ≠
      max 0 (min 1 ((snapEnter.advanceTransition 1).TransitionState.time_accumulator /
        max (1 / 10000) (snapEnter.advanceTransition 1).TransitionState.active_duration)) := by
  simp [snapEnter, snapDefs, started, fadeOptions, fadeScreen, initStart,
    chooseStart, fresh, defineScene, defineTransition, Dict.assign,
    Dict.put, fireStatusListeners, firstOnLoad, ensureCanvas,
    Dict.index, Dict.find, Dict.contains, emit,
    scenesAt, navigate, tryStartTransition,
    resolveTarget, pickTransitionName, pickTransitionDuration,
    transitionsAt, beginEnterPhase, beginExitPhase,
    fireOnLoad, fireOnUnload, advanceTransition, norm,
    List.lookup]
  norm_num

/-! ## The transition a tick puts in use -/

theorem find_of_contains {V : Type} [Inhabited V] {d : Dict V} {k : String}
    (h : d.contains k = true) : d.find k = some (d.index k).1 := by
  unfold Dict.contains at h
  unfold Dict.index
  cases hf : d.find k with
  | none => rw [hf] at h; cases h
  | some v => rfl

/-- The name `pickTransitionName` returns is empty or registered. -/
theorem pickTransitionName_registered (w : Window) (preferred fallback : String) :
    w.pickTransitionName preferred fallback ≠ "" →
      w.transitions.contains (w.pickTransitionName preferred fallback) = true := by
  unfold pickTransitionName
  split_ifs with h1 h2
  · exact fun _ => h1.2
  · exact fun _ => h2.2
  · exact fun h => absurd rfl h

/-- The duration `pickTransitionDuration` returns. -/
theorem pickTransitionDuration_fst (w : Window) (name : String) :
    (name ≠ "" → w.transitions.contains name = true →
      (w.transitions.find name).map Transition.duration =
        some (w.pickTransitionDuration name).1) ∧
    (name = "" → (w.pickTransitionDuration name).1 = 1 / 2) := by
  unfold pickTransitionDuration
  constructor
  · intro h1 h2
    rw [if_pos ⟨h1, h2⟩, find_of_contains h2]
    rfl
  · intro h
    rw [if_neg (fun hc => hc.1 h)]

/-- A call of `advanceTransition` that starts in state Enter keeps the transition
in use. -/
theorem advanceTransition_enter_keeps {w : Window} (dt : ℚ)
    (hs : w.TransitionState.state = Transition_State.State.Enter) :
    (w.advanceTransition dt).TransitionState.active_transition =
      w.TransitionState.active_transition ∧
    (w.advanceTransition dt).TransitionState.active_duration =
      w.TransitionState.active_duration := by
  by_cases hp : 1 ≤ norm (w.TransitionState.time_accumulator + dt)
      w.TransitionState.active_duration
  · rw [advanceTransition_enter_commit dt hs hp]
    exact ⟨rfl, rfl⟩
  · rw [advanceTransition_enter_stay dt hs (not_le.mp hp)]
    exact ⟨rfl, rfl⟩

/-- C11 (amended): for every `navigate(s, t)` call made while the state is
`Inactive` and followed directly by a tick: if that tick begins an Enter phase, the
transition in use (`active_transition`, after `tryStartTransition` and after the
whole tick) is `t` if `t` is a non-empty registered transition name, otherwise the
configured default transition if that name is non-empty and registered, otherwise
empty; and `active_duration` is the registered duration of that transition, or
`1/2` when the name is empty. -/
theorem C11_transition_in_use (opts : Options) (w : Window) (s t : String) (dt : ℚ)
    (hs : w.TransitionState.state = Transition_State.State.Inactive)
    (hbegin : ((w.navigate s t).tryStartTransition opts).TransitionState.state =
      Transition_State.State.Enter) :
    ((w.navigate s t).tryStartTransition opts).TransitionState.active_transition =
      (if t ≠ "" ∧ w.transitions.contains t = true then t
        else if opts.scene.default_transition ≠ "" ∧
            w.transitions.contains opts.scene.default_transition = true then
          opts.scene.default_transition
        else "") ∧
    (((w.navigate s t).tryStartTransition opts).TransitionState.active_transition ≠ "" →
      (w.transitions.find
          ((w.navigate s t).tryStartTransition opts).TransitionState.active_transition).map
        Transition.duration =
        some ((w.navigate s t).tryStartTransition opts).TransitionState.active_duration) ∧
    (((w.navigate s t).tryStartTransition opts).TransitionState.active_transition = "" →
      ((w.navigate s t).tryStartTransition opts).TransitionState.active_duration = 1 / 2) ∧
    ((w.navigate s t).tick opts dt).TransitionState.active_transition =
      ((w.navigate s t).tryStartTransition opts).TransitionState.active_transition ∧
    ((w.navigate s t).tick opts dt).TransitionState.active_duration =
      ((w.navigate s t).tryStartTransition opts).TransitionState.active_duration := by
  obtain ⟨_, n2, _, _, _, _, n7⟩ := navigate_fields w s t
  have hsn : (w.navigate s t).TransitionState.state = Transition_State.State.Inactive := by
    rw [n7]; exact hs
  have hfire := tryStartTransition_fire (w := w.navigate s t) opts (by rw [n7]) hsn
  have hkeep := advanceTransition_enter_keeps (w := (w.navigate s t).tryStartTransition opts)
    dt hbegin
  refine ⟨?_, ?_, ?_, hkeep.1, hkeep.2⟩
  all_goals
    by_cases hc : ((w.navigate s t).resolveTarget opts).SceneState.target ≠ "" ∧
        ((w.navigate s t).resolveTarget opts).SceneState.target ≠
          (w.navigate s t).SceneState.current
    · rw [if_pos hc] at hfire
      rw [hfire]
      first
        | (show (w.navigate s t).pickTransitionName
              (w.navigate s t).TransitionState.active_transition
              opts.scene.default_transition = _
           unfold pickTransitionName
           rw [n2, n7]
           by_cases h1 : t ≠ "" ∧ w.transitions.contains t = true
           · simp [h1]
           · simp [h1])
        | (intro hne
           have hreg := pickTransitionName_registered (w.navigate s t)
             (w.navigate s t).TransitionState.active_transition
             opts.scene.default_transition hne
           have hd := (pickTransitionDuration_fst (w.navigate s t)
             ((w.navigate s t).pickTransitionName
               (w.navigate s t).TransitionState.active_transition
               opts.scene.default_transition)).1 hne hreg
           rw [n2] at hd
           exact hd)
        | (intro he
           exact (pickTransitionDuration_fst (w.navigate s t)
             ((w.navigate s t).pickTransitionName
               (w.navigate s t).TransitionState.active_transition
               opts.scene.default_transition)).2 he)
    · rw [if_neg hc] at hfire
      rw [hfire] at hbegin
      have hb2 : (w.navigate s t).TransitionState.state = Transition_State.State.Enter :=
        hbegin
      rw [hsn] at hb2
      cases hb2

theorem fade_begins :
    ((fadeStart.navigate "B" "fade").tryStartTransition fadeOptions).TransitionState.state =
      Transition_State.State.Enter := by
  simp [fadeStart, fadeAt, fadeOptions, Dict.index, Dict.find, Dict.contains,
    Window.navigate, Window.tryStartTransition, Window.resolveTarget,
    Window.pickTransitionName, Window.pickTransitionDuration, Window.transitionsAt,
    Window.beginEnterPhase, List.lookup]

/-- Witness of C11: the fade scenario, `navigate("B", "fade")` in state `Inactive`. -/
theorem C11_transition_in_use_witness :
    ((fadeStart.navigate "B" "fade").tick fadeOptions (1 / 4)).TransitionState.active_transition =
      ((fadeStart.navigate "B" "fade").tryStartTransition
        fadeOptions).TransitionState.active_transition ∧
    ((fadeStart.navigate "B" "fade").tryStartTransition
        fadeOptions).TransitionState.active_transition =
      (if "fade" ≠ "" ∧ fadeStart.transitions.contains "fade" = true then "fade"
        else if fadeOptions.scene.default_transition ≠ "" ∧
            fadeStart.transitions.contains fadeOptions.scene.default_transition = true then
          fadeOptions.scene.default_transition
        else "") := by
  have h := C11_transition_in_use fadeOptions fadeStart "B" "fade" (1 / 4) rfl fade_begins
  exact ⟨h.2.2.2.1, h.1⟩

/-- Counterexample to C11 as stated, in two scenarios.  First: `navigate("A",
"fade")` is the most recent call, made while the transition to `B` runs, and `fade`
is registered with duration 1; the tick that begins the Enter phase towards `A`
uses the empty transition name and the duration `1/2`.  Second: a transition is
registered under the empty name with duration 2 and `blinds` is the default
transition with duration `1/4`; after `navigate("B", "")` the tick begins the Enter
phase with `blinds` and `1/4`. -/
theorem C11_counterexample :
    (deferEnded = (deferRunning.navigate "A" "fade").tick fadeOptions 1 ∧
      deferEnded.transitions.contains "fade" = true ∧
      (deferEnded.transitions.find "fade").map Transition.duration = some 1 ∧
      (deferEnded.tick fadeOptions (1 / 4)).TransitionState.state =
        Transition_State.State.Enter ∧
      (deferEnded.tick fadeOptions (1 / 4)).TransitionState.active_transition = "" ∧
      (deferEnded.tick fadeOptions (1 / 4)).TransitionState.active_duration = 1 / 2) ∧
    (namelessStart.TransitionState.state = Transition_State.State.Inactive ∧
      namelessStart.transitions.contains "" = true ∧
      (namelessStart.transitions.find "").map Transition.duration = some 2 ∧
      ((namelessStart.navigate "B" "").tryStartTransition
        namelessOptions).TransitionState.state = Transition_State.State.Enter ∧
      ((namelessStart.navigate "B" "").tryStartTransition
        namelessOptions).TransitionState.active_transition = "blinds" ∧
      ((namelessStart.navigate "B" "").tryStartTransition
        namelessOptions).TransitionState.active_duration = 1 / 4) := by
  constructor
  · obtain ⟨_, h2, h3, _⟩ := defer_steps
    rw [h3]
    refine ⟨rfl, ?_, ?_, rfl, rfl, rfl⟩
    · rw [h2]; simp [fadeAt, Dict.contains, Dict.find, List.lookup]
    · rw [h2]; simp [fadeAt, Dict.find, List.lookup]
  · simp [namelessStart, namelessDefs, namelessOptions, started, fadeScreen, Window.initStart,
      Window.chooseStart, Window.fresh, Window.defineScene, Window.defineTransition,
      Dict.assign, Dict.put, Window.fireStatusListeners, Window.firstOnLoad,
      Window.ensureCanvas, Dict.index, Dict.find, Dict.contains, Window.emit,
      Window.scenesAt, Window.navigate, Window.tryStartTransition, Window.resolveTarget,
      Window.pickTransitionName, Window.pickTransitionDuration, Window.transitionsAt,
      Window.beginEnterPhase, List.lookup]

/-! ## Traces of the frame parts -/

theorem foldl_emit_eq {α : Type} (f : α → Event) (l : List α) :
    ∀ acc : Window,
      l.foldl (fun a x => a.emit (f x)) acc = { acc with trace := acc.trace ++ l.map f } := by
  induction l with
  | nil => intro acc; simp
  | cons x rest ih =>
    intro acc
    rw [List.foldl_cons, ih]
    simp [emit]

theorem fireScaleListeners_eq (w : Window) (scale : ℚ × ℚ) (size : Int × Int) :
    w.fireScaleListeners scale size =
      { w with trace := w.trace ++
          w.gScaleListeners.map (fun cb => Event.scaleListener cb scale size) } :=
  foldl_emit_eq (fun cb => Event.scaleListener cb scale size) w.gScaleListeners w

theorem fireStatusListeners_eq (w : Window) (status : WindowStatus) :
    w.fireStatusListeners status =
      { w with trace := w.trace ++
          w.gStatusListeners.map (fun cb => Event.statusListener cb status) } :=
  foldl_emit_eq (fun cb => Event.statusListener cb status) w.gStatusListeners w

/-- `ensureCanvas` writes the canvas and emits raylib calls only. -/
theorem ensureCanvas_eq (w : Window) (scr : Screen) :
    ∃ (cv : RenderTexture2D) (mid : List Event),
      (∀ e ∈ mid, ∃ c, e = Event.backend c) ∧
      w.ensureCanvas scr = { w with canvas := cv, trace := w.trace ++ mid } := by
  unfold ensureCanvas
  split_ifs
  · exact ⟨w.canvas, [], by simp, by simp⟩
  · exact ⟨⟨scr.textureId, scr.width, scr.height⟩,
      [Event.backend (BackendCall.LoadRenderTexture scr.width scr.height)],
      by simp, by simp [emit]⟩
  · exact ⟨⟨scr.textureId, scr.width, scr.height⟩,
      [Event.backend (BackendCall.UnloadRenderTexture w.canvas.id),
        Event.backend (BackendCall.LoadRenderTexture scr.width scr.height)],
      by simp, by simp [emit]⟩
  · exact ⟨w.canvas, [], by simp, by simp⟩

/-- The call of `scaleCallbackExecution` that sees a changed size. -/
theorem scaleCallbackExecution_changed (w : Window) (scr : Screen)
    (lastW lastH baseW baseH : Int)
    (h : scr.width ≠ lastW ∨ scr.height ≠ lastH ∨ scr.resized = true) :
    ∃ (cv : RenderTexture2D) (mid : List Event),
      (∀ e ∈ mid, ∃ c, e = Event.backend c) ∧
      w.scaleCallbackExecution scr lastW lastH baseW baseH =
        ({ w with
            WindowData :=
              { w.WindowData with
                scale_width := if 0 < baseW then (scr.width : ℚ) / (baseW : ℚ) else 1,
                scale_height := if 0 < baseH then (scr.height : ℚ) / (baseH : ℚ) else 1 },
            canvas := cv,
            trace := w.trace ++
              [Event.cout (if 0 < baseW then (scr.width : ℚ) / (baseW : ℚ) else 1)] ++ mid ++
              w.gScaleListeners.map (fun cb =>
                Event.scaleListener cb
                  (if 0 < baseW then (scr.width : ℚ) / (baseW : ℚ) else 1,
                    if 0 < baseH then (scr.height : ℚ) / (baseH : ℚ) else 1)
                  (scr.width, scr.height)) },
          scr.width, scr.height) := by
  unfold scaleCallbackExecution
  rw [if_pos h]
  simp only
  obtain ⟨cv, mid, hmid, hc⟩ := ensureCanvas_eq
    (({ w with WindowData :=
          { w.WindowData with
            scale_width := if 0 < baseW then (scr.width : ℚ) / (baseW : ℚ) else 1,
            scale_height := if 0 < baseH then (scr.height : ℚ) / (baseH : ℚ) else 1 } } :
        Window).emit
      (Event.cout (if 0 < baseW then (scr.width : ℚ) / (baseW : ℚ) else 1))) scr
  refine ⟨cv, mid, hmid, ?_⟩
  rw [fireScaleListeners_eq]
  simp only [emit] at hc ⊢
  rw [hc]

theorem scaleCallbackExecution_unchanged (w : Window) (scr : Screen)
    (lastW lastH baseW baseH : Int)
    (h : ¬ (scr.width ≠ lastW ∨ scr.height ≠ lastH ∨ scr.resized = true)) :
    w.scaleCallbackExecution scr lastW lastH baseW baseH = (w, lastW, lastH) := by
  unfold scaleCallbackExecution
  rw [if_neg h]

/-- C13 (amended): for every baseline size, last observed size and current size
reported by the backend: when the current size differs from the last observed size
(or the backend reports a resize), `scaleCallbackExecution` sets
`scale_width = curW / baseW` (`1` if `baseW` is zero or negative) and
`scale_height = curH / baseH` (`1` if `baseH` is zero or negative), records the
current size as last observed, and emits the scale value on `std::cout`, then
raylib calls for the canvas, then one call of every registered scale listener, in
the order of registration (`listen` appends), with the scale pair and the pixel
size pair; when the size is unchanged and no resize is reported nothing changes and
no listener is called.  In particular baseline 600x600 and new size 1200x600 give
scale `(2, 1)` and one listener call with `((2, 1), (1200, 600))`. -/
theorem C13_scale_dispatch (w : Window) (scr : Screen) (lastW lastH baseW baseH : Int) :
    (scr.width ≠ lastW ∨ scr.height ≠ lastH ∨ scr.resized = true →
      (w.scaleCallbackExecution scr lastW lastH baseW baseH).1.WindowData.scale_width =
        (if 0 < baseW then (scr.width : ℚ) / (baseW : ℚ) else 1) ∧
      (w.scaleCallbackExecution scr lastW lastH baseW baseH).1.WindowData.scale_height =
        (if 0 < baseH then (scr.height : ℚ) / (baseH : ℚ) else 1) ∧
      (w.scaleCallbackExecution scr lastW lastH baseW baseH).2 = (scr.width, scr.height) ∧
      ∃ mid : List Event, (∀ e ∈ mid, ∃ c, e = Event.backend c) ∧
        (w.scaleCallbackExecution scr lastW lastH baseW baseH).1.trace =
          w.trace ++
            [Event.cout (if 0 < baseW then (scr.width : ℚ) / (baseW : ℚ) else 1)] ++ mid ++
            w.gScaleListeners.map (fun cb =>
              Event.scaleListener cb
                (if 0 < baseW then (scr.width : ℚ) / (baseW : ℚ) else 1,
                  if 0 < baseH then (scr.height : ℚ) / (baseH : ℚ) else 1)
                (scr.width, scr.height))) ∧
    (¬ (scr.width ≠ lastW ∨ scr.height ≠ lastH ∨ scr.resized = true) →
      w.scaleCallbackExecution scr lastW lastH baseW baseH = (w, lastW, lastH)) ∧
    (∀ cb, (w.listenScale WindowEvents.Scale cb).gScaleListeners = w.gScaleListeners ++ [cb]) ∧
    ((fadeStart.listenScale WindowEvents.Scale 7).scaleCallbackExecution
        ⟨1200, 600, false, 1⟩ 600 600 600 600).1.WindowData.scale_width = 2 ∧
    ((fadeStart.listenScale WindowEvents.Scale 7).scaleCallbackExecution
        ⟨1200, 600, false, 1⟩ 600 600 600 600).1.WindowData.scale_height = 1 ∧
    ((fadeStart.listenScale WindowEvents.Scale 7).scaleCallbackExecution
        ⟨1200, 600, false, 1⟩ 600 600 600 600).1.trace =
      fadeStart.trace ++
        [Event.cout 2, Event.backend (BackendCall.UnloadRenderTexture 1),
          Event.backend (BackendCall.LoadRenderTexture 1200 600),
          Event.scaleListener 7 (2, 1) (1200, 600)] := by
  refine ⟨fun h => ?_, fun h => scaleCallbackExecution_unchanged w scr lastW lastH baseW baseH h,
    fun cb => by simp [listenScale], ?_, ?_, ?_⟩
  · obtain ⟨cv, mid, hmid, heq⟩ :=
      scaleCallbackExecution_changed w scr lastW lastH baseW baseH h
    rw [heq]
    exact ⟨rfl, rfl, rfl, mid, hmid, rfl⟩
  · simp [scaleCallbackExecution, listenScale, fadeStart, fadeAt, ensureCanvas, emit,
      fireScaleListeners]
    norm_num
  · simp [scaleCallbackExecution, listenScale, fadeStart, fadeAt, ensureCanvas, emit,
      fireScaleListeners]
  · simp [scaleCallbackExecution, listenScale, fadeStart, fadeAt, ensureCanvas, emit,
      fireScaleListeners]
    norm_num

/-- Counterexample to C13 as stated: with baseline width `-600` (not zero) and
current width `1200`, `scaleCallbackExecution` sets `scale_width` to `1`, while
`curW / baseW` is `-2`. -/
theorem C13_counterexample :
    (-600 : Int) ≠ 0 ∧
    ((1200 : Int) : ℚ) / ((-600 : Int) : ℚ) = -2 ∧
    (fadeStart.scaleCallbackExecution ⟨1200, 600, false, 1⟩ 600 600 (-600)
      600).1.WindowData.scale_width = 1 := by
  refine ⟨by decide, by norm_num, ?_⟩
  simp [scaleCallbackExecution, fadeStart, fadeAt, ensureCanvas, emit, fireScaleListeners]

/-! ## The registries change only through `define` -/

/-- What `tryStartTransition` can write: the scene state, except `current`, and the
transition state. -/
theorem tryStartTransition_shape (w : Window) (opts : Options) :
    ∃ (ss : Scene_State) (ts : Transition_State),
      w.tryStartTransition opts = { w with SceneState := ss, TransitionState := ts } ∧
      ss.current = w.SceneState.current := by
  by_cases hg : w.TransitionState.want_change = true ∧
      w.TransitionState.state = Transition_State.State.Inactive
  · rw [tryStartTransition_fire opts hg.1 hg.2]
    have hc := (resolveTarget_scenes w opts).2.1
    split_ifs
    · exact ⟨_, _, rfl, hc⟩
    · exact ⟨_, _, rfl, hc⟩
  · rw [tryStartTransition_noop opts hg]
    exact ⟨w.SceneState, w.TransitionState, rfl, rfl⟩

theorem sameRegistries_of_sameState {v w : Window} (h : sameState v w) : sameRegistries v w :=
  ⟨h.1, h.2.1, h.2.2.1⟩

theorem sameRegistries_trans {u v w : Window} (h1 : sameRegistries u v)
    (h2 : sameRegistries v w) : sameRegistries u w :=
  ⟨h1.1.trans h2.1, h1.2.1.trans h2.2.1, h1.2.2.trans h2.2.2⟩

theorem tick_sameRegistries (w : Window) (opts : Options) (dt : ℚ) :
    sameRegistries (w.tick opts dt) w := by
  obtain ⟨ss, ts, heq, _⟩ := tryStartTransition_shape w opts
  obtain ⟨k1, k2, k3, _⟩ := advanceTransition_keeps (w.tryStartTransition opts) dt
  unfold tick
  refine ⟨k1.trans ?_, k2.trans ?_, k3.trans ?_⟩ <;> rw [heq]

theorem frame_sameRegistries (w : Window) (opts : Options) (lastW lastH : Int) (dt : ℚ)
    (scr : Screen) : sameRegistries (w.frame opts lastW lastH dt scr).1 w :=
  sameRegistries_trans (sameRegistries_of_sameState (frame_sameState w opts lastW lastH dt scr))
    (sameRegistries_trans (tick_sameRegistries _ opts dt)
      (sameRegistries_of_sameState (updateScene_sameState w dt)))

theorem frameLoop_sameRegistries (opts : Options) (frames : List (ℚ × Screen)) :
    ∀ st : Window × Int × Int, sameRegistries (frameLoop opts st frames).1 st.1 := by
  induction frames with
  | nil => intro st; exact ⟨rfl, rfl, rfl⟩
  | cons f rest ih =>
    intro st
    obtain ⟨dt, scr⟩ := f
    exact sameRegistries_trans (ih _) (frame_sameRegistries st.1 opts st.2.1 st.2.2 dt scr)

theorem initFinish_sameRegistries (w : Window) : sameRegistries w.initFinish w := by
  unfold initFinish
  simp only
  rw [fireStatusListeners_eq]
  split_ifs <;> exact ⟨rfl, rfl, rfl⟩

theorem initStart_sameRegistries {w v : Window} {opts : Options} {scr : Screen}
    {lastW lastH : Int} (h : w.initStart opts scr = Except.ok (v, lastW, lastH)) :
    sameRegistries v w := by
  obtain ⟨c, _, _, hsame⟩ := initStart_ok h
  exact ⟨hsame.1, hsame.2.1, hsame.2.2.1⟩

/-- C20: the indexed access of the registry creates an entry for a missing key, and
`define` stores one; but `navigate`, `show`, `hide`, the scene choice of `init`,
`tryStartTransition`, `advanceTransition`, `pickTransitionDuration`, `callOnEnter`
and `callOnExit`, and with them a whole frame, the start of `init` and a whole run
of `init`, leave the three registries exactly as they are, for any names held in
the state or the options: every indexed read they make follows a successful
`contains` on the same key. -/
theorem C20_registries_fixed (opts : Options) (w : Window) :
    (∀ (d : Dict Scene) (k : String), d.contains k = false →
      (d.index k).2.contains k = true ∧ (d.index k).1 = default) ∧
    (∀ (d : Dict Scene) (k : String), d.contains k = true → (d.index k).2 = d) ∧
    (∀ n sc, (w.defineScene n sc).scenes.contains n = true) ∧
    (∀ s t, sameRegistries (w.navigate s t) w) ∧
    (∀ p, sameRegistries (w.showPopup p) w) ∧
    (∀ p, sameRegistries (w.hide p) w) ∧
    (∀ v, w.chooseStart opts = Except.ok v → sameRegistries v w) ∧
    sameRegistries (w.tryStartTransition opts) w ∧
    (∀ dt, sameRegistries (w.advanceTransition dt) w) ∧
    (∀ name, sameRegistries (w.pickTransitionDuration name).2 w) ∧
    (∀ scr dt prog, sameRegistries (w.callOnEnter scr dt prog) w) ∧
    (∀ scr dt prog, sameRegistries (w.callOnExit scr dt prog) w) ∧
    (∀ lastW lastH dt scr, sameRegistries (w.frame opts lastW lastH dt scr).1 w) ∧
    (∀ scr v lastW lastH, w.initStart opts scr = Except.ok (v, lastW, lastH) →
      sameRegistries v w) ∧
    (∀ scr frames v, w.init opts scr frames = Except.ok v → sameRegistries v w) ∧
    (∀ v : Window, sameRegistries v w →
      v.scenes.keys = w.scenes.keys ∧ v.transitions.keys = w.transitions.keys ∧
      v.popups.keys = w.popups.keys) := by
  refine ⟨?_, fun d k h => Dict.index_snd_of_contains h, ?_, ?_, ?_, ?_, ?_, ?_, ?_, ?_, ?_, ?_,
    ?_, ?_, ?_, ?_⟩
  · intro d k h
    unfold Dict.contains at h
    have hf : d.find k = none := by
      cases hf : d.find k with
      | none => rfl
      | some v => rw [hf] at h; cases h
    unfold Dict.index
    rw [hf]
    refine ⟨?_, rfl⟩
    unfold Dict.contains Dict.find
    rw [Dict.lookup_put]
    simp
  · intro n sc
    unfold defineScene
    rw [Dict.contains_assign]
    simp
  · intro s t
    obtain ⟨h1, h2, h3, _⟩ := navigate_fields w s t
    exact ⟨h1, h2, h3⟩
  · intro p
    unfold showPopup
    split_ifs <;> exact ⟨rfl, rfl, rfl⟩
  · intro p
    unfold hide
    split_ifs <;> exact ⟨rfl, rfl, rfl⟩
  · intro v h
    obtain ⟨c, hv, _⟩ := chooseStart_ok h
    rw [hv]
    exact ⟨rfl, rfl, rfl⟩
  · obtain ⟨ss, ts, heq, _⟩ := tryStartTransition_shape w opts
    rw [heq]
    exact ⟨rfl, rfl, rfl⟩
  · intro dt
    obtain ⟨k1, k2, k3, _⟩ := advanceTransition_keeps w dt
    exact ⟨k1, k2, k3⟩
  · intro name
    rw [pickTransitionDuration_snd]
    exact ⟨rfl, rfl, rfl⟩
  · intro scr dt prog
    exact sameRegistries_of_sameState (callOnEnter_sameState w scr dt prog)
  · intro scr dt prog
    exact sameRegistries_of_sameState (callOnExit_sameState w scr dt prog)
  · intro lastW lastH dt scr
    exact frame_sameRegistries w opts lastW lastH dt scr
  · intro scr v lastW lastH h
    exact initStart_sameRegistries h
  · intro scr frames v h
    unfold init at h
    cases hi : w.initStart opts scr with
    | error e => rw [hi] at h; cases h
    | ok st =>
      rw [hi] at h
      obtain ⟨v0, lw, lh⟩ := st
      have hv := Except.ok.inj h
      rw [← hv]
      exact sameRegistries_trans (initFinish_sameRegistries _)
        (sameRegistries_trans (frameLoop_sameRegistries opts frames _)
          (initStart_sameRegistries hi))
  · intro v h
    rw [h.1, h.2.1, h.2.2]
    exact ⟨rfl, rfl, rfl⟩

/-! ## The events of one frame -/

theorem updateScene_eq (w : Window) (dt : ℚ) :
    w.updateScene dt =
      if (w.SceneState.current ≠ "" ∧ w.scenes.contains w.SceneState.current = true) ∧
          (w.scenes.index w.SceneState.current).1.onUpdate.isSome = true then
        w.emit (Event.sceneOnUpdate w.SceneState.current dt)
      else w := by
  unfold updateScene
  by_cases hc : w.SceneState.current ≠ "" ∧ w.scenes.contains w.SceneState.current = true
  · rw [if_pos hc]
    simp only [scenesAt_snd hc.2]
    by_cases hslot : (w.scenes.index w.SceneState.current).1.onUpdate.isSome = true
    · have h2 : (w.scenesAt w.SceneState.current).1.onUpdate.isSome = true := hslot
      rw [if_pos h2, if_pos ⟨hc, hslot⟩]
    · have h2 : ¬ (w.scenesAt w.SceneState.current).1.onUpdate.isSome = true := hslot
      rw [if_neg h2, if_neg (fun h => hslot h.2)]
  · rw [if_neg hc, if_neg (fun h => hc h.1)]

theorem drawScene_eq (w : Window) :
    w.drawScene =
      if (w.SceneState.current ≠ "" ∧ w.scenes.contains w.SceneState.current = true) ∧
          (w.scenes.index w.SceneState.current).1.onDraw.isSome = true then
        w.emit (Event.sceneOnDraw w.SceneState.current)
      else w := by
  unfold drawScene
  by_cases hc : w.SceneState.current ≠ "" ∧ w.scenes.contains w.SceneState.current = true
  · rw [if_pos hc]
    simp only [scenesAt_snd hc.2]
    by_cases hslot : (w.scenes.index w.SceneState.current).1.onDraw.isSome = true
    · have h2 : (w.scenesAt w.SceneState.current).1.onDraw.isSome = true := hslot
      rw [if_pos h2, if_pos ⟨hc, hslot⟩]
    · have h2 : ¬ (w.scenesAt w.SceneState.current).1.onDraw.isSome = true := hslot
      rw [if_neg h2, if_neg (fun h => hslot h.2)]
  · rw [if_neg hc, if_neg (fun h => hc h.1)]

theorem firstOnLoad_eq (w : Window) :
    w.firstOnLoad =
      if (w.SceneState.current ≠ "" ∧ w.scenes.contains w.SceneState.current = true) ∧
          (w.scenes.index w.SceneState.current).1.onLoad.isSome = true then
        w.emit (Event.sceneOnLoad w.SceneState.current)
      else w := by
  unfold firstOnLoad
  by_cases hc : w.SceneState.current ≠ "" ∧ w.scenes.contains w.SceneState.current = true
  · rw [if_pos hc]
    simp only [scenesAt_snd hc.2]
    by_cases hslot : (w.scenes.index w.SceneState.current).1.onLoad.isSome = true
    · have h2 : (w.scenesAt w.SceneState.current).1.onLoad.isSome = true := hslot
      rw [if_pos h2, if_pos ⟨hc, hslot⟩]
    · have h2 : ¬ (w.scenesAt w.SceneState.current).1.onLoad.isSome = true := hslot
      rw [if_neg h2, if_neg (fun h => hslot h.2)]
  · rw [if_neg hc, if_neg (fun h => hc h.1)]

theorem drawPopup_eq (w : Window) :
    w.drawPopup =
      if (w.PopupState.current ≠ "" ∧ w.popups.contains w.PopupState.current = true) ∧
          (w.popups.index w.PopupState.current).1.onDraw.isSome = true then
        w.emit (Event.popupOnDraw w.PopupState.current)
      else w := by
  unfold drawPopup
  by_cases hc : w.PopupState.current ≠ "" ∧ w.popups.contains w.PopupState.current = true
  · rw [if_pos hc]
    simp only [popupsAt_snd hc.2]
    by_cases hslot : (w.popups.index w.PopupState.current).1.onDraw.isSome = true
    · have h2 : (w.popupsAt w.PopupState.current).1.onDraw.isSome = true := hslot
      rw [if_pos h2, if_pos ⟨hc, hslot⟩]
    · have h2 : ¬ (w.popupsAt w.PopupState.current).1.onDraw.isSome = true := hslot
      rw [if_neg h2, if_neg (fun h => hslot h.2)]
  · rw [if_neg hc, if_neg (fun h => hc h.1)]

theorem updateScene_trace (w : Window) (dt : ℚ) :
    ∃ U : List Event, (w.updateScene dt).trace = w.trace ++ U ∧
      (U = [] ∨ U = [Event.sceneOnUpdate w.SceneState.current dt]) := by
  rw [updateScene_eq]
  split_ifs
  · exact ⟨_, rfl, Or.inr rfl⟩
  · exact ⟨[], by simp, Or.inl rfl⟩

theorem drawScene_trace (w : Window) :
    ∃ D : List Event, w.drawScene.trace = w.trace ++ D ∧
      (D = [] ∨ D = [Event.sceneOnDraw w.SceneState.current]) := by
  rw [drawScene_eq]
  split_ifs
  · exact ⟨_, rfl, Or.inr rfl⟩
  · exact ⟨[], by simp, Or.inl rfl⟩

theorem drawPopup_trace (w : Window) :
    ∃ P : List Event, w.drawPopup.trace = w.trace ++ P ∧
      (P = [] ∨ (P = [Event.popupOnDraw w.PopupState.current] ∧ w.PopupState.current ≠ "")) := by
  rw [drawPopup_eq]
  split_ifs with h
  · exact ⟨_, rfl, Or.inr ⟨rfl, h.1.1⟩⟩
  · exact ⟨[], by simp, Or.inl rfl⟩

/-- The overlay of a frame: nothing, or one call of the transition in use, or the
default wipe; and nothing when the render phase is `None`. -/
theorem drawOverlay_trace (w : Window) (scr : Screen) (dt : ℚ) :
    ∃ O : List Event, (w.drawOverlay scr dt).trace = w.trace ++ O ∧
      (O = [] ∨
        (w.TransitionState.render_phase = Transition_State.RenderPhase.Enter ∧
          (O = [Event.transitionOnEnter w.TransitionState.active_transition dt
              w.TransitionState.render_progress] ∨
            O = [Event.backend (BackendCall.DrawRectangle 0 0
              (truncToInt ((scr.width : ℚ) * w.TransitionState.render_progress))
              scr.height BLACK)])) ∨
        (w.TransitionState.render_phase = Transition_State.RenderPhase.Exit ∧
          (O = [Event.transitionOnExit w.TransitionState.active_transition dt
              w.TransitionState.render_progress] ∨
            O = [Event.backend (BackendCall.DrawRectangle 0 0
              (truncToInt ((scr.width : ℚ) * w.TransitionState.render_progress))
              scr.height BLACK)]))) := by
  unfold drawOverlay
  by_cases hn : w.TransitionState.render_phase ≠ Transition_State.RenderPhase.None
  · rw [if_pos hn]
    by_cases he : w.TransitionState.render_phase = Transition_State.RenderPhase.Enter
    · rw [if_pos he]
      unfold callOnEnter
      split_ifs with h1 h2
      · rw [transitionsAt_snd h1.2]
        exact ⟨_, rfl, Or.inr (Or.inl ⟨he, Or.inl rfl⟩)⟩
      · rw [transitionsAt_snd h1.2]
        exact ⟨[], by simp, Or.inl rfl⟩
      · exact ⟨_, rfl, Or.inr (Or.inl ⟨he, Or.inr rfl⟩)⟩
    · rw [if_neg he]
      have hx : w.TransitionState.render_phase = Transition_State.RenderPhase.Exit := by
        cases hph : w.TransitionState.render_phase with
        | None => exact absurd hph hn
        | Enter => exact absurd hph he
        | Exit => rfl
      unfold callOnExit
      split_ifs with h1 h2
      · rw [transitionsAt_snd h1.2]
        exact ⟨_, rfl, Or.inr (Or.inr ⟨hx, Or.inl rfl⟩)⟩
      · rw [transitionsAt_snd h1.2]
        exact ⟨[], by simp, Or.inl rfl⟩
      · exact ⟨_, rfl, Or.inr (Or.inr ⟨hx, Or.inr rfl⟩)⟩
  · rw [if_neg hn]
    exact ⟨[], by simp, Or.inl rfl⟩

/-- The scale dispatch of a frame emits the line on `std::cout`, raylib calls and
scale listener calls only. -/
theorem scaleCallbackExecution_trace (w : Window) (scr : Screen)
    (lastW lastH baseW baseH : Int) :
    ∃ S : List Event,
      (w.scaleCallbackExecution scr lastW lastH baseW baseH).1.trace = w.trace ++ S ∧
      ∀ e ∈ S, (∃ c, e = Event.backend c) ∨ (∃ q, e = Event.cout q) ∨
        (∃ cb sc sz, e = Event.scaleListener cb sc sz) := by
  by_cases h : scr.width ≠ lastW ∨ scr.height ≠ lastH ∨ scr.resized = true
  · obtain ⟨cv, mid, hmid, heq⟩ := scaleCallbackExecution_changed w scr lastW lastH baseW baseH h
    rw [heq]
    refine ⟨[Event.cout (if 0 < baseW then (scr.width : ℚ) / (baseW : ℚ) else 1)] ++ mid ++
      w.gScaleListeners.map (fun cb =>
        Event.scaleListener cb
          (if 0 < baseW then (scr.width : ℚ) / (baseW : ℚ) else 1,
            if 0 < baseH then (scr.height : ℚ) / (baseH : ℚ) else 1)
          (scr.width, scr.height)), by simp only [List.append_assoc], ?_⟩
    intro e he
    rcases List.mem_append.mp he with h12 | h3
    · rcases List.mem_append.mp h12 with h1 | h2
      · exact Or.inr (Or.inl ⟨_, List.mem_singleton.mp h1⟩)
      · exact Or.inl (hmid e h2)
    · obtain ⟨cb, _, hcb⟩ := List.mem_map.mp h3
      exact Or.inr (Or.inr ⟨cb, _, _, hcb.symm⟩)
  · rw [scaleCallbackExecution_unchanged w scr lastW lastH baseW baseH h]
    exact ⟨[], by simp, by simp⟩

/-- The events of a tick: none, unless the Enter phase reaches progress 1 in it;
then `onUnload` of the old current scene and `onLoad` of the new one, each when
the guarded call is made. -/
theorem tick_trace (w : Window) (opts : Options) (dt : ℚ) :
    ∃ u l : List Event, (w.tick opts dt).trace = w.trace ++ u ++ l ∧
      (u = [] ∨ u = [Event.sceneOnUnload w.SceneState.current]) ∧
      (l = [] ∨ l = [Event.sceneOnLoad (w.tick opts dt).SceneState.current]) ∧
      (u ++ l ≠ [] →
        (w.tick opts dt).TransitionState.render_phase = Transition_State.RenderPhase.Enter ∧
        1 ≤ (w.tick opts dt).TransitionState.render_progress ∧
        (w.tick opts dt).TransitionState.state = Transition_State.State.Exit) ∧
      (w.tick opts dt).PopupState = w.PopupState := by
  obtain ⟨ss, ts, heq, hcur⟩ := tryStartTransition_shape w opts
  have htr : (w.tryStartTransition opts).trace = w.trace := by rw [heq]
  have hc : (w.tryStartTransition opts).SceneState.current = w.SceneState.current := by
    rw [heq]; exact hcur
  have hpp : (w.tryStartTransition opts).PopupState = w.PopupState := by rw [heq]
  unfold tick
  cases hs : (w.tryStartTransition opts).TransitionState.state with
  | Inactive =>
    rw [advanceTransition_inactive dt hs]
    exact ⟨[], [], by simp [htr], Or.inl rfl, Or.inl rfl, fun h => absurd rfl h, hpp⟩
  | Enter =>
    by_cases hp : 1 ≤ norm ((w.tryStartTransition opts).TransitionState.time_accumulator + dt)
        (w.tryStartTransition opts).TransitionState.active_duration
    · rw [advanceTransition_enter_commit dt hs hp, htr, hc]
      refine ⟨_, _, rfl, ?_, ?_, fun _ => ⟨rfl, hp, rfl⟩, hpp⟩
      · by_cases hu : (w.tryStartTransition opts).scenes.contains w.SceneState.current = true ∧
            ((w.tryStartTransition opts).scenes.index w.SceneState.current).1.onUnload.isSome =
              true
        · rw [if_pos hu]; exact Or.inr rfl
        · rw [if_neg hu]; exact Or.inl rfl
      · by_cases hl : (w.tryStartTransition opts).scenes.contains
              (w.tryStartTransition opts).SceneState.target = true ∧
            ((w.tryStartTransition opts).scenes.index
              (w.tryStartTransition opts).SceneState.target).1.onLoad.isSome = true
        · rw [if_pos hl]; exact Or.inr rfl
        · rw [if_neg hl]; exact Or.inl rfl
    · rw [advanceTransition_enter_stay dt hs (not_le.mp hp)]
      exact ⟨[], [], by simp [htr], Or.inl rfl, Or.inl rfl, fun h => absurd rfl h, hpp⟩
  | Exit =>
    by_cases hp : norm ((w.tryStartTransition opts).TransitionState.time_accumulator - dt)
        (w.tryStartTransition opts).TransitionState.active_duration ≤ 0
    · rw [advanceTransition_exit_end dt hs hp]
      exact ⟨[], [], by simp [htr], Or.inl rfl, Or.inl rfl, fun h => absurd rfl h, hpp⟩
    · rw [advanceTransition_exit_stay dt hs (not_le.mp hp)]
      exact ⟨[], [], by simp [htr], Or.inl rfl, Or.inl rfl, fun h => absurd rfl h, hpp⟩

/-- The events of one frame, in order, with the segment of each part of the loop
body. -/
theorem frame_trace (w : Window) (opts : Options) (lastW lastH : Int) (dt : ℚ)
    (scr : Screen) :
    ∃ U u l S D O P : List Event,
      (w.frame opts lastW lastH dt scr).1.trace =
        w.trace ++ U ++ (u ++ l) ++ S ++
          [Event.backend BackendCall.BeginDrawing, Event.backend BackendCall.ClearBackground] ++
          D ++ O ++ P ++ [Event.backend BackendCall.EndDrawing] ∧
      (U = [] ∨ U = [Event.sceneOnUpdate w.SceneState.current dt]) ∧
      (u = [] ∨ u = [Event.sceneOnUnload w.SceneState.current]) ∧
      (l = [] ∨
        l = [Event.sceneOnLoad (w.frame opts lastW lastH dt scr).1.SceneState.current]) ∧
      (u ++ l ≠ [] →
        (w.frame opts lastW lastH dt scr).1.TransitionState.render_phase =
          Transition_State.RenderPhase.Enter ∧
        1 ≤ (w.frame opts lastW lastH dt scr).1.TransitionState.render_progress ∧
        (w.frame opts lastW lastH dt scr).1.TransitionState.state =
          Transition_State.State.Exit) ∧
      (∀ e ∈ S, (∃ c, e = Event.backend c) ∨ (∃ q, e = Event.cout q) ∨
        (∃ cb sc sz, e = Event.scaleListener cb sc sz)) ∧
      (D = [] ∨
        D = [Event.sceneOnDraw (w.frame opts lastW lastH dt scr).1.SceneState.current]) ∧
      (O = [] ∨
        ((w.frame opts lastW lastH dt scr).1.TransitionState.render_phase =
            Transition_State.RenderPhase.Enter ∧
          (O = [Event.transitionOnEnter
              (w.frame opts lastW lastH dt scr).1.TransitionState.active_transition dt
              (w.frame opts lastW lastH dt scr).1.TransitionState.render_progress] ∨
            O = [Event.backend (BackendCall.DrawRectangle 0 0
              (truncToInt ((scr.width : ℚ) *
                (w.frame opts lastW lastH dt scr).1.TransitionState.render_progress))
              scr.height BLACK)])) ∨
        ((w.frame opts lastW lastH dt scr).1.TransitionState.render_phase =
            Transition_State.RenderPhase.Exit ∧
          (O = [Event.transitionOnExit
              (w.frame opts lastW lastH dt scr).1.TransitionState.active_transition dt
              (w.frame opts lastW lastH dt scr).1.TransitionState.render_progress] ∨
            O = [Event.backend (BackendCall.DrawRectangle 0 0
              (truncToInt ((scr.width : ℚ) *
                (w.frame opts lastW lastH dt scr).1.TransitionState.render_progress))
              scr.height BLACK)]))) ∧
      (P = [] ∨ (P = [Event.popupOnDraw w.PopupState.current] ∧ w.PopupState.current ≠ "")) := by
  -- the windows between the parts of the frame
  have hF : (w.frame opts lastW lastH dt scr).1 =
      ((((((((w.updateScene dt).tick opts dt).scaleCallbackExecution scr lastW lastH
        opts.general.width opts.general.height).1.emit
          (Event.backend BackendCall.BeginDrawing)).emit
          (Event.backend BackendCall.ClearBackground)).drawScene).drawOverlay scr dt).drawPopup).emit
        (Event.backend BackendCall.EndDrawing) := rfl
  have hsame := frame_sameState w opts lastW lastH dt scr
  obtain ⟨_, _, _, hFs, hFt, hFp⟩ := hsame
  have hu0 := updateScene_sameState w dt
  obtain ⟨U, hU, hU'⟩ := updateScene_trace w dt
  obtain ⟨u, l, hC, hu, hl, hne, hpop⟩ := tick_trace (w.updateScene dt) opts dt
  obtain ⟨S, hS, hS'⟩ := scaleCallbackExecution_trace ((w.updateScene dt).tick opts dt) scr
    lastW lastH opts.general.width opts.general.height
  have hsc := scaleCallbackExecution_sameState ((w.updateScene dt).tick opts dt) scr
    lastW lastH opts.general.width opts.general.height
  obtain ⟨D, hD, hD'⟩ := drawScene_trace
    (((((w.updateScene dt).tick opts dt).scaleCallbackExecution scr lastW lastH
      opts.general.width opts.general.height).1.emit
        (Event.backend BackendCall.BeginDrawing)).emit
        (Event.backend BackendCall.ClearBackground))
  have hds := drawScene_sameState
    (((((w.updateScene dt).tick opts dt).scaleCallbackExecution scr lastW lastH
      opts.general.width opts.general.height).1.emit
        (Event.backend BackendCall.BeginDrawing)).emit
        (Event.backend BackendCall.ClearBackground))
  obtain ⟨O, hO, hO'⟩ := drawOverlay_trace
    ((((((w.updateScene dt).tick opts dt).scaleCallbackExecution scr lastW lastH
      opts.general.width opts.general.height).1.emit
        (Event.backend BackendCall.BeginDrawing)).emit
        (Event.backend BackendCall.ClearBackground)).drawScene) scr dt
  have hos := drawOverlay_sameState
    ((((((w.updateScene dt).tick opts dt).scaleCallbackExecution scr lastW lastH
      opts.general.width opts.general.height).1.emit
        (Event.backend BackendCall.BeginDrawing)).emit
        (Event.backend BackendCall.ClearBackground)).drawScene) scr dt
  obtain ⟨P, hP, hP'⟩ := drawPopup_trace
    (((((((w.updateScene dt).tick opts dt).scaleCallbackExecution scr lastW lastH
      opts.general.width opts.general.height).1.emit
        (Event.backend BackendCall.BeginDrawing)).emit
        (Event.backend BackendCall.ClearBackground)).drawScene).drawOverlay scr dt)
  -- the state of the window at the draw calls is the state after the tick
  have h3s : sameState
      (((((w.updateScene dt).tick opts dt).scaleCallbackExecution scr lastW lastH
        opts.general.width opts.general.height).1.emit
          (Event.backend BackendCall.BeginDrawing)).emit
          (Event.backend BackendCall.ClearBackground))
      ((w.updateScene dt).tick opts dt) :=
    sameState_trans (emit_sameState _ _) (sameState_trans (emit_sameState _ _) hsc)
  have h4s := sameState_trans hds h3s
  have h5s := sameState_trans hos h4s
  refine ⟨U, u, l, S, D, O, P, ?_, hU', ?_, ?_, ?_, hS', ?_, ?_, ?_⟩
  · rw [hF]
    show (_ : Window).trace ++ [_] = _
    rw [hP, hO, hD]
    show (((_ : Window).trace ++ [_]) ++ [_]) ++ D ++ O ++ P ++ [_] = _
    rw [hS, hC, hU]
    simp only [List.append_assoc, List.cons_append, List.nil_append]
  · rw [← hu0.2.2.2.1]; exact hu
  · rw [hFs]; exact hl
  · rw [hFt]; exact hne
  · rw [hFs, ← h3s.2.2.2.1]; exact hD'
  · rw [hFt, ← h4s.2.2.2.2.1]; exact hO'
  · rcases hP' with h | ⟨h, hne2⟩
    · exact Or.inl h
    · right
      rw [h5s.2.2.2.2.2, hpop, hu0.2.2.2.2.2] at h hne2
      exact ⟨h, hne2⟩

/-- C17: the events a frame emits are, in this order: `onUpdate(dt)` of the scene
that is current at the start of the frame; then, only when the Enter phase reaches
progress 1 in this frame, `onUnload` of the old current scene followed by `onLoad`
of the new one; then the output of the scale dispatch (`std::cout`, raylib calls,
scale listeners); then `BeginDrawing` and `ClearBackground`; then `onDraw` of the
scene that is current after `advanceTransition`; then the transition overlay
(`onEnter` or `onExit` of the transition in use, or the default wipe), present only
if the render phase is not `None`; then the popup's `onDraw`; then `EndDrawing`.
Each callback is at most one event (a guarded call may be skipped), so the scene's
`onDraw` is never emitted after the overlay of the same frame. -/
theorem C17_frame_order (w : Window) (opts : Options) (lastW lastH : Int) (dt : ℚ)
    (scr : Screen) :
    ∃ U u l S D O P : List Event,
      (w.frame opts lastW lastH dt scr).1.trace =
        w.trace ++ U ++ (u ++ l) ++ S ++
          [Event.backend BackendCall.BeginDrawing, Event.backend BackendCall.ClearBackground] ++
          D ++ O ++ P ++ [Event.backend BackendCall.EndDrawing] ∧
      (U = [] ∨ U = [Event.sceneOnUpdate w.SceneState.current dt]) ∧
      (u = [] ∨ u = [Event.sceneOnUnload w.SceneState.current]) ∧
      (l = [] ∨
        l = [Event.sceneOnLoad (w.frame opts lastW lastH dt scr).1.SceneState.current]) ∧
      (u ++ l ≠ [] →
        (w.frame opts lastW lastH dt scr).1.TransitionState.render_phase =
          Transition_State.RenderPhase.Enter ∧
        1 ≤ (w.frame opts lastW lastH dt scr).1.TransitionState.render_progress ∧
        (w.frame opts lastW lastH dt scr).1.TransitionState.state =
          Transition_State.State.Exit) ∧
      (∀ e ∈ S, (∃ c, e = Event.backend c) ∨ (∃ q, e = Event.cout q) ∨
        (∃ cb sc sz, e = Event.scaleListener cb sc sz)) ∧
      (D = [] ∨
        D = [Event.sceneOnDraw (w.frame opts lastW lastH dt scr).1.SceneState.current]) ∧
      (O = [] ∨
        ((w.frame opts lastW lastH dt scr).1.TransitionState.render_phase =
            Transition_State.RenderPhase.Enter ∧
          (O = [Event.transitionOnEnter
              (w.frame opts lastW lastH dt scr).1.TransitionState.active_transition dt
              (w.frame opts lastW lastH dt scr).1.TransitionState.render_progress] ∨
            O = [Event.backend (BackendCall.DrawRectangle 0 0
              (truncToInt ((scr.width : ℚ) *
                (w.frame opts lastW lastH dt scr).1.TransitionState.render_progress))
              scr.height BLACK)])) ∨
        ((w.frame opts lastW lastH dt scr).1.TransitionState.render_phase =
            Transition_State.RenderPhase.Exit ∧
          (O = [Event.transitionOnExit
              (w.frame opts lastW lastH dt scr).1.TransitionState.active_transition dt
              (w.frame opts lastW lastH dt scr).1.TransitionState.render_progress] ∨
            O = [Event.backend (BackendCall.DrawRectangle 0 0
              (truncToInt ((scr.width : ℚ) *
                (w.frame opts lastW lastH dt scr).1.TransitionState.render_progress))
              scr.height BLACK)]))) ∧
      (P = [] ∨ P = [Event.popupOnDraw w.PopupState.current]) := by
  obtain ⟨U, u, l, S, D, O, P, h1, h2, h3, h4, h5, h6, h7, h8, h9⟩ :=
    frame_trace w opts lastW lastH dt scr
  exact ⟨U, u, l, S, D, O, P, h1, h2, h3, h4, h5, h6, h7, h8, h9.imp id (fun h => h.1)⟩

/-! ## The popup state -/

theorem addsNoPopupCall_refl (w : Window) : addsNoPopupCall w w :=
  ⟨[], by simp, by simp⟩

theorem addsNoPopupCall_trans {u v w : Window} (h1 : addsNoPopupCall u v)
    (h2 : addsNoPopupCall v w) : addsNoPopupCall u w := by
  obtain ⟨s1, e1, q1⟩ := h1
  obtain ⟨s2, e2, q2⟩ := h2
  refine ⟨s2 ++ s1, by rw [e1, e2, List.append_assoc], ?_⟩
  intro e he
  rcases List.mem_append.mp he with h | h
  · exact q2 e h
  · exact q1 e h

theorem PopupQuiet_of_adds {v w : Window} (h : addsNoPopupCall v w)
    (hp : v.PopupState.current = w.PopupState.current) (hq : PopupQuiet w) : PopupQuiet v := by
  obtain ⟨seg, e1, q1⟩ := h
  refine ⟨hp.trans hq.1, ?_⟩
  intro e he
  rw [e1] at he
  rcases List.mem_append.mp he with h | h
  · exact hq.2 e h
  · exact q1 e h

/-- The start of `init` calls no popup callback. -/
theorem initStart_addsNoPopupCall {w v : Window} {opts : Options} {scr : Screen}
    {lastW lastH : Int} (h : w.initStart opts scr = Except.ok (v, lastW, lastH)) :
    addsNoPopupCall v w := by
  unfold initStart at h
  simp only at h
  cases hc : chooseStart
      { w with WindowData := { id := 0, scale_width := 1, scale_height := 1 } } opts with
  | error e => rw [hc] at h; cases h
  | ok w4 =>
    rw [hc] at h
    obtain ⟨c, hw4, _, _⟩ := chooseStart_ok hc
    have hv := (Prod.mk.inj (Except.ok.inj h)).1
    rw [← hv]
    obtain ⟨cv, mid, hmid, hcan⟩ := ensureCanvas_eq
      (((((({ w4 with
          TransitionState :=
            { w4.TransitionState with
              state := Transition_State.State.Inactive, time_accumulator := 0 },
          SceneState := { w4.SceneState with target := "", pending := "" } } : Window).emit
        (Event.backend BackendCall.SetConfigFlags)).emit
        (Event.backend BackendCall.SetTraceLogLevel)).emit
        (Event.backend (BackendCall.InitWindow opts.general.width opts.general.height
          opts.general.name))).emit
        (Event.backend (BackendCall.SetTargetFPS 60))).fireStatusListeners
          WindowStatus.Open).firstOnLoad scr
    rw [hcan, firstOnLoad_eq, fireStatusListeners_eq, hw4]
    split_ifs
    · refine ⟨_, by simp only [emit, List.append_assoc]; rfl, ?_⟩
      intro e he n
      simp only [List.mem_append, List.mem_cons, List.mem_map, List.mem_singleton,
        List.not_mem_nil, or_false] at he
      rcases he with he | he | he | he | ⟨cb, _, he⟩ | he | he
      · rw [he]; exact fun hx => by cases hx
      · rw [he]; exact fun hx => by cases hx
      · rw [he]; exact fun hx => by cases hx
      · rw [he]; exact fun hx => by cases hx
      · rw [← he]; exact fun hx => by cases hx
      · rw [he]; exact fun hx => by cases hx
      · obtain ⟨c2, hc2⟩ := hmid e he
        rw [hc2]; exact fun hx => by cases hx
    · refine ⟨_, by simp only [emit, List.append_assoc]; rfl, ?_⟩
      intro e he n
      simp only [List.mem_append, List.mem_cons, List.mem_map, List.mem_singleton,
        List.not_mem_nil, or_false] at he
      rcases he with he | he | he | he | ⟨cb, _, he⟩ | he
      · rw [he]; exact fun hx => by cases hx
      · rw [he]; exact fun hx => by cases hx
      · rw [he]; exact fun hx => by cases hx
      · rw [he]; exact fun hx => by cases hx
      · rw [← he]; exact fun hx => by cases hx
      · obtain ⟨c2, hc2⟩ := hmid e he
        rw [hc2]; exact fun hx => by cases hx

theorem tick_addsNoPopupCall (w : Window) (opts : Options) (dt : ℚ) :
    addsNoPopupCall (w.tick opts dt) w := by
  obtain ⟨u, l, hC, hu, hl, _, _⟩ := tick_trace w opts dt
  refine ⟨u ++ l, by rw [hC, List.append_assoc], ?_⟩
  intro e he n
  rcases List.mem_append.mp he with h | h
  · rcases hu with hu | hu
    · rw [hu] at h; cases h
    · rw [hu, List.mem_singleton] at h
      rw [h]; exact fun hx => by cases hx
  · rcases hl with hl | hl
    · rw [hl] at h; cases h
    · rw [hl, List.mem_singleton] at h
      rw [h]; exact fun hx => by cases hx

theorem noPopup_append {A B : List Event}
    (hA : ∀ e ∈ A, ∀ n, e ≠ Event.popupOnDraw n) (hB : ∀ e ∈ B, ∀ n, e ≠ Event.popupOnDraw n) :
    ∀ e ∈ A ++ B, ∀ n, e ≠ Event.popupOnDraw n := by
  intro e he
  rcases List.mem_append.mp he with h | h
  · exact hA e h
  · exact hB e h

/-- A frame that starts with no popup current calls no popup callback. -/
theorem frame_addsNoPopupCall (w : Window) (opts : Options) (lastW lastH : Int) (dt : ℚ)
    (scr : Screen) (hp : w.PopupState.current = "") :
    addsNoPopupCall (w.frame opts lastW lastH dt scr).1 w := by
  obtain ⟨U, u, l, S, D, O, P, h1, hU, hu, hl, _, hS, hD, hO, hP⟩ :=
    frame_trace w opts lastW lastH dt scr
  have hP0 : P = [] := by
    rcases hP with h | ⟨_, h⟩
    · exact h
    · exact absurd hp h
  have qU : ∀ e ∈ U, ∀ n, e ≠ Event.popupOnDraw n := by
    intro e he n
    rcases hU with h | h <;> rw [h] at he <;> simp at he
    rw [he]; exact fun hx => by cases hx
  have qu : ∀ e ∈ u, ∀ n, e ≠ Event.popupOnDraw n := by
    intro e he n
    rcases hu with h | h <;> rw [h] at he <;> simp at he
    rw [he]; exact fun hx => by cases hx
  have ql : ∀ e ∈ l, ∀ n, e ≠ Event.popupOnDraw n := by
    intro e he n
    rcases hl with h | h <;> rw [h] at he <;> simp at he
    rw [he]; exact fun hx => by cases hx
  have qS : ∀ e ∈ S, ∀ n, e ≠ Event.popupOnDraw n := by
    intro e he n
    rcases hS e he with ⟨c, h⟩ | ⟨q, h⟩ | ⟨cb, sc, sz, h⟩ <;> rw [h] <;>
      exact fun hx => by cases hx
  have qB : ∀ e ∈ [Event.backend BackendCall.BeginDrawing,
      Event.backend BackendCall.ClearBackground], ∀ n, e ≠ Event.popupOnDraw n := by
    intro e he n
    simp at he
    rcases he with h | h <;> rw [h] <;> exact fun hx => by cases hx
  have qD : ∀ e ∈ D, ∀ n, e ≠ Event.popupOnDraw n := by
    intro e he n
    rcases hD with h | h <;> rw [h] at he <;> simp at he
    rw [he]; exact fun hx => by cases hx
  have qO : ∀ e ∈ O, ∀ n, e ≠ Event.popupOnDraw n := by
    intro e he n
    rcases hO with h | ⟨_, h | h⟩ | ⟨_, h | h⟩ <;> rw [h] at he <;> simp at he <;>
      (rw [he]; exact fun hx => by cases hx)
  have qP : ∀ e ∈ P, ∀ n, e ≠ Event.popupOnDraw n := by
    intro e he
    rw [hP0] at he
    cases he
  have qE : ∀ e ∈ [Event.backend BackendCall.EndDrawing], ∀ n, e ≠ Event.popupOnDraw n := by
    intro e he n
    simp at he
    rw [he]; exact fun hx => by cases hx
  exact ⟨U ++ (u ++ l) ++ S ++
      [Event.backend BackendCall.BeginDrawing, Event.backend BackendCall.ClearBackground] ++
      D ++ O ++ P ++ [Event.backend BackendCall.EndDrawing],
    by rw [h1]; simp only [List.append_assoc],
    noPopup_append (noPopup_append (noPopup_append (noPopup_append (noPopup_append
      (noPopup_append (noPopup_append qU (noPopup_append qu ql)) qS) qB) qD) qO) qP) qE⟩

theorem tick_popupState (w : Window) (opts : Options) (dt : ℚ) :
    (w.tick opts dt).PopupState = w.PopupState :=
  (tick_trace w opts dt).choose_spec.choose_spec.2.2.2.2

theorem frame_popupState (w : Window) (opts : Options) (lastW lastH : Int) (dt : ℚ)
    (scr : Screen) : (w.frame opts lastW lastH dt scr).1.PopupState = w.PopupState := by
  rw [(frame_sameState w opts lastW lastH dt scr).2.2.2.2.2, tick_popupState,
    (updateScene_sameState w dt).2.2.2.2.2]

/-- Before `init` no popup is current and nothing has been emitted. -/
theorem preInit_quiet {w : Window} (h : PreInit w) :
    w.PopupState.current = "" ∧ w.trace = [] := by
  induction h with
  | fresh wd => exact ⟨rfl, rfl⟩
  | defineScene name scene _ ih => exact ih
  | defineTransition name tr _ ih => exact ih
  | definePopup name popup _ ih => exact ih
  | listenScale event cb _ ih =>
    unfold listenScale
    split_ifs
    · exact ih
    · exact ih
  | listenStatus event cb _ ih =>
    unfold listenStatus
    split_ifs
    · exact ih
    · exact ih
  | navigate scene use_transition _ ih =>
    obtain ⟨_, _, _, n4, n5, _⟩ := navigate_fields _ scene use_transition
    rw [n4, n5]
    exact ih
  | showPopup popup _ ih =>
    unfold showPopup
    split_ifs
    · exact ih
    · exact ih
  | hide popup _ ih =>
    unfold hide
    split_ifs
    · exact ih
    · exact ih

/-- In every reachable window no popup is current and no popup callback has been
called. -/
theorem PopupQuiet_of_reachable {opts : Options} {w : Window} (h : Reachable opts w) :
    PopupQuiet w := by
  induction h with
  | start scr lastW lastH hpre hinit =>
    obtain ⟨hp0, ht0⟩ := preInit_quiet hpre
    obtain ⟨c, _, _, hsame⟩ := initStart_ok hinit
    refine PopupQuiet_of_adds (initStart_addsNoPopupCall hinit) ?_ ⟨hp0, by rw [ht0]; simp⟩
    rw [hsame.2.2.2.2.2]
  | defineScene name scene _ ih => exact ih
  | defineTransition name tr _ ih => exact ih
  | definePopup name popup _ ih => exact ih
  | listenScale event cb _ ih =>
    unfold listenScale
    split_ifs
    · exact ih
    · exact ih
  | listenStatus event cb _ ih =>
    unfold listenStatus
    split_ifs
    · exact ih
    · exact ih
  | navigate scene use_transition _ ih =>
    obtain ⟨_, _, _, n4, n5, _⟩ := navigate_fields _ scene use_transition
    unfold PopupQuiet
    rw [n4, n5]
    exact ih
  | showPopup popup _ ih =>
    unfold showPopup
    split_ifs
    · exact ih
    · exact ih
  | hide popup _ ih =>
    unfold hide
    split_ifs
    · exact ih
    · exact ih
  | tick dt _ ih =>
    refine PopupQuiet_of_adds (tick_addsNoPopupCall _ opts dt) ?_ ih
    rw [tick_popupState]
  | frame lastW lastH dt scr _ ih =>
    refine PopupQuiet_of_adds (frame_addsNoPopupCall _ opts lastW lastH dt scr ih.1) ?_ ih
    rw [frame_popupState]

/-- C19: `PopupState.current` is never written: `show`, `hide`, `navigate`,
`tryStartTransition`, `advanceTransition` and a whole frame leave it as it is, and
`init` does not set it.  So in every reachable state it is empty, no popup's
`onDraw` has been called (the loop calls no other popup callback: `onShow`, `onHide`
and `onUpdate` are called nowhere), and `hide(n)` changes nothing for every
non-empty name `n`. -/
theorem C19_popup_never_current (opts : Options) (w : Window) (hr : Reachable opts w) :
    w.PopupState.current = "" ∧
    (∀ e ∈ w.trace, ∀ n, e ≠ Event.popupOnDraw n) ∧
    (∀ n, n ≠ "" → w.hide n = w) ∧
    (∀ n, (w.showPopup n).PopupState.current = w.PopupState.current) ∧
    (∀ n, (w.hide n).PopupState.current = w.PopupState.current) ∧
    (∀ s t, (w.navigate s t).PopupState.current = w.PopupState.current) ∧
    (w.tryStartTransition opts).PopupState.current = w.PopupState.current ∧
    (∀ dt, (w.advanceTransition dt).PopupState.current = w.PopupState.current) ∧
    (∀ lastW lastH dt scr,
      (w.frame opts lastW lastH dt scr).1.PopupState.current = w.PopupState.current) := by
  obtain ⟨hq1, hq2⟩ := PopupQuiet_of_reachable hr
  refine ⟨hq1, hq2, ?_, ?_, ?_, ?_, ?_, ?_, ?_⟩
  · intro n hn
    unfold hide
    rw [if_neg (by rw [hq1]; exact fun h => hn h.symm)]
  · intro n
    unfold showPopup
    split_ifs <;> rfl
  · intro n
    unfold hide
    split_ifs <;> rfl
  · intro s t
    rw [(navigate_fields w s t).2.2.2.1]
  · obtain ⟨ss, ts, heq, _⟩ := tryStartTransition_shape w opts
    rw [heq]
  · intro dt
    rw [(advanceTransition_keeps w dt).2.2.2.1]
  · intro lastW lastH dt scr
    rw [frame_popupState]

/-- Witness of C19: the fade scenario at the start of the frame loop. -/
theorem C19_popup_never_current_witness :
    fadeStart.PopupState.current = "" ∧ fadeStart.hide "menu" = fadeStart := by
  have h := C19_popup_never_current fadeOptions fadeStart fadeStart_reachable
  exact ⟨h.1, h.2.2.1 "menu" (by decide)⟩

/-! ## Emptiness of the current scene name -/

theorem NamedInv_of_sameState {v w : Window} (h : sameState v w) (hi : NamedInv w) :
    NamedInv v := by
  obtain ⟨_, _, _, h4, h5, _⟩ := h
  unfold NamedInv
  rw [h4, h5]
  exact hi

theorem NamedInv_tryStartTransition {w : Window} (opts : Options) (hi : NamedInv w) :
    NamedInv (w.tryStartTransition opts) := by
  by_cases hg : w.TransitionState.want_change = true ∧
      w.TransitionState.state = Transition_State.State.Inactive
  · rw [tryStartTransition_fire opts hg.1 hg.2]
    obtain ⟨_, h2, _⟩ := resolveTarget_scenes w opts
    split_ifs with h
    · exact ⟨by show (w.resolveTarget opts).SceneState.current ≠ ""
                rw [h2]; exact hi.1, fun _ => h.1⟩
    · refine ⟨by show (w.resolveTarget opts).SceneState.current ≠ ""
                 rw [h2]; exact hi.1, fun he => ?_⟩
      have he2 : w.TransitionState.state = Transition_State.State.Enter := he
      rw [hg.2] at he2
      cases he2
  · rw [tryStartTransition_noop opts hg]
    exact hi

theorem NamedInv_advanceTransition {w : Window} (dt : ℚ) (hi : NamedInv w) :
    NamedInv (w.advanceTransition dt) := by
  cases hs : w.TransitionState.state with
  | Inactive =>
    rw [advanceTransition_inactive dt hs]
    exact ⟨hi.1, fun he => hi.2 he⟩
  | Enter =>
    by_cases hp : 1 ≤ norm (w.TransitionState.time_accumulator + dt)
        w.TransitionState.active_duration
    · rw [advanceTransition_enter_commit dt hs hp]
      exact ⟨hi.2 hs, fun he => by cases he⟩
    · rw [advanceTransition_enter_stay dt hs (not_le.mp hp)]
      exact ⟨hi.1, fun he => hi.2 he⟩
  | Exit =>
    by_cases hp : norm (w.TransitionState.time_accumulator - dt)
        w.TransitionState.active_duration ≤ 0
    · rw [advanceTransition_exit_end dt hs hp]
      exact ⟨hi.1, fun he => by cases he⟩
    · rw [advanceTransition_exit_stay dt hs (not_le.mp hp)]
      refine ⟨hi.1, fun he => ?_⟩
      have he2 : w.TransitionState.state = Transition_State.State.Enter := he
      rw [hs] at he2
      cases he2

/-- When the start scene name of the options is not empty, the current scene name
is not empty in any reachable window. -/
theorem NamedInv_of_reachable {opts : Options} {w : Window} (h : Reachable opts w)
    (hstart : opts.scene.start_scene ≠ "") : NamedInv w := by
  induction h with
  | @start w0 v scr lastW lastH _ hinit =>
    obtain ⟨c, _, hceq, hsame⟩ := initStart_ok hinit
    refine NamedInv_of_sameState hsame ⟨?_, fun he => by cases he⟩
    show c ≠ ""
    rw [hceq]
    split_ifs with h1
    · exact hstart
    · intro hfb
      have herr := (initStart_error_iff w0 opts scr).mpr
        ⟨by simpa using h1, Or.inl hfb⟩
      obtain ⟨e, he⟩ := herr
      rw [he] at hinit
      cases hinit
  | defineScene name scene _ ih => exact ih
  | defineTransition name tr _ ih => exact ih
  | definePopup name popup _ ih => exact ih
  | listenScale event cb _ ih =>
    unfold listenScale
    split_ifs
    · exact ih
    · exact ih
  | listenStatus event cb _ ih =>
    unfold listenStatus
    split_ifs
    · exact ih
    · exact ih
  | navigate scene use_transition _ ih =>
    obtain ⟨_, _, _, _, _, n6, n7⟩ := navigate_fields _ scene use_transition
    unfold NamedInv
    rw [n6, n7]
    exact ih
  | showPopup popup _ ih =>
    unfold showPopup
    split_ifs
    · exact ih
    · exact ih
  | hide popup _ ih =>
    unfold hide
    split_ifs
    · exact ih
    · exact ih
  | tick dt _ ih =>
    exact NamedInv_advanceTransition dt (NamedInv_tryStartTransition opts ih)
  | frame lastW lastH dt scr _ ih =>
    exact NamedInv_of_sameState (frame_sameState _ _ _ _ _ _)
      (NamedInv_advanceTransition dt (NamedInv_tryStartTransition opts
        (NamedInv_of_sameState (updateScene_sameState _ _) ih)))

/-- C18, the code at the failing input: a scene is registered under the empty name
and the options name it as start scene.  `init` succeeds and the frame loop starts
with `current` empty; this window is reachable, and a frame on it leaves `current`
empty and calls neither `onUpdate` nor `onDraw` of any scene. -/
theorem C18_empty_start_scene :
    anonDefs.initStart anonOptions fadeScreen = Except.ok (anonStart, 600, 600) ∧
    Reachable anonOptions anonStart ∧
    anonStart.SceneState.current = "" ∧
    (anonStart.frame anonOptions 600 600 (1 / 4) fadeScreen).1.SceneState.current = "" ∧
    (anonStart.frame anonOptions 600 600 (1 / 4) fadeScreen).1.trace =
      anonStart.trace ++
        [Event.backend BackendCall.BeginDrawing, Event.backend BackendCall.ClearBackground,
          Event.backend BackendCall.EndDrawing] := by
  refine ⟨anonStart_init, Reachable.start fadeScreen 600 600
    (PreInit.defineScene _ _ (PreInit.defineScene _ _ (PreInit.fresh _))) anonStart_init,
    rfl, ?_, ?_⟩
  · simp [anonStart, anonAt, anonOptions, fadeScreen, frame, updateScene, tick,
      tryStartTransition, advanceTransition, scaleCallbackExecution, emit, drawScene,
      drawOverlay, drawPopup]
  · simp [anonStart, anonAt, anonOptions, fadeScreen, frame, updateScene, tick,
      tryStartTransition, advanceTransition, scaleCallbackExecution, emit, drawScene,
      drawOverlay, drawPopup]

/-! ## A request made between the frames of a running transition -/

theorem swapStart_init :
    swapDefs.initStart fadeOptions fadeScreen = Except.ok (swapStart, 600, 600) := by
  simp [swapStart, swapAt, swapDefs, fadeDefs, fadeOptions, fadeScreen, initStart,
    chooseStart, fresh, defineScene, defineTransition, Dict.assign,
    Dict.index, Dict.find, Dict.put, Dict.contains, emit, fireStatusListeners,
    firstOnLoad, scenesAt, ensureCanvas, List.lookup]

theorem swap_emit (tgt pend : String) (ts : Transition_State) (extra : List Event) (e : Event) :
    (swapAt tgt pend ts extra).emit e = swapAt tgt pend ts (extra ++ [e]) := by
  simp [swapAt, emit]

theorem swap_updateScene (tgt pend : String) (ts : Transition_State) (extra : List Event)
    (dt : ℚ) :
    (swapAt tgt pend ts extra).updateScene dt =
      swapAt tgt pend ts (extra ++ [Event.sceneOnUpdate "A" dt]) := by
  simp [swapAt, updateScene, scenesAt, emit, Dict.index, Dict.find, Dict.contains, List.lookup]

theorem swap_drawScene (tgt pend : String) (ts : Transition_State) (extra : List Event) :
    (swapAt tgt pend ts extra).drawScene =
      swapAt tgt pend ts (extra ++ [Event.sceneOnDraw "A"]) := by
  simp [swapAt, drawScene, scenesAt, emit, Dict.index, Dict.find, Dict.contains, List.lookup]

theorem swap_drawPopup (tgt pend : String) (ts : Transition_State) (extra : List Event) :
    (swapAt tgt pend ts extra).drawPopup = swapAt tgt pend ts extra := by
  simp [swapAt, drawPopup]

theorem swap_scale (tgt pend : String) (ts : Transition_State) (extra : List Event) :
    (swapAt tgt pend ts extra).scaleCallbackExecution fadeScreen 600 600 600 600 =
      (swapAt tgt pend ts extra, 600, 600) := by
  simp [scaleCallbackExecution, fadeScreen]

/-- The Enter overlay of the scenario is drawn by the transition whose name is in
`active_transition` when the frame is drawn. -/
theorem swap_drawOverlay (tgt pend : String) (wc : Bool) (name : String) (acc dur prog dt : ℚ)
    (extra : List Event) (hn : name = "fade" ∨ name = "blinds") :
    (swapAt tgt pend ⟨.Enter, wc, name, acc, dur, .Enter, prog⟩ extra).drawOverlay fadeScreen dt =
      swapAt tgt pend ⟨.Enter, wc, name, acc, dur, .Enter, prog⟩
        (extra ++ [Event.transitionOnEnter name dt prog]) := by
  rcases hn with rfl | rfl <;>
    simp [swapAt, drawOverlay, callOnEnter, transitionsAt, emit, Dict.index, Dict.find,
      Dict.contains, List.lookup]

theorem swap_navigate :
    swapStart.navigate "B" "fade" =
      swapAt "" "B" ⟨.Inactive, true, "fade", 0, 1 / 2, .None, 0⟩ [] ∧
    ∀ extra : List Event,
      (swapAt "B" "" ⟨.Enter, false, "fade", 1 / 4, 1, .Enter, 1 / 4⟩ extra).navigate "A" "blinds" =
        swapAt "B" "A" ⟨.Enter, true, "blinds", 1 / 4, 1, .Enter, 1 / 4⟩ extra := by
  refine ⟨?_, fun extra => ?_⟩ <;>
    simp [swapStart, swapAt, navigate, Dict.contains, Dict.find, List.lookup]

theorem swap_ticks (extra : List Event) :
    (swapAt "" "B" ⟨.Inactive, true, "fade", 0, 1 / 2, .None, 0⟩ extra).tick fadeOptions (1 / 4) =
      swapAt "B" "" ⟨.Enter, false, "fade", 1 / 4, 1, .Enter, 1 / 4⟩ extra ∧
    (swapAt "B" "A" ⟨.Enter, true, "blinds", 1 / 4, 1, .Enter, 1 / 4⟩ extra).tick fadeOptions
        (1 / 4) =
      swapAt "B" "A" ⟨.Enter, true, "blinds", 1 / 2, 1, .Enter, 1 / 2⟩ extra := by
  refine ⟨?_, ?_⟩
  · simp [swapAt, fadeOptions, Dict.index, Dict.find, Dict.contains, tick,
      tryStartTransition, resolveTarget, pickTransitionName, pickTransitionDuration,
      transitionsAt, beginEnterPhase, advanceTransition, norm, List.lookup]
    norm_num
  · simp [swapAt, fadeOptions, tick, tryStartTransition, advanceTransition, norm]
    norm_num

/-- A frame of `1/4` second of the scenario whose tick leads to an Enter state: the
events are those of `swapFrame` for the transition named in `active_transition`. -/
theorem swap_frame (tgt pend tgt2 pend2 : String) (ts : Transition_State) (wc : Bool)
    (name : String) (acc dur prog : ℚ) (extra : List Event)
    (ht : ∀ ex : List Event, (swapAt tgt pend ts ex).tick fadeOptions (1 / 4) =
      swapAt tgt2 pend2 ⟨.Enter, wc, name, acc, dur, .Enter, prog⟩ ex)
    (hn : name = "fade" ∨ name = "blinds") :
    ((swapAt tgt pend ts extra).frame fadeOptions 600 600 (1 / 4) fadeScreen).1 =
      swapAt tgt2 pend2 ⟨.Enter, wc, name, acc, dur, .Enter, prog⟩
        (extra ++ swapFrame name prog) := by
  have hw : fadeOptions.general.width = 600 := rfl
  have hh : fadeOptions.general.height = 600 := rfl
  simp only [frame, swap_updateScene, ht, hw, hh, swap_scale, swap_emit, swap_drawScene,
    swap_drawOverlay _ _ _ _ _ _ _ _ _ hn, swap_drawPopup, swapFrame, List.append_assoc,
    List.singleton_append, List.cons_append, List.nil_append]

/-- The two frames of the scenario and the call between them. -/
theorem swap_steps :
    swapEnter = swapAt "B" "" ⟨.Enter, false, "fade", 1 / 4, 1, .Enter, 1 / 4⟩
      (swapFrame "fade" (1 / 4)) ∧
    swapEnter.navigate "A" "blinds" =
      swapAt "B" "A" ⟨.Enter, true, "blinds", 1 / 4, 1, .Enter, 1 / 4⟩
        (swapFrame "fade" (1 / 4)) ∧
    swapAfter = swapAt "B" "A" ⟨.Enter, true, "blinds", 1 / 2, 1, .Enter, 1 / 2⟩
      (swapFrame "fade" (1 / 4) ++ swapFrame "blinds" (1 / 2)) := by
  have h1 : swapEnter = swapAt "B" "" ⟨.Enter, false, "fade", 1 / 4, 1, .Enter, 1 / 4⟩
      (swapFrame "fade" (1 / 4)) := by
    unfold swapEnter
    rw [swap_navigate.1, swap_frame _ _ _ _ _ _ _ _ _ _ [] (fun ex => (swap_ticks ex).1)
      (Or.inl rfl)]
    rfl
  have h2 := swap_navigate.2 (swapFrame "fade" (1 / 4))
  refine ⟨h1, by rw [h1]; exact h2, ?_⟩
  unfold swapAfter
  rw [h1, h2, swap_frame _ _ _ _ _ _ _ _ _ _ _ (fun ex => (swap_ticks ex).2) (Or.inr rfl)]

/-- While a transition runs, a tick that does not end it leaves `active_transition`
and `active_duration` as they are. -/
theorem tick_in_flight_keeps {w : Window} (opts : Options) (dt : ℚ)
    (hs : w.TransitionState.state ≠ Transition_State.State.Inactive)
    (he : (w.tick opts dt).TransitionState.state ≠ Transition_State.State.Inactive) :
    (w.tick opts dt).TransitionState.active_transition = w.TransitionState.active_transition ∧
    (w.tick opts dt).TransitionState.active_duration = w.TransitionState.active_duration := by
  unfold tick at he ⊢
  rw [tryStartTransition_noop opts (fun h => hs h.2)] at he ⊢
  refine ⟨?_, (advanceTransition_keeps w dt).2.2.2.2.2.2.2⟩
  cases hst : w.TransitionState.state with
  | Inactive => exact absurd hst hs
  | Enter => exact (advanceTransition_enter_keeps dt hst).1
  | Exit =>
    by_cases hp : norm (w.TransitionState.time_accumulator - dt)
        w.TransitionState.active_duration ≤ 0
    · rw [advanceTransition_exit_end dt hst hp] at he
      exact absurd rfl he
    · rw [advanceTransition_exit_stay dt hst (not_le.mp hp)]

/-- The calls `show` and `hide` leave the transition state as it is. -/
theorem popup_calls_keep_transition (w : Window) (popup : String) :
    (w.showPopup popup).TransitionState = w.TransitionState ∧
    (w.hide popup).TransitionState = w.TransitionState := by
  unfold showPopup hide
  refine ⟨?_, ?_⟩ <;> split_ifs <;> rfl

/-- C21, the code at the failing input: scenes `A` and `B`, transitions `fade`
(duration 1) and `blinds` (duration `1/4`), start scene `A`.  After
`navigate("B", "fade")` and a frame of `1/4` second the transition to `B` is in its
Enter phase with `active_transition` `fade` and `active_duration` 1.  A call
`navigate("A", "blinds")` made then leaves the state Enter and `active_duration` 1,
and writes `blinds`, whose registered duration is `1/4`, to `active_transition`; the
next frame is still in the Enter phase towards `B` and its overlay is drawn by
`onEnter` of `blinds` instead of `fade`. -/
theorem C21_navigate_in_flight :
    swapDefs.initStart fadeOptions fadeScreen = Except.ok (swapStart, 600, 600) ∧
    Reachable fadeOptions (swapEnter.navigate "A" "blinds") ∧
    swapEnter.TransitionState.state = Transition_State.State.Enter ∧
    swapEnter.TransitionState.active_transition = "fade" ∧
    swapEnter.TransitionState.active_duration = 1 ∧
    (swapEnter.navigate "A" "blinds").TransitionState.state = Transition_State.State.Enter ∧
    (swapEnter.navigate "A" "blinds").TransitionState.active_transition = "blinds" ∧
    (swapEnter.navigate "A" "blinds").TransitionState.active_duration = 1 ∧
    ((swapEnter.navigate "A" "blinds").pickTransitionDuration "blinds").1 = 1 / 4 ∧
    swapAfter.TransitionState.state = Transition_State.State.Enter ∧
    swapAfter.SceneState.target = "B" ∧
    swapAfter.TransitionState.active_transition = "blinds" ∧
    swapAfter.TransitionState.active_duration = 1 ∧
    swapAfter.trace = swapEnter.trace ++
      [Event.sceneOnUpdate "A" (1 / 4), Event.backend BackendCall.BeginDrawing,
        Event.backend BackendCall.ClearBackground, Event.sceneOnDraw "A",
        Event.transitionOnEnter "blinds" (1 / 4) (1 / 2),
        Event.backend BackendCall.EndDrawing] := by
  obtain ⟨h1, h2, h3⟩ := swap_steps
  have hr : Reachable fadeOptions (swapEnter.navigate "A" "blinds") :=
    Reachable.navigate _ _ (Reachable.frame 600 600 (1 / 4) fadeScreen
      (Reachable.navigate "B" "fade" (Reachable.start fadeScreen 600 600
        (PreInit.defineTransition _ _ (PreInit.defineTransition _ _ (PreInit.defineScene _ _
          (PreInit.defineScene _ _ (PreInit.fresh _))))) swapStart_init)))
  refine ⟨swapStart_init, hr, ?_, ?_, ?_, ?_, ?_, ?_, ?_, ?_, ?_, ?_, ?_, ?_⟩
  · rw [h1]; rfl
  · rw [h1]; rfl
  · rw [h1]; rfl
  · rw [h2]; rfl
  · rw [h2]; rfl
  · rw [h2]; rfl
  · rw [h2]
    simp [swapAt, pickTransitionDuration, transitionsAt, Dict.index, Dict.find, Dict.contains,
      List.lookup]
  · rw [h3]; rfl
  · rw [h3]; rfl
  · rw [h3]; rfl
  · rw [h3]; rfl
  · rw [h3, h1]
    simp [swapAt, swapFrame]

/-! ## Agreement of the transition state with the scene state -/

theorem PhaseInv_of_sameState {v w : Window} (h : sameState v w) (hi : PhaseInv w) :
    PhaseInv v := by
  obtain ⟨_, _, _, h4, h5, _⟩ := h
  unfold PhaseInv
  rw [h4, h5]
  exact hi

/-- Before `init` the state is Inactive, and the transition name is empty unless
`navigate` has been called. -/
theorem preInit_transitionState {w : Window} (h : PreInit w) :
    w.TransitionState.state = Transition_State.State.Inactive ∧
    (w.TransitionState.want_change = false → w.TransitionState.active_transition = "") := by
  induction h with
  | fresh wd => exact ⟨rfl, fun _ => rfl⟩
  | defineScene name scene _ ih => exact ih
  | defineTransition name tr _ ih => exact ih
  | definePopup name popup _ ih => exact ih
  | listenScale event cb _ ih =>
    unfold listenScale
    split_ifs
    · exact ih
    · exact ih
  | listenStatus event cb _ ih =>
    unfold listenStatus
    split_ifs
    · exact ih
    · exact ih
  | navigate scene use_transition _ ih =>
    obtain ⟨_, _, _, _, _, _, n7⟩ := navigate_fields _ scene use_transition
    rw [n7]
    exact ⟨ih.1, fun hw => by cases hw⟩
  | showPopup popup _ ih =>
    unfold showPopup
    split_ifs
    · exact ih
    · exact ih
  | hide popup _ ih =>
    unfold hide
    split_ifs
    · exact ih
    · exact ih

/-- After `tryStartTransition` the agreement holds, and in state Inactive the
transition name is empty whether or not a request waits. -/
theorem PhaseInv_tryStartTransition {w : Window} (opts : Options) (hi : PhaseInv w) :
    PhaseInv (w.tryStartTransition opts) ∧
    ((w.tryStartTransition opts).TransitionState.state = Transition_State.State.Inactive →
      (w.tryStartTransition opts).TransitionState.active_transition = "") := by
  by_cases hg : w.TransitionState.want_change = true ∧
      w.TransitionState.state = Transition_State.State.Inactive
  · rw [tryStartTransition_fire opts hg.1 hg.2]
    obtain ⟨_, h2, _⟩ := resolveTarget_scenes w opts
    split_ifs with h
    · refine ⟨⟨fun _ => ⟨h.1, ?_⟩, (fun he => by cases he), (fun he => by cases he)⟩,
        (fun he => by cases he)⟩
      show (w.resolveTarget opts).SceneState.target ≠ (w.resolveTarget opts).SceneState.current
      rw [h2]
      exact h.2
    · refine ⟨⟨fun he => ?_, fun he => ?_, fun _ => ⟨(hi.2.2 hg.2).1, fun _ => rfl⟩⟩,
        fun _ => rfl⟩
      · have he2 : w.TransitionState.state = Transition_State.State.Enter := he
        rw [hg.2] at he2
        cases he2
      · have he2 : w.TransitionState.state = Transition_State.State.Exit := he
        rw [hg.2] at he2
        cases he2
  · rw [tryStartTransition_noop opts hg]
    refine ⟨hi, fun hs => ?_⟩
    have hw : ¬ w.TransitionState.want_change = true := fun hw => hg ⟨hw, hs⟩
    exact (hi.2.2 hs).2 (by simpa using hw)

theorem PhaseInv_advanceTransition {w : Window} (dt : ℚ) (hi : PhaseInv w) :
    PhaseInv (w.advanceTransition dt) := by
  cases hs : w.TransitionState.state with
  | Inactive =>
    rw [advanceTransition_inactive dt hs]
    exact ⟨fun he => hi.1 he, fun he => hi.2.1 he, fun he => hi.2.2 he⟩
  | Enter =>
    by_cases hp : 1 ≤ norm (w.TransitionState.time_accumulator + dt)
        w.TransitionState.active_duration
    · rw [advanceTransition_enter_commit dt hs hp]
      exact ⟨(fun he => by cases he), (fun _ => rfl), (fun he => by cases he)⟩
    · rw [advanceTransition_enter_stay dt hs (not_le.mp hp)]
      refine ⟨fun he => hi.1 he, fun he => hi.2.1 he, fun he => ?_⟩
      have he2 : w.TransitionState.state = Transition_State.State.Inactive := he
      rw [hs] at he2
      cases he2
  | Exit =>
    by_cases hp : norm (w.TransitionState.time_accumulator - dt)
        w.TransitionState.active_duration ≤ 0
    · rw [advanceTransition_exit_end dt hs hp]
      exact ⟨(fun he => by cases he), (fun he => by cases he), (fun _ => ⟨rfl, fun _ => rfl⟩)⟩
    · rw [advanceTransition_exit_stay dt hs (not_le.mp hp)]
      refine ⟨fun he => hi.1 he, fun he => hi.2.1 he, fun he => ?_⟩
      have he2 : w.TransitionState.state = Transition_State.State.Inactive := he
      rw [hs] at he2
      cases he2

/-- An `advanceTransition` call that ends in state Inactive leaves the transition
name empty when it was empty in state Inactive before the call. -/
theorem advanceTransition_inactive_name {w : Window} (dt : ℚ)
    (hn : w.TransitionState.state = Transition_State.State.Inactive →
      w.TransitionState.active_transition = "")
    (he : (w.advanceTransition dt).TransitionState.state = Transition_State.State.Inactive) :
    (w.advanceTransition dt).TransitionState.active_transition = "" := by
  cases hs : w.TransitionState.state with
  | Inactive =>
    rw [advanceTransition_inactive dt hs]
    exact hn hs
  | Enter =>
    by_cases hp : 1 ≤ norm (w.TransitionState.time_accumulator + dt)
        w.TransitionState.active_duration
    · rw [advanceTransition_enter_commit dt hs hp] at he
      cases he
    · rw [advanceTransition_enter_stay dt hs (not_le.mp hp)] at he
      have he2 : w.TransitionState.state = Transition_State.State.Inactive := he
      rw [hs] at he2
      cases he2
  | Exit =>
    by_cases hp : norm (w.TransitionState.time_accumulator - dt)
        w.TransitionState.active_duration ≤ 0
    · rw [advanceTransition_exit_end dt hs hp]
    · rw [advanceTransition_exit_stay dt hs (not_le.mp hp)] at he
      have he2 : w.TransitionState.state = Transition_State.State.Inactive := he
      rw [hs] at he2
      cases he2

/-- A tick that ends in state Inactive ends with the accumulator at 0 and the
transition name empty. -/
theorem tick_inactive_clean {w : Window} (opts : Options) (dt : ℚ) (hi : PhaseInv w)
    (he : (w.tick opts dt).TransitionState.state = Transition_State.State.Inactive) :
    (w.tick opts dt).TransitionState.time_accumulator = 0 ∧
    (w.tick opts dt).TransitionState.active_transition = "" := by
  obtain ⟨h1, h2⟩ := PhaseInv_tryStartTransition opts hi
  exact ⟨((PhaseInv_advanceTransition dt h1).2.2 he).1, advanceTransition_inactive_name dt h2 he⟩

theorem PhaseInv_of_reachable {opts : Options} {w : Window} (h : Reachable opts w) :
    PhaseInv w := by
  induction h with
  | @start w0 v scr lastW lastH hpre hinit =>
    obtain ⟨_, hname⟩ := preInit_transitionState hpre
    obtain ⟨c, _, _, hsame⟩ := initStart_ok hinit
    exact PhaseInv_of_sameState hsame
      ⟨(fun he => by cases he), (fun he => by cases he), (fun _ => ⟨rfl, hname⟩)⟩
  | defineScene name scene _ ih => exact ih
  | defineTransition name tr _ ih => exact ih
  | definePopup name popup _ ih => exact ih
  | listenScale event cb _ ih =>
    unfold listenScale
    split_ifs
    · exact ih
    · exact ih
  | listenStatus event cb _ ih =>
    unfold listenStatus
    split_ifs
    · exact ih
    · exact ih
  | @navigate w scene use_transition _ ih =>
    obtain ⟨_, _, _, _, _, n6, n7⟩ := navigate_fields w scene use_transition
    unfold PhaseInv
    rw [n6, n7]
    exact ⟨fun he => ih.1 he, fun he => ih.2.1 he,
      fun he => ⟨(ih.2.2 he).1, (fun hw => by cases hw)⟩⟩
  | showPopup popup _ ih =>
    unfold showPopup
    split_ifs
    · exact ih
    · exact ih
  | hide popup _ ih =>
    unfold hide
    split_ifs
    · exact ih
    · exact ih
  | tick dt _ ih =>
    exact PhaseInv_advanceTransition dt (PhaseInv_tryStartTransition opts ih).1
  | frame lastW lastH dt scr _ ih =>
    exact PhaseInv_of_sameState (frame_sameState _ _ _ _ _ _)
      (PhaseInv_advanceTransition dt (PhaseInv_tryStartTransition opts
        (PhaseInv_of_sameState (updateScene_sameState _ _) ih)).1)

/-- C22: in every window reachable after a successful `init`, `current` names a
registered scene; in state Enter the target is non-empty, names a registered scene
and differs from `current`; in state Exit `current` equals the target; and every
tick, alone or inside a frame, that ends in state Inactive ends with
`time_accumulator` 0 and `active_transition` empty. -/
theorem C22_reachable_invariant (opts : Options) (w : Window) (hr : Reachable opts w) :
    w.scenes.contains w.SceneState.current = true ∧
    (w.TransitionState.state = Transition_State.State.Enter →
      w.SceneState.target ≠ "" ∧ w.scenes.contains w.SceneState.target = true ∧
        w.SceneState.target ≠ w.SceneState.current) ∧
    (w.TransitionState.state = Transition_State.State.Exit →
      w.SceneState.current = w.SceneState.target) ∧
    (∀ dt, (w.tick opts dt).TransitionState.state = Transition_State.State.Inactive →
      (w.tick opts dt).TransitionState.time_accumulator = 0 ∧
        (w.tick opts dt).TransitionState.active_transition = "") ∧
    (∀ lastW lastH dt scr,
      (w.frame opts lastW lastH dt scr).1.TransitionState.state =
        Transition_State.State.Inactive →
      (w.frame opts lastW lastH dt scr).1.TransitionState.time_accumulator = 0 ∧
        (w.frame opts lastW lastH dt scr).1.TransitionState.active_transition = "") := by
  have hs := SceneInv_of_reachable hr
  have hp := PhaseInv_of_reachable hr
  refine ⟨hs.1, fun he => ⟨(hp.1 he).1, hs.2 he, (hp.1 he).2⟩, hp.2.1, ?_, ?_⟩
  · intro dt he
    exact tick_inactive_clean opts dt hp he
  · intro lastW lastH dt scr he
    have hts := (frame_sameState w opts lastW lastH dt scr).2.2.2.2.1
    rw [hts] at he ⊢
    exact tick_inactive_clean opts dt (PhaseInv_of_sameState (updateScene_sameState w dt) hp) he

/-- Witness of C22: the fade scenario one tick into the Enter phase of the
transition from `A` to `B`. -/
theorem C22_reachable_invariant_witness :
    Reachable fadeOptions ((fadeStart.navigate "B" "fade").tick fadeOptions (1 / 4)) ∧
    ((fadeStart.navigate "B" "fade").tick fadeOptions (1 / 4)).TransitionState.state =
      Transition_State.State.Enter ∧
    ((fadeStart.navigate "B" "fade").tick fadeOptions (1 / 4)).SceneState.target ≠ "" ∧
    ((fadeStart.navigate "B" "fade").tick fadeOptions (1 / 4)).SceneState.target ≠
      ((fadeStart.navigate "B" "fade").tick fadeOptions (1 / 4)).SceneState.current := by
  have hr : Reachable fadeOptions ((fadeStart.navigate "B" "fade").tick fadeOptions (1 / 4)) :=
    Reachable.tick _ (Reachable.navigate _ _ fadeStart_reachable)
  have he : ((fadeStart.navigate "B" "fade").tick fadeOptions (1 / 4)).TransitionState.state =
      Transition_State.State.Enter := by
    rw [fade_steps.1]
    rfl
  have h := (C22_reachable_invariant fadeOptions _ hr).2.1 he
  exact ⟨hr, he, h.1, h.2.2⟩

end Window

end IdleGame
